import Mathlib

/-!
# Band-splitting filter bank (`modules/audio_processing/splitting_filter.cc`)

A shallow embedding of the two-band QMF analysis/synthesis transform, of the
all-pass cascade it is built from, and of the `SplittingFilter` facade,
followed by the WAV writer and reader of `AEC3Lib/wave_file.cpp`.

Conventions of the embedding:

* `int32_t`, `int16_t` and `size_t` values are `Int`/`Nat`; every place where
  the source can leave the machine range is wrapped explicitly (`wrap32`,
  `wrap16`, `sizeSub`).
* A C array reached through a pointer is a `List`; every read and write is
  bounds-checked and an access outside the array is `Fault.outOfRange`.
* `RTC_DCHECK*`/`RTC_CHECK` are active; a failed check is `Fault.dcheck`.
-/

namespace webrtc

/-! ## Machine arithmetic -/

/-- Two's-complement reduction of an integer to the `int32_t` range. -/
def wrap32 (v : Int) : Int := (v + 2147483648) % 4294967296 - 2147483648

/-- Two's-complement reduction of an integer to the `int16_t` range. -/
def wrap16 (v : Int) : Int := (v + 32768) % 65536 - 32768

/-- The value is representable as `int16_t`. -/
def isInt16 (v : Int) : Prop := -32768 ≤ v ∧ v ≤ 32767

instance (v : Int) : Decidable (isInt16 v) := by unfold isInt16; infer_instance

/-- The value is representable as `int32_t`. -/
def isInt32 (v : Int) : Prop := -2147483648 ≤ v ∧ v ≤ 2147483647

instance (v : Int) : Decidable (isInt32 v) := by unfold isInt32; infer_instance

/-- Subtraction `a - b` on `size_t` (64 bit, wraps below zero). -/
def sizeSub (a b : Nat) : Nat := (a + 18446744073709551616 - b % 18446744073709551616) % 18446744073709551616

/-- Modelled from the spec: `WebRtcSpl_SubSatW32` of the absent
`signal_processing_library.h`, the saturating 32-bit subtraction: the exact
difference clamped to the `int32_t` range. -/
def WebRtcSpl_SubSatW32 (a b : Int) : Int :=
  if a - b > 2147483647 then 2147483647
  else if a - b < -2147483648 then -2147483648
  else a - b

/-- Modelled from the spec: `WebRtcSpl_SatW32ToW16` of the absent
`signal_processing_library.h`, the saturating narrowing of a 32-bit value to
the `int16_t` range. -/
def WebRtcSpl_SatW32ToW16 (v : Int) : Int :=
  if v > 32767 then 32767
  else if v < -32768 then -32768
  else v

/-- Modelled from the spec: the macro `WEBRTC_SPL_SCALEDIFF32(A, B, C)` of the
absent `signal_processing_library.h`,
`C + (B >> 16) * A + (((B & 0xFFFF) * A) >> 16)`, the result stored in an
`int32_t`. -/
def WEBRTC_SPL_SCALEDIFF32 (A B C : Int) : Int :=
  wrap32 (C + (B / 65536) * A + ((B % 65536) * A) / 65536)

/-- 32-bit signed addition. -/
def add32 (a b : Int) : Int := wrap32 (a + b)

/-- 32-bit signed subtraction. -/
def sub32 (a b : Int) : Int := wrap32 (a - b)

/-- 32-bit signed multiplication. -/
def mul32 (a b : Int) : Int := wrap32 (a * b)

/-- Arithmetic right shift `v >> n` of a signed value. -/
def sar (v : Int) (n : Nat) : Int := v / 2 ^ n

/-! ## Memory accesses -/

/-- The ways a call can abort. -/
inductive Fault where
  | dcheck
  | outOfRange
  deriving DecidableEq, Repr

deriving instance DecidableEq for Except

/-- Read `buf[i]`. -/
def rd {α : Type} (buf : List α) (i : Nat) : Except Fault α :=
  match buf[i]? with
  | some v => .ok v
  | none => .error .outOfRange

/-- Write `buf[i] = v`. -/
def wr {α : Type} (buf : List α) (i : Nat) (v : α) : Except Fault (List α) :=
  if i < buf.length then .ok (buf.set i v) else .error .outOfRange

/-- Read `buf[k]` where the index is a signed value. -/
def rdI {α : Type} (buf : List α) (k : Int) : Except Fault α :=
  if 0 ≤ k then rd buf k.toNat else .error .outOfRange

/-- Write `buf[k] = v` where the index is a signed value. -/
def wrI {α : Type} (buf : List α) (k : Int) (v : α) : Except Fault (List α) :=
  if 0 ≤ k then wr buf k.toNat v else .error .outOfRange

/-- An `RTC_DCHECK`. -/
def dcheckThat (c : Bool) : Except Fault Unit :=
  if c then .ok () else .error .dcheck

/-! ## The all-pass cascade -/

def kMaxBandFrameLength : Nat := 320

def WebRtcSpl_kAllPassFilter1 : List Int := [6418, 36982, 57261]

def WebRtcSpl_kAllPassFilter2 : List Int := [21333, 49062, 63010]

/-- One iteration of a `for (k = 1; k < data_length; k++)` loop of
`WebRtcSpl_AllPassQMF`, filtering from `src` into `dst` with coefficient
`filter_coefficients[ci]`:
`diff = SubSat(src[k], dst[k-1]); dst[k] = SCALEDIFF32(coef, diff, src[k-1])`. -/
def allPassStep (filter_coefficients : List Int) (ci : Nat) (src : List Int)
    (dst : List Int) (k : Nat) : Except Fault (List Int) := do
  let a ← rd src k
  let b ← rd dst (k - 1)
  let diff := WebRtcSpl_SubSatW32 a b
  let c ← rd filter_coefficients ci
  let xp ← rd src (k - 1)
  wr dst k (WEBRTC_SPL_SCALEDIFF32 c diff xp)

/-- The loop `for (k = 1; k < data_length; k++)` around `allPassStep`. -/
def allPassLoop (filter_coefficients : List Int) (ci : Nat) (src : List Int)
    (data_length : Nat) (dst : List Int) : Except Fault (List Int) :=
  (List.range' 1 (data_length - 1)).foldlM
    (fun d k => allPassStep filter_coefficients ci src d k) dst

/-- The result of `WebRtcSpl_AllPassQMF`: the three arrays it writes. -/
structure AllPassResult where
  in_data : List Int
  out_data : List Int
  filter_state : List Int
  deriving DecidableEq, Repr

/-- `WebRtcSpl_AllPassQMF(in_data, data_length, out_data, filter_coefficients,
filter_state)`. The arguments are the arrays the pointers refer to. -/
def WebRtcSpl_AllPassQMF (in_data : List Int) (data_length : Nat)
    (out_data : List Int) (filter_coefficients : List Int)
    (filter_state : List Int) : Except Fault AllPassResult := do
  -- First all-pass cascade; filter from in_data to out_data.
  let x0 ← rd in_data 0
  let s1 ← rd filter_state 1
  let diff := WebRtcSpl_SubSatW32 x0 s1
  let c0 ← rd filter_coefficients 0
  let s0 ← rd filter_state 0
  let out_data ← wr out_data 0 (WEBRTC_SPL_SCALEDIFF32 c0 diff s0)
  let out_data ← allPassLoop filter_coefficients 0 in_data data_length out_data
  -- Update states.
  let xl ← rd in_data (sizeSub data_length 1)
  let filter_state ← wr filter_state 0 xl
  let yl ← rd out_data (sizeSub data_length 1)
  let filter_state ← wr filter_state 1 yl
  -- Second all-pass cascade; filter from out_data to in_data.
  let y0 ← rd out_data 0
  let s3 ← rd filter_state 3
  let diff := WebRtcSpl_SubSatW32 y0 s3
  let c1 ← rd filter_coefficients 1
  let s2 ← rd filter_state 2
  let in_data ← wr in_data 0 (WEBRTC_SPL_SCALEDIFF32 c1 diff s2)
  let in_data ← allPassLoop filter_coefficients 1 out_data data_length in_data
  let yl ← rd out_data (sizeSub data_length 1)
  let filter_state ← wr filter_state 2 yl
  let zl ← rd in_data (sizeSub data_length 1)
  let filter_state ← wr filter_state 3 zl
  -- Third all-pass cascade; filter from in_data to out_data.
  let z0 ← rd in_data 0
  let s5 ← rd filter_state 5
  let diff := WebRtcSpl_SubSatW32 z0 s5
  let c2 ← rd filter_coefficients 2
  let s4 ← rd filter_state 4
  let out_data ← wr out_data 0 (WEBRTC_SPL_SCALEDIFF32 c2 diff s4)
  let out_data ← allPassLoop filter_coefficients 2 in_data data_length out_data
  let zl ← rd in_data (sizeSub data_length 1)
  let filter_state ← wr filter_state 4 zl
  let wl ← rd out_data (sizeSub data_length 1)
  let filter_state ← wr filter_state 5 wl
  return { in_data := in_data, out_data := out_data, filter_state := filter_state }

/-! ## The cascade as a function of sequences -/

/-- One first-order all-pass section run over a whole sequence, `xp` and `yp`
being the previous input and the previous output. -/
def allPassSection (a xp yp : Int) : List Int → List Int
  | [] => []
  | x :: xs =>
    let y := WEBRTC_SPL_SCALEDIFF32 a (WebRtcSpl_SubSatW32 x yp) xp
    y :: allPassSection a x y xs

/-- The last element of a sequence (`0` for the empty one). -/
def lastOf (xs : List Int) : Int := xs.getLastD 0

/-- The three sections of the cascade, one after the other. -/
def cascadeStage1 (c s : List Int) (x : List Int) : List Int :=
  allPassSection (c.getD 0 0) (s.getD 0 0) (s.getD 1 0) x

def cascadeStage2 (c s : List Int) (x : List Int) : List Int :=
  allPassSection (c.getD 1 0) (s.getD 2 0) (s.getD 3 0) (cascadeStage1 c s x)

def cascadeStage3 (c s : List Int) (x : List Int) : List Int :=
  allPassSection (c.getD 2 0) (s.getD 4 0) (s.getD 5 0) (cascadeStage2 c s x)

/-- The state the cascade leaves after a non-empty sequence. -/
def cascadeState (c s : List Int) (x : List Int) : List Int :=
  [lastOf x, lastOf (cascadeStage1 c s x), lastOf (cascadeStage1 c s x),
   lastOf (cascadeStage2 c s x), lastOf (cascadeStage2 c s x),
   lastOf (cascadeStage3 c s x)]

/-! ## Two-band analysis and synthesis -/

/-- A function-local array of `n` words. The source leaves such arrays
uninitialised; the model fills them with zeros. -/
def localArray (n : Nat) : List Int := List.replicate n 0

/-- Body of the loop `for (i = 0, k = 0; i < band_length; i++, k += 2)` of
`WebRtcSpl_AnalysisQMF`. The loop state is `(k, half_in1, half_in2)`, `k` being
the `int16_t` index. -/
def analysisSplitStep (in_data : List Int) (s : Int × List Int × List Int)
    (i : Nat) : Except Fault (Int × List Int × List Int) := do
  let a ← rdI in_data s.1
  let half_in2 ← wr s.2.2 i (mul32 a 1024)
  let b ← rdI in_data (s.1 + 1)
  let half_in1 ← wr s.2.1 i (mul32 b 1024)
  return (wrap16 (s.1 + 2), half_in1, half_in2)

/-- Body of the loop of `WebRtcSpl_AnalysisQMF` that forms the two bands. The
loop state is `(low_band, high_band)`. -/
def analysisCombineStep (filter1 filter2 : List Int) (s : List Int × List Int)
    (i : Nat) : Except Fault (List Int × List Int) := do
  let f1 ← rd filter1 i
  let f2 ← rd filter2 i
  let tmp := sar (add32 (add32 f1 f2) 1024) 11
  let low_band ← wr s.1 i (WebRtcSpl_SatW32ToW16 tmp)
  let tmp := sar (add32 (sub32 f1 f2) 1024) 11
  let high_band ← wr s.2 i (WebRtcSpl_SatW32ToW16 tmp)
  return (low_band, high_band)

/-- What `WebRtcSpl_AnalysisQMF` leaves in the arrays it writes. -/
structure AnalysisResult where
  low_band : List Int
  high_band : List Int
  filter_state1 : List Int
  filter_state2 : List Int
  deriving DecidableEq, Repr

/-- `WebRtcSpl_AnalysisQMF(in_data, in_data_length, low_band, high_band,
filter_state1, filter_state2)`. -/
def WebRtcSpl_AnalysisQMF (in_data : List Int) (in_data_length : Nat)
    (low_band high_band : List Int) (filter_state1 filter_state2 : List Int) :
    Except Fault AnalysisResult := do
  let half_in1 := localArray kMaxBandFrameLength
  let half_in2 := localArray kMaxBandFrameLength
  let filter1 := localArray kMaxBandFrameLength
  let filter2 := localArray kMaxBandFrameLength
  let band_length := in_data_length / 2
  dcheckThat (decide (0 = in_data_length % 2))
  dcheckThat (decide (band_length ≤ kMaxBandFrameLength))
  -- Split even and odd samples. Also shift them to Q10.
  let s ← (List.range band_length).foldlM (analysisSplitStep in_data)
    ((0 : Int), half_in1, half_in2)
  -- All pass filter even and odd samples, independently.
  let r1 ← WebRtcSpl_AllPassQMF s.2.1 band_length filter1
    WebRtcSpl_kAllPassFilter1 filter_state1
  let r2 ← WebRtcSpl_AllPassQMF s.2.2 band_length filter2
    WebRtcSpl_kAllPassFilter2 filter_state2
  -- Take the sum and difference of filtered version of odd and even
  -- branches to get upper & lower band.
  let bands ← (List.range band_length).foldlM
    (analysisCombineStep r1.out_data r2.out_data) (low_band, high_band)
  return { low_band := bands.1, high_band := bands.2,
           filter_state1 := r1.filter_state, filter_state2 := r2.filter_state }

/-- Body of the first loop of `WebRtcSpl_SynthesisQMF` (sum and difference
channels, shifted to Q10). The loop state is `(half_in1, half_in2)`. -/
def synthesisSumDiffStep (low_band high_band : List Int)
    (s : List Int × List Int) (i : Nat) : Except Fault (List Int × List Int) := do
  let l ← rd low_band i
  let h ← rd high_band i
  let tmp := add32 l h
  let half_in1 ← wr s.1 i (mul32 tmp 1024)
  let tmp := sub32 l h
  let half_in2 ← wr s.2 i (mul32 tmp 1024)
  return (half_in1, half_in2)

/-- Body of the loop `for (i = 0, k = 0; i < band_length; i++)` of
`WebRtcSpl_SynthesisQMF` that writes `out_data[k++]` twice. The loop state is
`(k, out_data)`, `k` being the `int16_t` index. -/
def synthesisInterleaveStep (filter1 filter2 : List Int) (s : Int × List Int)
    (i : Nat) : Except Fault (Int × List Int) := do
  let f2 ← rd filter2 i
  let tmp := sar (add32 f2 512) 10
  let out_data ← wrI s.2 s.1 (WebRtcSpl_SatW32ToW16 tmp)
  let k := wrap16 (s.1 + 1)
  let f1 ← rd filter1 i
  let tmp := sar (add32 f1 512) 10
  let out_data ← wrI out_data k (WebRtcSpl_SatW32ToW16 tmp)
  return (wrap16 (k + 1), out_data)

/-- What `WebRtcSpl_SynthesisQMF` leaves in the arrays it writes. -/
structure SynthesisResult where
  out_data : List Int
  filter_state1 : List Int
  filter_state2 : List Int
  deriving DecidableEq, Repr

/-- `WebRtcSpl_SynthesisQMF(low_band, high_band, band_length, out_data,
filter_state1, filter_state2)`. -/
def WebRtcSpl_SynthesisQMF (low_band high_band : List Int) (band_length : Nat)
    (out_data : List Int) (filter_state1 filter_state2 : List Int) :
    Except Fault SynthesisResult := do
  let half_in1 := localArray kMaxBandFrameLength
  let half_in2 := localArray kMaxBandFrameLength
  let filter1 := localArray kMaxBandFrameLength
  let filter2 := localArray kMaxBandFrameLength
  dcheckThat (decide (band_length ≤ kMaxBandFrameLength))
  -- Obtain the sum and difference channels out of upper and lower-band
  -- channels. Also shift to Q10 domain.
  let s ← (List.range band_length).foldlM
    (synthesisSumDiffStep low_band high_band) (half_in1, half_in2)
  -- all-pass filter the sum and difference channels
  let r1 ← WebRtcSpl_AllPassQMF s.1 band_length filter1
    WebRtcSpl_kAllPassFilter2 filter_state1
  let r2 ← WebRtcSpl_AllPassQMF s.2 band_length filter2
    WebRtcSpl_kAllPassFilter1 filter_state2
  -- The filtered signals are even and odd samples of the output. Combine
  -- them.
  let o ← (List.range band_length).foldlM
    (synthesisInterleaveStep r1.out_data r2.out_data) ((0 : Int), out_data)
  return { out_data := o.2, filter_state1 := r1.filter_state,
           filter_state2 := r2.filter_state }

/-! ## The two-band transforms as functions of sequences -/

/-- The contents of `half_in1` after the first loop of `WebRtcSpl_AnalysisQMF`
on a frame of `2 * M` samples: `in_data[2i+1] * (1 << 10)`. -/
def analysisHalfIn1 (in_data : List Int) (M : Nat) : List Int :=
  (List.range M).map (fun i => mul32 (in_data.getD (2 * i + 1) 0) 1024)

/-- The contents of `half_in2` after the first loop of `WebRtcSpl_AnalysisQMF`:
`in_data[2i] * (1 << 10)`. -/
def analysisHalfIn2 (in_data : List Int) (M : Nat) : List Int :=
  (List.range M).map (fun i => mul32 (in_data.getD (2 * i) 0) 1024)

/-- `WebRtcSpl_SatW32ToW16((f1 + f2 + 1024) >> 11)` in 32-bit arithmetic. -/
def lowSample (f1 f2 : Int) : Int :=
  WebRtcSpl_SatW32ToW16 (sar (add32 (add32 f1 f2) 1024) 11)

/-- `WebRtcSpl_SatW32ToW16((f1 - f2 + 1024) >> 11)` in 32-bit arithmetic. -/
def highSample (f1 f2 : Int) : Int :=
  WebRtcSpl_SatW32ToW16 (sar (add32 (sub32 f1 f2) 1024) 11)

/-- The contents of `half_in1` after the first loop of
`WebRtcSpl_SynthesisQMF`: `(low_band[i] + high_band[i]) * (1 << 10)`. -/
def synthesisHalfIn1 (low_band high_band : List Int) (M : Nat) : List Int :=
  (List.range M).map
    (fun i => mul32 (add32 (low_band.getD i 0) (high_band.getD i 0)) 1024)

/-- The contents of `half_in2` after the first loop of
`WebRtcSpl_SynthesisQMF`: `(low_band[i] - high_band[i]) * (1 << 10)`. -/
def synthesisHalfIn2 (low_band high_band : List Int) (M : Nat) : List Int :=
  (List.range M).map
    (fun i => mul32 (sub32 (low_band.getD i 0) (high_band.getD i 0)) 1024)

/-- `WebRtcSpl_SatW32ToW16((f + 512) >> 10)` in 32-bit arithmetic. -/
def outSample (f : Int) : Int :=
  WebRtcSpl_SatW32ToW16 (sar (add32 f 512) 10)

/-- The sequence `a0, b0, a1, b1, ..`. -/
def interleave : List Int → List Int → List Int
  | a :: as, b :: bs => a :: b :: interleave as bs
  | _, _ => []

/-- The record `WebRtcSpl_AllPassQMF` returns when the cascade has run over
the sequence `X` and `rest` is the untouched tail of the output buffer. -/
def cascadeResult (c s X rest : List Int) : AllPassResult :=
  { in_data := cascadeStage2 c s X,
    out_data := cascadeStage3 c s X ++ rest,
    filter_state := cascadeState c s X }

/-! ## The `SplittingFilter` facade -/

def kSamplesPerBand : Nat := 160

def kTwoBandFilterSamplesPerFrame : Nat := 320

/-- What the facade takes from outside `splitting_filter.cc`: the sample type
of the buffers (`float`), the two per-sample conversions of
`common_audio/include/audio_util.h`, and the three-band filter bank with its
frame sizes. -/
structure Externals where
  Sample : Type
  FloatS16ToS16 : Sample → Int
  S16ToFloatS16 : Int → Sample
  ThreeBandFilterBank : Type
  newBank : ThreeBandFilterBank
  kFullBandSize : Nat
  kNumBands : Nat
  kSplitBandSize : Nat
  bankAnalysis : ThreeBandFilterBank → List Sample → ThreeBandFilterBank × List Sample
  bankSynthesis : ThreeBandFilterBank → List Sample → ThreeBandFilterBank × List Sample

/-- Modelled from the spec: `TwoBandsStates` of the absent
`splitting_filter.h`, the four six-word cascade state blocks of one channel. -/
structure TwoBandsStates where
  analysis_state1 : List Int
  analysis_state2 : List Int
  synthesis_state1 : List Int
  synthesis_state2 : List Int
  deriving DecidableEq, Repr

/-- Modelled from the spec: the constructor of `TwoBandsStates`, which zeroes
the four blocks. -/
def TwoBandsStates.zero : TwoBandsStates :=
  { analysis_state1 := List.replicate 6 0,
    analysis_state2 := List.replicate 6 0,
    synthesis_state1 := List.replicate 6 0,
    synthesis_state2 := List.replicate 6 0 }

/-- Modelled from the spec: `ChannelBuffer<float>` of the absent
`common_audio/channel_buffer.h`. `data[i]` holds the `num_frames` samples of
channel `i`; the full-band view of a channel is that array and its band `b` is
the slice of `num_frames_per_band` samples that starts at
`b * num_frames_per_band`. -/
structure ChannelBuffer (F : Type) where
  num_frames : Nat
  num_channels : Nat
  num_bands : Nat
  num_frames_per_band : Nat
  data : List (List F)

/-- The buffer with the array of channel `i` replaced. -/
def ChannelBuffer.withChannel {F : Type} (b : ChannelBuffer F) (i : Nat) (ch : List F) :
    ChannelBuffer F :=
  { b with data := b.data.set i ch }

/-- Read `n` samples through the pointer `channels(band)[i]`. -/
def ChannelBuffer.readAt {F : Type} (b : ChannelBuffer F) (band i n : Nat) :
    Except Fault (List F) := do
  let ch ← rd b.data i
  if band * b.num_frames_per_band + n ≤ ch.length then
    return (ch.drop (band * b.num_frames_per_band)).take n
  else
    throw Fault.outOfRange

/-- Write the samples `v` through the pointer `channels(band)[i]`. -/
def ChannelBuffer.writeAt {F : Type} (b : ChannelBuffer F) (band i : Nat)
    (v : List F) : Except Fault (ChannelBuffer F) := do
  let ch ← rd b.data i
  if band * b.num_frames_per_band + v.length ≤ ch.length then
    let off := band * b.num_frames_per_band
    let ch' := ch.take off ++ v ++ ch.drop (off + v.length)
    return { b with data := b.data.set i ch' }
  else
    throw Fault.outOfRange

/-- The data members of `SplittingFilter`. -/
structure SplittingFilter (E : Externals) where
  num_bands_ : Nat
  two_bands_states_ : List TwoBandsStates
  three_band_filter_banks_ : List E.ThreeBandFilterBank

/-- `SplittingFilter::SplittingFilter(num_channels, num_bands, num_frames)`:
the members are initialised, then `RTC_CHECK(num_bands_ == 2 || num_bands_ == 3)`
runs. -/
def SplittingFilter.create (E : Externals) (num_channels num_bands _num_frames : Nat) :
    Except Fault (SplittingFilter E) := do
  let sf : SplittingFilter E :=
    { num_bands_ := num_bands,
      two_bands_states_ :=
        List.replicate (if num_bands = 2 then num_channels else 0) TwoBandsStates.zero,
      three_band_filter_banks_ :=
        List.replicate (if num_bands = 3 then num_channels else 0) E.newBank }
  dcheckThat (decide (num_bands = 2 ∨ num_bands = 3))
  return sf

/-- How a call of `Analysis` or `Synthesis` ends: `fault = none` when it
returns; the object and the output buffer as they are at that moment. -/
structure CallOutcome (E : Externals) where
  fault : Option Fault
  filter : SplittingFilter E
  buffer : ChannelBuffer E.Sample

/-- A per-channel loop: the body is run for the given channel indices in
order and the loop stops at the first fault. -/
def forChannels {σ : Type} (body : σ → Nat → Option Fault × σ) :
    List Nat → σ → Option Fault × σ
  | [], s => (none, s)
  | i :: is, s =>
    match body s i with
    | (none, s') => forChannels body is s'
    | (some e, s') => (some e, s')

/-- Body of the loop of `SplittingFilter::TwoBandsAnalysis` for channel `i`.
The loop state is the object and the `bands` buffer. -/
def twoBandsAnalysisChannel (E : Externals) (data : ChannelBuffer E.Sample)
    (s : SplittingFilter E × ChannelBuffer E.Sample) (i : Nat) :
    Option Fault × (SplittingFilter E × ChannelBuffer E.Sample) :=
  let bands16_0 := localArray kSamplesPerBand
  let bands16_1 := localArray kSamplesPerBand
  -- FloatS16ToS16(data->channels(0)[i], full_band16.size(), full_band16.data())
  match data.readAt 0 i kTwoBandFilterSamplesPerFrame with
  | .error e => (some e, s)
  | .ok src =>
    let full_band16 := src.map E.FloatS16ToS16
    match rd s.1.two_bands_states_ i with
    | .error e => (some e, s)
    | .ok st =>
      match WebRtcSpl_AnalysisQMF full_band16 data.num_frames bands16_0 bands16_1
          st.analysis_state1 st.analysis_state2 with
      | .error e => (some e, s)
      | .ok r =>
        let st' := { st with analysis_state1 := r.filter_state1,
                             analysis_state2 := r.filter_state2 }
        let sf := { s.1 with two_bands_states_ := s.1.two_bands_states_.set i st' }
        -- S16ToFloatS16(bands16[0].data(), bands16[0].size(), bands->channels(0)[i])
        match s.2.writeAt 0 i (r.low_band.map E.S16ToFloatS16) with
        | .error e => (some e, (sf, s.2))
        | .ok b0 =>
          -- S16ToFloatS16(bands16[1].data(), bands16[1].size(), bands->channels(1)[i])
          match b0.writeAt 1 i (r.high_band.map E.S16ToFloatS16) with
          | .error e => (some e, (sf, b0))
          | .ok b1 => (none, (sf, b1))

/-- `SplittingFilter::TwoBandsAnalysis(data, bands)`. -/
def SplittingFilter.TwoBandsAnalysis {E : Externals} (sf : SplittingFilter E)
    (data bands : ChannelBuffer E.Sample) : CallOutcome E :=
  if sf.two_bands_states_.length ≠ data.num_channels then
    { fault := some Fault.dcheck, filter := sf, buffer := bands }
  else if data.num_frames ≠ kTwoBandFilterSamplesPerFrame then
    { fault := some Fault.dcheck, filter := sf, buffer := bands }
  else
    let r := forChannels (twoBandsAnalysisChannel E data)
      (List.range sf.two_bands_states_.length) (sf, bands)
    { fault := r.1, filter := r.2.1, buffer := r.2.2 }

/-- Body of the loop of `SplittingFilter::TwoBandsSynthesis` for channel `i`.
The loop state is the object and the `data` buffer. -/
def twoBandsSynthesisChannel (E : Externals) (bands : ChannelBuffer E.Sample)
    (s : SplittingFilter E × ChannelBuffer E.Sample) (i : Nat) :
    Option Fault × (SplittingFilter E × ChannelBuffer E.Sample) :=
  let full_band16 := localArray kTwoBandFilterSamplesPerFrame
  -- FloatS16ToS16(bands->channels(0)[i], bands16[0].size(), bands16[0].data())
  match bands.readAt 0 i kSamplesPerBand with
  | .error e => (some e, s)
  | .ok src0 =>
    let bands16_0 := src0.map E.FloatS16ToS16
    -- FloatS16ToS16(bands->channels(1)[i], bands16[1].size(), bands16[1].data())
    match bands.readAt 1 i kSamplesPerBand with
    | .error e => (some e, s)
    | .ok src1 =>
      let bands16_1 := src1.map E.FloatS16ToS16
      match rd s.1.two_bands_states_ i with
      | .error e => (some e, s)
      | .ok st =>
        match WebRtcSpl_SynthesisQMF bands16_0 bands16_1 bands.num_frames_per_band
            full_band16 st.synthesis_state1 st.synthesis_state2 with
        | .error e => (some e, s)
        | .ok r =>
          let st' := { st with synthesis_state1 := r.filter_state1,
                               synthesis_state2 := r.filter_state2 }
          let sf := { s.1 with two_bands_states_ := s.1.two_bands_states_.set i st' }
          -- S16ToFloatS16(full_band16.data(), full_band16.size(), data->channels(0)[i])
          match s.2.writeAt 0 i (r.out_data.map E.S16ToFloatS16) with
          | .error e => (some e, (sf, s.2))
          | .ok d => (none, (sf, d))

/-- `SplittingFilter::TwoBandsSynthesis(bands, data)`. -/
def SplittingFilter.TwoBandsSynthesis {E : Externals} (sf : SplittingFilter E)
    (bands data : ChannelBuffer E.Sample) : CallOutcome E :=
  if ¬ data.num_channels ≤ sf.two_bands_states_.length then
    { fault := some Fault.dcheck, filter := sf, buffer := data }
  else if data.num_frames ≠ kTwoBandFilterSamplesPerFrame then
    { fault := some Fault.dcheck, filter := sf, buffer := data }
  else
    let r := forChannels (twoBandsSynthesisChannel E bands)
      (List.range data.num_channels) (sf, data)
    { fault := r.1, filter := r.2.1, buffer := r.2.2 }

/-- Body of the loop of `SplittingFilter::ThreeBandsAnalysis` for channel `i`:
the call of the channel's `ThreeBandFilterBank::Analysis`. -/
def threeBandsAnalysisChannel (E : Externals) (data : ChannelBuffer E.Sample)
    (s : SplittingFilter E × ChannelBuffer E.Sample) (i : Nat) :
    Option Fault × (SplittingFilter E × ChannelBuffer E.Sample) :=
  match data.readAt 0 i E.kFullBandSize with
  | .error e => (some e, s)
  | .ok src =>
    match rd s.1.three_band_filter_banks_ i with
    | .error e => (some e, s)
    | .ok bank =>
      let r := E.bankAnalysis bank src
      let sf := { s.1 with
        three_band_filter_banks_ := s.1.three_band_filter_banks_.set i r.1 }
      match s.2.writeAt 0 i r.2 with
      | .error e => (some e, (sf, s.2))
      | .ok b => (none, (sf, b))

/-- `SplittingFilter::ThreeBandsAnalysis(data, bands)`. -/
def SplittingFilter.ThreeBandsAnalysis {E : Externals} (sf : SplittingFilter E)
    (data bands : ChannelBuffer E.Sample) : CallOutcome E :=
  if sf.three_band_filter_banks_.length ≠ data.num_channels
      ∨ ¬ data.num_channels ≤ sf.three_band_filter_banks_.length
      ∨ ¬ data.num_channels ≤ bands.num_channels
      ∨ data.num_frames ≠ E.kFullBandSize
      ∨ bands.num_frames ≠ E.kFullBandSize
      ∨ bands.num_bands ≠ E.kNumBands
      ∨ bands.num_frames_per_band ≠ E.kSplitBandSize then
    { fault := some Fault.dcheck, filter := sf, buffer := bands }
  else
    let r := forChannels (threeBandsAnalysisChannel E data)
      (List.range sf.three_band_filter_banks_.length) (sf, bands)
    { fault := r.1, filter := r.2.1, buffer := r.2.2 }

/-- Body of the loop of `SplittingFilter::ThreeBandsSynthesis` for channel
`i`: the call of the channel's `ThreeBandFilterBank::Synthesis`. -/
def threeBandsSynthesisChannel (E : Externals) (bands : ChannelBuffer E.Sample)
    (s : SplittingFilter E × ChannelBuffer E.Sample) (i : Nat) :
    Option Fault × (SplittingFilter E × ChannelBuffer E.Sample) :=
  match bands.readAt 0 i (E.kNumBands * bands.num_frames_per_band) with
  | .error e => (some e, s)
  | .ok src =>
    match rd s.1.three_band_filter_banks_ i with
    | .error e => (some e, s)
    | .ok bank =>
      let r := E.bankSynthesis bank src
      let sf := { s.1 with
        three_band_filter_banks_ := s.1.three_band_filter_banks_.set i r.1 }
      match s.2.writeAt 0 i r.2 with
      | .error e => (some e, (sf, s.2))
      | .ok d => (none, (sf, d))

/-- `SplittingFilter::ThreeBandsSynthesis(bands, data)`. -/
def SplittingFilter.ThreeBandsSynthesis {E : Externals} (sf : SplittingFilter E)
    (bands data : ChannelBuffer E.Sample) : CallOutcome E :=
  if ¬ data.num_channels ≤ sf.three_band_filter_banks_.length
      ∨ ¬ data.num_channels ≤ bands.num_channels
      ∨ data.num_frames ≠ E.kFullBandSize
      ∨ bands.num_frames ≠ E.kFullBandSize
      ∨ bands.num_bands ≠ E.kNumBands
      ∨ bands.num_frames_per_band ≠ E.kSplitBandSize then
    { fault := some Fault.dcheck, filter := sf, buffer := data }
  else
    let r := forChannels (threeBandsSynthesisChannel E bands)
      (List.range data.num_channels) (sf, data)
    { fault := r.1, filter := r.2.1, buffer := r.2.2 }

/-- `SplittingFilter::Analysis(data, bands)`. -/
def SplittingFilter.Analysis {E : Externals} (sf : SplittingFilter E)
    (data bands : ChannelBuffer E.Sample) : CallOutcome E :=
  if sf.num_bands_ ≠ bands.num_bands then
    { fault := some Fault.dcheck, filter := sf, buffer := bands }
  else if data.num_channels ≠ bands.num_channels then
    { fault := some Fault.dcheck, filter := sf, buffer := bands }
  else if data.num_frames ≠ bands.num_frames_per_band * bands.num_bands then
    { fault := some Fault.dcheck, filter := sf, buffer := bands }
  else if bands.num_bands = 2 then
    sf.TwoBandsAnalysis data bands
  else if bands.num_bands = 3 then
    sf.ThreeBandsAnalysis data bands
  else
    { fault := none, filter := sf, buffer := bands }

/-- `SplittingFilter::Synthesis(bands, data)`. -/
def SplittingFilter.Synthesis {E : Externals} (sf : SplittingFilter E)
    (bands data : ChannelBuffer E.Sample) : CallOutcome E :=
  if sf.num_bands_ ≠ bands.num_bands then
    { fault := some Fault.dcheck, filter := sf, buffer := data }
  else if data.num_channels ≠ bands.num_channels then
    { fault := some Fault.dcheck, filter := sf, buffer := data }
  else if data.num_frames ≠ bands.num_frames_per_band * bands.num_bands then
    { fault := some Fault.dcheck, filter := sf, buffer := data }
  else if bands.num_bands = 2 then
    sf.TwoBandsSynthesis bands data
  else if bands.num_bands = 3 then
    sf.ThreeBandsSynthesis bands data
  else
    { fault := none, filter := sf, buffer := data }

/-- An instance of the externals with integer-valued samples: the conversion
to `int16_t` saturates, the conversion back is the inclusion, and the
three-band bank is stateless and copies its input. -/
def intExternals : Externals :=
  { Sample := Int,
    FloatS16ToS16 := WebRtcSpl_SatW32ToW16,
    S16ToFloatS16 := fun v => v,
    ThreeBandFilterBank := Unit,
    newBank := (),
    kFullBandSize := 480,
    kNumBands := 3,
    kSplitBandSize := 160,
    bankAnalysis := fun b x => (b, x),
    bankSynthesis := fun b x => (b, x) }

/-! ## The facade as a function of its inputs -/

/-- The record `WebRtcSpl_AnalysisQMF` returns on a frame of `2 * M` samples
(see `WebRtcSpl_AnalysisQMF_eq`). -/
def analysisQMFResult (in_data low high st1 st2 : List Int) (M : Nat) : AnalysisResult :=
  { low_band := (List.range M).map (fun i => lowSample
        ((cascadeStage3 WebRtcSpl_kAllPassFilter1 st1 (analysisHalfIn1 in_data M)).getD i 0)
        ((cascadeStage3 WebRtcSpl_kAllPassFilter2 st2 (analysisHalfIn2 in_data M)).getD i 0))
      ++ low.drop M,
    high_band := (List.range M).map (fun i => highSample
        ((cascadeStage3 WebRtcSpl_kAllPassFilter1 st1 (analysisHalfIn1 in_data M)).getD i 0)
        ((cascadeStage3 WebRtcSpl_kAllPassFilter2 st2 (analysisHalfIn2 in_data M)).getD i 0))
      ++ high.drop M,
    filter_state1 := cascadeState WebRtcSpl_kAllPassFilter1 st1 (analysisHalfIn1 in_data M),
    filter_state2 := cascadeState WebRtcSpl_kAllPassFilter2 st2 (analysisHalfIn2 in_data M) }

/-- The record `WebRtcSpl_SynthesisQMF` returns on two bands of `M` samples
(see `WebRtcSpl_SynthesisQMF_eq`). -/
def synthesisQMFResult (low high out st1 st2 : List Int) (M : Nat) : SynthesisResult :=
  { out_data := interleave
        ((List.range M).map (fun i => outSample
          ((cascadeStage3 WebRtcSpl_kAllPassFilter1 st2
            (synthesisHalfIn2 low high M)).getD i 0)))
        ((List.range M).map (fun i => outSample
          ((cascadeStage3 WebRtcSpl_kAllPassFilter2 st1
            (synthesisHalfIn1 low high M)).getD i 0)))
      ++ out.drop (2 * M),
    filter_state1 := cascadeState WebRtcSpl_kAllPassFilter2 st1
        (synthesisHalfIn1 low high M),
    filter_state2 := cascadeState WebRtcSpl_kAllPassFilter1 st2
        (synthesisHalfIn2 low high M) }

/-- The four state blocks have six words each. -/
def TwoBandsStates.WellFormed (st : TwoBandsStates) : Prop :=
  st.analysis_state1.length = 6 ∧ st.analysis_state2.length = 6 ∧
  st.synthesis_state1.length = 6 ∧ st.synthesis_state2.length = 6

/-- A two-band filter with `N` channel states of the right size. -/
def SplittingFilter.TwoBand {E : Externals} (sf : SplittingFilter E) (N : Nat) : Prop :=
  sf.num_bands_ = 2 ∧ sf.two_bands_states_.length = N ∧
  ∀ st ∈ sf.two_bands_states_, st.WellFormed

/-- The invariant of a `ChannelBuffer`: `num_frames == num_bands *
num_frames_per_band`, one array per channel, `num_frames` samples each. -/
def ChannelBuffer.WellFormed {F : Type} (b : ChannelBuffer F) : Prop :=
  b.num_frames = b.num_bands * b.num_frames_per_band ∧
  b.data.length = b.num_channels ∧ ∀ ch ∈ b.data, ch.length = b.num_frames

/-- A channel array after `v` has been written at offset `off`. -/
def writeSlice {F : Type} (ch : List F) (off : Nat) (v : List F) : List F :=
  ch.take off ++ v ++ ch.drop (off + v.length)

/-- What one iteration of `TwoBandsAnalysis` computes for a channel whose
states are `st` and whose full-band frame is `src`. -/
def channelAnalysis (E : Externals) (st : TwoBandsStates) (src : List E.Sample) :
    AnalysisResult :=
  analysisQMFResult (src.map E.FloatS16ToS16) (localArray kSamplesPerBand)
    (localArray kSamplesPerBand) st.analysis_state1 st.analysis_state2 kSamplesPerBand

/-- The states of a channel after one iteration of `TwoBandsAnalysis`. -/
def channelAnalysisStates (E : Externals) (st : TwoBandsStates) (src : List E.Sample) :
    TwoBandsStates :=
  { st with analysis_state1 := (channelAnalysis E st src).filter_state1,
            analysis_state2 := (channelAnalysis E st src).filter_state2 }

/-- The band array of a channel after one iteration of `TwoBandsAnalysis`. -/
def channelAnalysisBands (E : Externals) (st : TwoBandsStates) (src : List E.Sample)
    (ch : List E.Sample) : List E.Sample :=
  writeSlice
    (writeSlice ch 0 ((channelAnalysis E st src).low_band.map E.S16ToFloatS16))
    kSamplesPerBand ((channelAnalysis E st src).high_band.map E.S16ToFloatS16)

/-- What one iteration of `TwoBandsSynthesis` computes for a channel whose
states are `st` and whose band array is `src`. -/
def channelSynthesis (E : Externals) (st : TwoBandsStates) (src : List E.Sample) :
    SynthesisResult :=
  synthesisQMFResult ((src.take kSamplesPerBand).map E.FloatS16ToS16)
    (((src.drop kSamplesPerBand).take kSamplesPerBand).map E.FloatS16ToS16)
    (localArray kTwoBandFilterSamplesPerFrame) st.synthesis_state1 st.synthesis_state2
    kSamplesPerBand

/-- The states of a channel after one iteration of `TwoBandsSynthesis`. -/
def channelSynthesisStates (E : Externals) (st : TwoBandsStates) (src : List E.Sample) :
    TwoBandsStates :=
  { st with synthesis_state1 := (channelSynthesis E st src).filter_state1,
            synthesis_state2 := (channelSynthesis E st src).filter_state2 }

/-- The full-band array of a channel after one iteration of
`TwoBandsSynthesis`. -/
def channelSynthesisData (E : Externals) (st : TwoBandsStates) (src : List E.Sample)
    (ch : List E.Sample) : List E.Sample :=
  writeSlice ch 0 ((channelSynthesis E st src).out_data.map E.S16ToFloatS16)

/-- The object after `TwoBandsAnalysis` has processed the channels `0 .. n-1`
of `data`. -/
def SplittingFilter.afterAnalysis {E : Externals} (sf : SplittingFilter E)
    (data : ChannelBuffer E.Sample) (n : Nat) : SplittingFilter E :=
  { sf with two_bands_states_ :=
      (List.range n).map (fun j => channelAnalysisStates E
        (sf.two_bands_states_.getD j TwoBandsStates.zero) (data.data.getD j []))
      ++ sf.two_bands_states_.drop n }

/-- The `bands` buffer after `TwoBandsAnalysis` has processed the channels
`0 .. n-1` of `data`. -/
def ChannelBuffer.afterAnalysis {E : Externals} (bands : ChannelBuffer E.Sample)
    (sf : SplittingFilter E) (data : ChannelBuffer E.Sample) (n : Nat) :
    ChannelBuffer E.Sample :=
  { bands with data :=
      (List.range n).map (fun j => channelAnalysisBands E
        (sf.two_bands_states_.getD j TwoBandsStates.zero) (data.data.getD j [])
        (bands.data.getD j []))
      ++ bands.data.drop n }

/-- The object after `TwoBandsSynthesis` has processed the channels
`0 .. n-1` of `bands`. -/
def SplittingFilter.afterSynthesis {E : Externals} (sf : SplittingFilter E)
    (bands : ChannelBuffer E.Sample) (n : Nat) : SplittingFilter E :=
  { sf with two_bands_states_ :=
      (List.range n).map (fun j => channelSynthesisStates E
        (sf.two_bands_states_.getD j TwoBandsStates.zero) (bands.data.getD j []))
      ++ sf.two_bands_states_.drop n }

/-- The `data` buffer after `TwoBandsSynthesis` has processed the channels
`0 .. n-1` of `bands`. -/
def ChannelBuffer.afterSynthesis {E : Externals} (data : ChannelBuffer E.Sample)
    (sf : SplittingFilter E) (bands : ChannelBuffer E.Sample) (n : Nat) :
    ChannelBuffer E.Sample :=
  { data with data :=
      (List.range n).map (fun j => channelSynthesisData E
        (sf.two_bands_states_.getD j TwoBandsStates.zero) (bands.data.getD j [])
        (data.data.getD j []))
      ++ data.data.drop n }

/-- The channel states after a loop iteration that may have replaced the
entry of channel `i` by a record that satisfies `P` relative to the old one. -/
def StatesStep (P : TwoBandsStates → TwoBandsStates → Prop) (i : Nat)
    (old new : List TwoBandsStates) : Prop :=
  new = old ∨ ∃ st st2, old[i]? = some st ∧ P st st2 ∧ new = old.set i st2

/-- Modelled from the spec: a `ChannelBuffer` as its constructor
`ChannelBuffer(num_frames, num_channels, num_bands)` shapes it
(`num_frames_per_band = num_frames / num_bands`), sample `k` of channel `c`
being `f c k`. -/
def ChannelBuffer.ofFn {F : Type} (num_frames num_channels num_bands : Nat)
    (f : Nat → Nat → F) : ChannelBuffer F :=
  { num_frames := num_frames,
    num_channels := num_channels,
    num_bands := num_bands,
    num_frames_per_band := num_frames / num_bands,
    data := (List.range num_channels).map (fun c => (List.range num_frames).map (f c)) }

/-- The one-channel buffer that holds channel `i` of `b`. -/
def ChannelBuffer.onlyChannel {F : Type} (b : ChannelBuffer F) (i : Nat) : ChannelBuffer F :=
  { b with num_channels := 1, data := [b.data.getD i []] }

/-- A call of the facade with its two buffers. -/
inductive FacadeCall (F : Type) where
  | analysis (data bands : ChannelBuffer F)
  | synthesis (bands data : ChannelBuffer F)

/-- Make the call on the object `sf`. -/
def FacadeCall.run {E : Externals} (sf : SplittingFilter E) :
    FacadeCall E.Sample → CallOutcome E
  | .analysis data bands => sf.Analysis data bands
  | .synthesis bands data => sf.Synthesis bands data

/-- The same call restricted to channel `i` of its buffers. -/
def FacadeCall.onlyChannel {F : Type} (i : Nat) : FacadeCall F → FacadeCall F
  | .analysis data bands => .analysis (data.onlyChannel i) (bands.onlyChannel i)
  | .synthesis bands data => .synthesis (bands.onlyChannel i) (data.onlyChannel i)

/-- The outcomes of a sequence of calls made one after the other on an object
that starts as `sf`. -/
def runCalls {E : Externals} (sf : SplittingFilter E) :
    List (FacadeCall E.Sample) → List (CallOutcome E)
  | [] => []
  | c :: rest => c.run sf :: runCalls (c.run sf).filter rest

/-- What a call outcome shows of channel `k`: whether the call faulted, the
channel's array in the output buffer and the channel's states. -/
def CallOutcome.channelView {E : Externals} (k : Nat) (o : CallOutcome E) :
    Option Fault × List E.Sample × TwoBandsStates :=
  (o.fault, o.buffer.data.getD k [], o.filter.two_bands_states_.getD k TwoBandsStates.zero)

/-- A valid pair of buffers for the two-band path on `n` channels: both
buffers well formed with `n` channels, a 320-sample full band and two
160-sample bands. -/
def ValidTwoBandCall {F : Type} (n : Nat) (data bands : ChannelBuffer F) : Prop :=
  data.WellFormed ∧ bands.WellFormed ∧ data.num_channels = n ∧ data.num_frames = 320 ∧
  bands.num_channels = n ∧ bands.num_bands = 2 ∧ bands.num_frames_per_band = 160

/-- A valid two-band call on an `N`-channel filter that processes channel `i`:
an `Analysis` call on `N` channels, or a `Synthesis` call on `n` channels with
`i < n ≤ N`. -/
def FacadeCall.ProcessesChannel {F : Type} (N i : Nat) : FacadeCall F → Prop
  | .analysis data bands => i < N ∧ ValidTwoBandCall N data bands
  | .synthesis bands data => ∃ n, i < n ∧ n ≤ N ∧ ValidTwoBandCall n data bands

/-! ## Concrete objects used to instantiate the theorems -/

/-- A two-band filter with two channels, as the constructor leaves it. -/
def demoFilter : SplittingFilter intExternals :=
  { num_bands_ := 2,
    two_bands_states_ := List.replicate 2 TwoBandsStates.zero,
    three_band_filter_banks_ := [] }

/-- A full-band buffer with `n` channels of 320 samples; sample `k` of channel
`c` is `(c + 1) * ((k % 7) * 1000 - 3000)`. -/
def demoData (n : Nat) : ChannelBuffer intExternals.Sample :=
  ChannelBuffer.ofFn 320 n 1 (fun c k => ((c : Int) + 1) * (((k % 7 : Nat) : Int) * 1000 - 3000))

/-- A two-band buffer with `n` channels of 2 x 160 samples; sample `k` of
channel `c` is `(c + 1) * (k % 5) * 100`. -/
def demoBands (n : Nat) : ChannelBuffer intExternals.Sample :=
  ChannelBuffer.ofFn 320 n 2 (fun c k => ((c : Int) + 1) * ((k % 5 : Nat) : Int) * 100)

/-! ## The cascade stage as the specification words it -/

/-- Sample `n` of the stage output `y` for the input `u`, previous input `xp`
and previous output `yp`: `y[0] = SCALEDIFF32(a, SubSat(u[0], yp), xp)` and
`y[n] = SCALEDIFF32(a, SubSat(u[n], y[n-1]), u[n-1])` for `n ≥ 1`. -/
def stageSample (a xp yp : Int) (u : List Int) : Nat → Int
  | 0 => WEBRTC_SPL_SCALEDIFF32 a (WebRtcSpl_SubSatW32 (u.getD 0 0) yp) xp
  | n + 1 =>
    WEBRTC_SPL_SCALEDIFF32 a
      (WebRtcSpl_SubSatW32 (u.getD (n + 1) 0) (stageSample a xp yp u n)) (u.getD n 0)

/-- The stage output sequence `y[0], .., y[L-1]` for an input of length `L`. -/
def stage (a xp yp : Int) (u : List Int) : List Int :=
  (List.range u.length).map (stageSample a xp yp u)

/-! ## The link between consecutive stages of a state block -/

/-- The output history of stage 1 is the input history of stage 2 and the
output history of stage 2 is the input history of stage 3:
`state[1] = state[2]` and `state[3] = state[4]`. -/
def blockLinked (filter_state : List Int) : Prop :=
  filter_state.getD 1 0 = filter_state.getD 2 0 ∧
  filter_state.getD 3 0 = filter_state.getD 4 0

instance (s : List Int) : Decidable (blockLinked s) := by unfold blockLinked; infer_instance

/-- The four state blocks of a channel are linked. -/
def TwoBandsStates.Linked (st : TwoBandsStates) : Prop :=
  blockLinked st.analysis_state1 ∧ blockLinked st.analysis_state2 ∧
  blockLinked st.synthesis_state1 ∧ blockLinked st.synthesis_state2

/-- Both buffers of the call satisfy the `ChannelBuffer` invariant. -/
def FacadeCall.WellFormed {F : Type} : FacadeCall F → Prop
  | .analysis data bands => data.WellFormed ∧ bands.WellFormed
  | .synthesis bands data => data.WellFormed ∧ bands.WellFormed

/-! ## Bounds on the all-pass cascade -/

/-- Bounds on the history `(xp, yp)` of one all-pass section with coefficient
`A`: the previous input is within `± B`, the previous output within `± B'`,
and `65536 * xp - A * yp` within `± K`. -/
def StageInv (A B B' K xp yp : Int) : Prop :=
  -B ≤ xp ∧ xp ≤ B ∧ -B' ≤ yp ∧ yp ≤ B' ∧
  -K ≤ 65536 * xp - A * yp ∧ 65536 * xp - A * yp ≤ K

/-- The bounds that hold of a state block of the cascade with coefficient set
1 when its input stays within `± 2^25`. -/
def BlockInv1 (s : List Int) : Prop :=
  s.length = 6 ∧
  StageInv 6418 33554432 40126465 2414375607243 (s.getD 0 0) (s.getD 1 0) ∧
  StageInv 36982 40126465 85413238 4113685023749 (s.getD 2 0) (s.getD 3 0) ∧
  StageInv 57261 85413238 234670064 10488489840173 (s.getD 4 0) (s.getD 5 0)

/-- The bounds that hold of a state block of the cascade with coefficient set
2 when its input stays within `± 2^25`. -/
def BlockInv2 (s : List Int) : Prop :=
  s.length = 6 ∧
  StageInv 21333 33554432 55399425 2914839985037 (s.getD 0 0) (s.getD 1 0) ∧
  StageInv 49062 55399425 138346407 6348663501323 (s.getD 2 0) (s.getD 3 0) ∧
  StageInv 63010 138346407 404374481 17783878868965 (s.getD 4 0) (s.getD 5 0)

/-- The pairs of analysis states `(filter_state1, filter_state2)` of one
channel that can be reached from the zero states by calls of
`WebRtcSpl_AnalysisQMF` on frames of `2 * M` `int16_t` samples,
`1 ≤ M ≤ 320`, with band arrays of at least `M` entries. -/
inductive AnalysisReachable : List Int → List Int → Prop where
  | fresh : AnalysisReachable [0, 0, 0, 0, 0, 0] [0, 0, 0, 0, 0, 0]
  | frame (st1 st2 x low high : List Int) (M : Nat) (r : AnalysisResult) :
      AnalysisReachable st1 st2 → 1 ≤ M → M ≤ 320 → x.length = 2 * M →
      (∀ v ∈ x, isInt16 v) → M ≤ low.length → M ≤ high.length →
      WebRtcSpl_AnalysisQMF x (2 * M) low high st1 st2 = Except.ok r →
      AnalysisReachable r.filter_state1 r.filter_state2

/-! ## WAV files (`AEC3Lib/wave_file.cpp`)

A stream opened on a regular file is the list of the file's bytes and a
position. `int`, `short`, `uint16_t` and `uint32_t` values are integers reduced
explicitly where the source converts them; `assert` is active
(`Fault.dcheck`). The host is little-endian. -/

/-- A `FILE*` stream: the bytes of the file and the file position. -/
structure File where
  bytes : List Nat
  pos : Nat
  deriving DecidableEq, Repr

/-- `fwrite` of the bytes `bs` at the position: they replace what the file
holds there, the file growing (zero-filled up to the position) as needed. -/
def fwriteBytes (bs : List Nat) (f : File) : File :=
  { bytes := f.bytes.take f.pos ++ List.replicate (f.pos - f.bytes.length) 0 ++ bs
      ++ f.bytes.drop (f.pos + bs.length),
    pos := f.pos + bs.length }

/-- `fputc(c, f)`: `(unsigned char)c` is written at the position. -/
def fputc (c : Int) (f : File) : File := fwriteBytes [(c % 256).toNat] f

/-- `fread` of `n` bytes into a zeroed buffer: the bytes at the position (zero
where the file has ended) and the stream advanced by the bytes that exist. -/
def freadBytes (n : Nat) (f : File) : List Nat × File :=
  ((List.range n).map (fun i => f.bytes.getD (f.pos + i) 0),
   { f with pos := f.pos + min n (f.bytes.length - f.pos) })

/-- The macro `MakeFourCc(c0, c1, c2, c3)`. -/
def MakeFourCc (inChar0 inChar1 inChar2 inChar3 : Nat) : Nat :=
  inChar3 % 256 + (inChar2 % 256) * 256 + (inChar1 % 256) * 65536
    + (inChar0 % 256) * 16777216

/-- `FormatTag_PCM`. -/
def FormatTag_PCM : Int := 1

/-- The data members of `WavReader`. -/
structure WavReader where
  m_pFile : Option File
  m_nLength : Int
  m_nStart : Int
  m_nFormatTag : Int
  m_nChannels : Int
  m_nSampleRate : Int
  m_nAvgBytesPerSec : Int
  m_nBlockAlign : Int
  m_nBitsPerSample : Int
  deriving DecidableEq, Repr

/-- `WavReader::WavReader()`. -/
def WavReader.new : WavReader :=
  { m_pFile := none, m_nLength := 0, m_nStart := 0, m_nFormatTag := 0, m_nChannels := 0,
    m_nSampleRate := 0, m_nAvgBytesPerSec := 0, m_nBlockAlign := 0, m_nBitsPerSample := 0 }

/-- `WavReader::readString()`: four bytes, the first one most significant, as
a `uint32_t`. -/
def WavReader.readString (f : File) : Int × File :=
  let r := freadBytes 4 f
  (((r.1.getD 0 0 : Nat) : Int) * 16777216 + ((r.1.getD 1 0 : Nat) : Int) * 65536
    + ((r.1.getD 2 0 : Nat) : Int) * 256 + ((r.1.getD 3 0 : Nat) : Int), r.2)

/-- `WavReader::readInt32()`: four bytes read into a `uint32_t` of the
little-endian host and returned as `int`. -/
def WavReader.readInt32 (f : File) : Int × File :=
  let r := freadBytes 4 f
  (wrap32 (((r.1.getD 0 0 : Nat) : Int) + ((r.1.getD 1 0 : Nat) : Int) * 256
    + ((r.1.getD 2 0 : Nat) : Int) * 65536 + ((r.1.getD 3 0 : Nat) : Int) * 16777216), r.2)

/-- `WavReader::readInt16()`: two bytes read into a `uint16_t` of the
little-endian host and returned as `short`. -/
def WavReader.readInt16 (f : File) : Int × File :=
  let r := freadBytes 2 f
  (wrap16 (((r.1.getD 0 0 : Nat) : Int) + ((r.1.getD 1 0 : Nat) : Int) * 256), r.2)

/-- The loop `while (nTotal > 0)` of `WavReader::Open` that looks for the
`data` tag, `nTotal` being the number of iterations left; `fseek(-3, SEEK_CUR)`
fails, and the `assert` on its result with it, when it would move before the
start of the file. -/
def WavReader.findData : Nat → File → Except Fault File
  | 0, f => .ok f
  | nTotal + 1, f =>
    let r := WavReader.readString f
    if MakeFourCc 100 97 116 97 = r.1 then .ok r.2
    else if r.2.pos < 3 then .error Fault.dcheck
    else WavReader.findData nTotal { r.2 with pos := r.2.pos - 3 }

/-- `WavReader::Open` on an existing file with the given bytes: the value
returned and the object. -/
def WavReader.Open (rd : WavReader) (file : List Nat) : Except Fault (Bool × WavReader) := do
  let f : File := { bytes := file, pos := 0 }
  let rd := { rd with m_pFile := some f }
  -- fseek(m_pFile, 0, SEEK_END); int nTotal = ftell(m_pFile);
  let nTotal := wrap32 (file.length : Int)
  dcheckThat (decide (0 ≠ nTotal))
  let s := WavReader.readString f
  if (MakeFourCc 82 73 70 70 : Int) ≠ s.1 then
    return (false, { rd with m_pFile := some s.2 })
  else
    let l := WavReader.readInt32 s.2
    let s := WavReader.readString l.2
    if (MakeFourCc 87 65 86 69 : Int) ≠ s.1 then
      return (false, { rd with m_pFile := some s.2 })
    else
      -- fseek(m_pFile, 16, SEEK_SET)
      let f : File := { s.2 with pos := 16 }
      let nFmtLen := WavReader.readInt32 f
      let tag := WavReader.readInt16 nFmtLen.2
      let ch := WavReader.readInt16 tag.2
      let rate := WavReader.readInt32 ch.2
      let avg := WavReader.readInt32 rate.2
      let align := WavReader.readInt16 avg.2
      let bits := WavReader.readInt16 align.2
      let m_nBitsPerSample := bits.1 % 65536
      let f ← WavReader.findData nTotal.toNat bits.2
      let len := WavReader.readInt32 f
      if m_nBitsPerSample / 8 = 0 then
        throw Fault.outOfRange
      else
        return (true,
          { m_pFile := some len.2,
            m_nLength := (Int.tdiv len.1 (m_nBitsPerSample / 8)) % 4294967296,
            m_nStart := (len.2.pos : Int) % 4294967296,
            m_nFormatTag := tag.1 % 65536,
            m_nChannels := ch.1 % 65536,
            m_nSampleRate := rate.1 % 4294967296,
            m_nAvgBytesPerSec := avg.1 % 4294967296,
            m_nBlockAlign := align.1 % 65536,
            m_nBitsPerSample := m_nBitsPerSample })

/-- The data members of `WavWriter`. -/
structure WavWriter where
  m_pFile : Option File
  m_nDataLen : Int
  m_nSampleRate : Int
  m_nBitsPerSamples : Int
  m_nChannels : Int
  m_nFormatTag : Int
  deriving DecidableEq, Repr

/-- `WavWriter::WavWriter()`. -/
def WavWriter.new : WavWriter :=
  { m_pFile := none, m_nDataLen := 0, m_nSampleRate := 0, m_nBitsPerSamples := 16,
    m_nChannels := 0, m_nFormatTag := FormatTag_PCM }

/-- `WavWriter::writeString(inStr)`, the string given by its four character
codes. -/
def WavWriter.writeString (inStr : List Nat) (f : File) : File :=
  fputc (inStr.getD 3 0) (fputc (inStr.getD 2 0) (fputc (inStr.getD 1 0)
    (fputc (inStr.getD 0 0) f)))

/-- `WavWriter::writeInt32(inValue)`. -/
def WavWriter.writeInt32 (inValue : Int) (f : File) : File :=
  fputc (sar inValue 24 % 256) (fputc (sar inValue 16 % 256) (fputc (sar inValue 8 % 256)
    (fputc (sar inValue 0 % 256) f)))

/-- `WavWriter::writeInt16(inValue)`. -/
def WavWriter.writeInt16 (inValue : Int) (f : File) : File :=
  fputc (sar inValue 8 % 256) (fputc (sar inValue 0 % 256) f)

/-- `WavWriter::writeHeader(inLen)` on the stream `f`. -/
def WavWriter.writeHeader (w : WavWriter) (inLen : Int) (f : File) : File :=
  let f := WavWriter.writeString [82, 73, 70, 70] f
  let f := WavWriter.writeInt32 (wrap32 (4 + 8 + 16 + 8 + inLen)) f
  let f := WavWriter.writeString [87, 65, 86, 69] f
  let f := WavWriter.writeString [102, 109, 116, 32] f
  let f := WavWriter.writeInt32 16 f
  let nBytesPerFrame := wrap32 (Int.tdiv w.m_nBitsPerSamples 8 * w.m_nChannels)
  let f := WavWriter.writeInt16 w.m_nFormatTag f
  let f := WavWriter.writeInt16 w.m_nChannels f
  let f := WavWriter.writeInt32 w.m_nSampleRate f
  let f := WavWriter.writeInt32 (wrap32 (nBytesPerFrame * w.m_nSampleRate)) f
  let f := WavWriter.writeInt16 nBytesPerFrame f
  let f := WavWriter.writeInt16 w.m_nBitsPerSamples f
  let f := WavWriter.writeString [100, 97, 116, 97] f
  WavWriter.writeInt32 inLen f

/-- `WavWriter::Open(inFileName, inSampleRate, inChannels, inBitsPerSamples,
inFormatTag)` when `fopen` creates the file: the value returned and the
object. -/
def WavWriter.Open (w : WavWriter) (inSampleRate inChannels inBitsPerSamples
    inFormatTag : Int) : Bool × WavWriter :=
  let w := { w with m_nDataLen := 0, m_nSampleRate := inSampleRate,
                    m_nBitsPerSamples := inBitsPerSamples, m_nChannels := inChannels,
                    m_nFormatTag := inFormatTag }
  (true, { w with m_pFile := some (w.writeHeader w.m_nDataLen { bytes := [], pos := 0 }) })

/-- The two bytes of a `short` in the memory of the little-endian host. -/
def shortBytes (v : Int) : List Nat := [(v % 256).toNat, (v / 256 % 256).toNat]

/-- `WavWriter::Write(short* inData, int inLen)`, `inData` pointing to the
array given. -/
def WavWriter.Write (w : WavWriter) (inData : List Int) (inLen : Int) :
    Except Fault WavWriter := do
  dcheckThat (decide (w.m_pFile ≠ none))
  dcheckThat (decide (16 = w.m_nBitsPerSamples))
  dcheckThat (decide (FormatTag_PCM = w.m_nFormatTag))
  match w.m_pFile with
  | none => return w
  | some f =>
    -- fwrite(inData, inLen, 2, m_pFile)
    if inLen < 0 ∨ (inData.length : Int) < inLen then throw Fault.outOfRange
    else
      let f := fwriteBytes ((inData.take inLen.toNat).flatMap shortBytes) f
      return { w with m_pFile := some f,
                      m_nDataLen := wrap32 (w.m_nDataLen + wrap32 (inLen * 2)) }

/-- `WavWriter::Close()`: the object and, when a file was open, the bytes of
the file that is closed. -/
def WavWriter.Close (w : WavWriter) : WavWriter × Option (List Nat) :=
  match w.m_pFile with
  | none => (w, none)
  | some f =>
    -- fseek(m_pFile, 0, SEEK_SET)
    let f := w.writeHeader w.m_nDataLen { f with pos := 0 }
    ({ w with m_pFile := none }, some f.bytes)

/-- A sequence of `Write(short*)` calls, one per array, each writing the whole
array. -/
def WavWriter.writeAll (w : WavWriter) : List (List Int) → Except Fault WavWriter
  | [] => .ok w
  | inData :: rest => do
    let w ← w.Write inData inData.length
    w.writeAll rest

/-- The 32-bit little-endian field at offset `off` of a byte sequence. -/
def fieldLE32 (bytes : List Nat) (off : Nat) : Nat :=
  bytes.getD off 0 + bytes.getD (off + 1) 0 * 256 + bytes.getD (off + 2) 0 * 65536
    + bytes.getD (off + 3) 0 * 16777216

/-- The four bytes of a 32-bit value, least significant first. -/
def bytesLE32 (v : Int) : List Nat :=
  [(v % 256).toNat, (v / 256 % 256).toNat, (v / 65536 % 256).toNat,
   (v / 16777216 % 256).toNat]

/-- The 44 bytes of a canonical WAV header: `RIFF`, the RIFF size `36 + len`,
`WAVE`, `fmt `, the chunk size 16, the format tag, the channel count, the
sample rate, the bytes per second, the bytes per frame, the bits per sample,
`data` and the data size `len`. -/
def wavHeader (tag ch rate bits len : Int) : List Nat :=
  [82, 73, 70, 70] ++ bytesLE32 (wrap32 (4 + 8 + 16 + 8 + len)) ++ [87, 65, 86, 69]
    ++ [102, 109, 116, 32] ++ bytesLE32 16 ++ shortBytes tag ++ shortBytes ch
    ++ bytesLE32 rate
    ++ bytesLE32 (wrap32 (wrap32 (Int.tdiv bits 8 * ch) * rate))
    ++ shortBytes (wrap32 (Int.tdiv bits 8 * ch)) ++ shortBytes bits
    ++ [100, 97, 116, 97] ++ bytesLE32 len

/-! # Properties -/

/-! ## Basic facts about the memory accesses -/

theorem ok_bind {ε α β : Type} (v : α) (f : α → Except ε β) :
    (Except.ok v >>= f) = f v := rfl

theorem error_bind {ε α β : Type} (e : ε) (f : α → Except ε β) :
    (Except.error e >>= f) = Except.error e := rfl

theorem rd_of_getElem? {α : Type} {buf : List α} {i : Nat} {v : α}
    (h : buf[i]? = some v) : rd buf i = .ok v := by
  simp [rd, h]

theorem rd_append_cons {α : Type} (ps : List α) (x : α) (ts : List α) (n : Nat)
    (h : n = ps.length) : rd (ps ++ x :: ts) n = .ok x := by
  subst h
  apply rd_of_getElem?
  rw [List.getElem?_append_right (Nat.le_refl _)]
  simp

theorem wr_append_cons {α : Type} (ps : List α) (x : α) (ts : List α) (n : Nat)
    (v : α) (h : n = ps.length) :
    wr (ps ++ x :: ts) n v = .ok (ps ++ v :: ts) := by
  subst h
  simp [wr]

theorem allPassSection_length (a : Int) :
    ∀ (xs : List Int) (xp yp : Int), (allPassSection a xp yp xs).length = xs.length
  | [], _, _ => rfl
  | x :: xs, _, _ => by
    simp [allPassSection, allPassSection_length a xs]

/-- The loop of one cascade stage, started when the first `ps.length + 1`
cells are done, fills the next `xs.length` cells of the destination with the
section's output and touches nothing else. -/
theorem foldlM_allPassStep (coef : List Int) (ci : Nat) (c : Int)
    (hc : coef[ci]? = some c) :
    ∀ (xs ps : List Int) (xp : Int) (ts pd : List Int) (yp : Int)
      (junk rest : List Int), pd.length = ps.length → junk.length = xs.length →
      (List.range' (ps.length + 1) xs.length).foldlM
          (fun d k => allPassStep coef ci (ps ++ xp :: (xs ++ ts)) d k)
          (pd ++ yp :: (junk ++ rest))
        = Except.ok (pd ++ yp :: (allPassSection c xp yp xs ++ rest)) := by
  intro xs
  induction xs with
  | nil =>
    intro ps xp ts pd yp junk rest _ hj
    have : junk = [] := List.length_eq_zero.mp hj
    subst this
    simp [allPassSection, pure, Except.pure]
  | cons x xs ih =>
    intro ps xp ts pd yp junk rest hp hj
    cases junk with
    | nil => simp at hj
    | cons j junk =>
      have hj' : junk.length = xs.length := by simpa using hj
      have hsrc : ps ++ xp :: (x :: xs ++ ts) = (ps ++ [xp]) ++ x :: (xs ++ ts) := by simp
      have hdst : pd ++ yp :: (j :: junk ++ rest) = (pd ++ [yp]) ++ j :: (junk ++ rest) := by simp
      have hstep : allPassStep coef ci (ps ++ xp :: (x :: xs ++ ts))
          (pd ++ yp :: (j :: junk ++ rest)) (ps.length + 1)
          = Except.ok ((pd ++ [yp]) ++
              WEBRTC_SPL_SCALEDIFF32 c (WebRtcSpl_SubSatW32 x yp) xp :: (junk ++ rest)) := by
        unfold allPassStep
        rw [hsrc, rd_append_cons (ps ++ [xp]) x _ _ (by simp), ok_bind]
        rw [rd_append_cons pd yp _ _ (by simp [hp]), ok_bind]
        rw [rd_of_getElem? hc, ok_bind]
        rw [← hsrc, rd_append_cons ps xp _ _ (by simp), ok_bind]
        rw [hdst, wr_append_cons (pd ++ [yp]) j _ _ _ (by simp [hp])]
      rw [List.length_cons, List.range'_succ, List.foldlM_cons, hstep, ok_bind]
      have := ih (ps ++ [xp]) x ts (pd ++ [yp])
        (WEBRTC_SPL_SCALEDIFF32 c (WebRtcSpl_SubSatW32 x yp) xp) junk rest
        (by simp [hp]) hj'
      rw [← hsrc] at this
      simp only [List.length_append, List.length_singleton] at this
      rw [this]
      simp [allPassSection]

theorem allPassLoop_ok (coef : List Int) (ci : Nat) (c : Int)
    (hc : coef[ci]? = some c) (n : Nat) (xs : List Int) (xp : Int)
    (ts : List Int) (yp : Int) (junk rest : List Int)
    (hx : xs.length = n) (hj : junk.length = n) :
    allPassLoop coef ci (xp :: (xs ++ ts)) (n + 1) (yp :: (junk ++ rest))
      = Except.ok (yp :: (allPassSection c xp yp xs ++ rest)) := by
  subst hx
  have := foldlM_allPassStep coef ci c hc xs [] xp ts [] yp junk rest rfl hj
  simpa [allPassLoop] using this

theorem sizeSub_succ_one (n : Nat) (hn : n + 1 < 18446744073709551616) :
    sizeSub (n + 1) 1 = n := by
  unfold sizeSub
  omega

theorem getElem?_length_cons_append (ts : List Int) :
    ∀ (xs : List Int) (x0 : Int),
      (x0 :: (xs ++ ts))[xs.length]? = some (lastOf (x0 :: xs))
  | [], x0 => by simp [lastOf]
  | x :: xs, x0 => by
    have := getElem?_length_cons_append ts xs x
    simpa [lastOf] using this

theorem rd_last (n : Nat) (hn : n + 1 < 18446744073709551616) (xs : List Int)
    (x0 : Int) (ts : List Int) (hx : xs.length = n) :
    rd (x0 :: (xs ++ ts)) (sizeSub (n + 1) 1) = Except.ok (lastOf (x0 :: xs)) := by
  subst hx
  rw [sizeSub_succ_one _ hn]
  exact rd_of_getElem? (getElem?_length_cons_append ts xs x0)

theorem rd_cons_zero (v : Int) (l : List Int) : rd (v :: l) 0 = Except.ok v := by
  simp [rd]

theorem wr_cons_zero (v w : Int) (l : List Int) :
    wr (v :: l) 0 w = Except.ok (w :: l) := by
  simp [wr]

theorem rd3_0 (a b c : Int) : rd [a, b, c] 0 = Except.ok a := rfl

theorem rd3_1 (a b c : Int) : rd [a, b, c] 1 = Except.ok b := rfl

theorem rd3_2 (a b c : Int) : rd [a, b, c] 2 = Except.ok c := rfl

theorem rd6_0 (a b c d e f : Int) : rd [a, b, c, d, e, f] 0 = Except.ok a := rfl

theorem rd6_1 (a b c d e f : Int) : rd [a, b, c, d, e, f] 1 = Except.ok b := rfl

theorem rd6_2 (a b c d e f : Int) : rd [a, b, c, d, e, f] 2 = Except.ok c := rfl

theorem rd6_3 (a b c d e f : Int) : rd [a, b, c, d, e, f] 3 = Except.ok d := rfl

theorem rd6_4 (a b c d e f : Int) : rd [a, b, c, d, e, f] 4 = Except.ok e := rfl

theorem rd6_5 (a b c d e f : Int) : rd [a, b, c, d, e, f] 5 = Except.ok f := rfl

theorem wr6_1 (a b c d e f v : Int) :
    wr [a, b, c, d, e, f] 1 v = Except.ok [a, v, c, d, e, f] := rfl

theorem wr6_2 (a b c d e f v : Int) :
    wr [a, b, c, d, e, f] 2 v = Except.ok [a, b, v, d, e, f] := rfl

theorem wr6_3 (a b c d e f v : Int) :
    wr [a, b, c, d, e, f] 3 v = Except.ok [a, b, c, v, e, f] := rfl

theorem wr6_4 (a b c d e f v : Int) :
    wr [a, b, c, d, e, f] 4 v = Except.ok [a, b, c, d, v, f] := rfl

theorem wr6_5 (a b c d e f v : Int) :
    wr [a, b, c, d, e, f] 5 v = Except.ok [a, b, c, d, e, v] := rfl

/-- On a non-empty sequence held at the start of `in_data`, with room for it
in `out_data`, `WebRtcSpl_AllPassQMF` succeeds: `out_data` receives the output
of the third section, `in_data` is overwritten by the output of the second, the
state becomes `cascadeState`, and the cells past `data_length` are untouched. -/
theorem WebRtcSpl_AllPassQMF_ok (X ti J tq : List Int) (c0 c1 c2 : Int)
    (s0 s1 s2 s3 s4 s5 : Int) (hX : X ≠ []) (hJ : J.length = X.length)
    (hlen : X.length < 18446744073709551616) :
    WebRtcSpl_AllPassQMF (X ++ ti) X.length (J ++ tq) [c0, c1, c2]
        [s0, s1, s2, s3, s4, s5]
      = Except.ok
          { in_data := cascadeStage2 [c0, c1, c2] [s0, s1, s2, s3, s4, s5] X ++ ti,
            out_data := cascadeStage3 [c0, c1, c2] [s0, s1, s2, s3, s4, s5] X ++ tq,
            filter_state := cascadeState [c0, c1, c2] [s0, s1, s2, s3, s4, s5] X } := by
  cases X with
  | nil => exact absurd rfl hX
  | cons x0 xs =>
    cases J with
    | nil => simp at hJ
    | cons j0 junk =>
      have hj : junk.length = xs.length := by simpa using hJ
      have hn : xs.length + 1 < 18446744073709551616 := by simpa using hlen
      -- names for the three section outputs
      generalize hy0 : WEBRTC_SPL_SCALEDIFF32 c0 (WebRtcSpl_SubSatW32 x0 s1) s0 = y0
      generalize hys : allPassSection c0 x0 y0 xs = ys
      have hysl : ys.length = xs.length := by rw [← hys, allPassSection_length]
      generalize hz0 : WEBRTC_SPL_SCALEDIFF32 c1 (WebRtcSpl_SubSatW32 y0 s3) s2 = z0
      generalize hzs : allPassSection c1 y0 z0 ys = zs
      have hzsl : zs.length = xs.length := by rw [← hzs, allPassSection_length, hysl]
      generalize hw0 : WEBRTC_SPL_SCALEDIFF32 c2 (WebRtcSpl_SubSatW32 z0 s5) s4 = w0'
      generalize hws : allPassSection c2 z0 w0' zs = ws
      have h1 : cascadeStage1 [c0, c1, c2] [s0, s1, s2, s3, s4, s5] (x0 :: xs) = y0 :: ys := by
        show allPassSection c0 s0 s1 (x0 :: xs) = _
        simp only [allPassSection]
        rw [hy0, hys]
      have h2 : cascadeStage2 [c0, c1, c2] [s0, s1, s2, s3, s4, s5] (x0 :: xs) = z0 :: zs := by
        show allPassSection c1 s2 s3 (cascadeStage1 _ _ (x0 :: xs)) = _
        rw [h1]
        simp only [allPassSection]
        rw [hz0, hzs]
      have h3 : cascadeStage3 [c0, c1, c2] [s0, s1, s2, s3, s4, s5] (x0 :: xs) = w0' :: ws := by
        show allPassSection c2 s4 s5 (cascadeStage2 _ _ (x0 :: xs)) = _
        rw [h2]
        simp only [allPassSection]
        rw [hw0, hws]
      rw [cascadeState, h1, h2, h3]
      have hwsl : ws.length = xs.length := by rw [← hws, allPassSection_length, hzsl]
      unfold WebRtcSpl_AllPassQMF
      simp only [List.cons_append, List.length_cons]
      rw [rd_cons_zero, ok_bind, rd6_1, ok_bind, rd3_0, ok_bind, rd6_0, ok_bind,
        wr_cons_zero, ok_bind, hy0,
        allPassLoop_ok _ 0 c0 rfl _ xs x0 ti y0 junk tq rfl hj, ok_bind, hys,
        rd_last _ hn xs x0 ti rfl, ok_bind, wr_cons_zero, ok_bind,
        rd_last _ hn ys y0 tq hysl, ok_bind, wr6_1, ok_bind]
      rw [rd_cons_zero, ok_bind, rd6_3, ok_bind, rd3_1, ok_bind, rd6_2, ok_bind,
        wr_cons_zero, ok_bind, hz0,
        allPassLoop_ok _ 1 c1 rfl _ ys y0 tq z0 xs ti hysl rfl, ok_bind, hzs,
        ok_bind, wr6_2, ok_bind, rd_last _ hn zs z0 ti hzsl, ok_bind, wr6_3, ok_bind]
      rw [rd_cons_zero, ok_bind, rd6_5, ok_bind, rd3_2, ok_bind, rd6_4, ok_bind,
        wr_cons_zero, ok_bind, hw0,
        allPassLoop_ok _ 2 c2 rfl _ zs z0 ti w0' ys tq hzsl hysl, ok_bind, hws,
        ok_bind, wr6_4, ok_bind, rd_last _ hn ws w0' tq hwsl, ok_bind, wr6_5, ok_bind]
      rfl

theorem length_eq_three {l : List Int} (h : l.length = 3) :
    ∃ a b c, l = [a, b, c] := by
  match l, h with
  | [a, b, c], _ => exact ⟨a, b, c, rfl⟩

theorem length_eq_six {l : List Int} (h : l.length = 6) :
    ∃ a b c d e f, l = [a, b, c, d, e, f] := by
  match l, h with
  | [a, b, c, d, e, f], _ => exact ⟨a, b, c, d, e, f, rfl⟩

/-- General form of `WebRtcSpl_AllPassQMF_ok`: any three coefficients, any
six-word state, `data_length = L ≥ 1` samples at the start of the buffers. -/
theorem WebRtcSpl_AllPassQMF_eq (X ti J tq c s : List Int) (L : Nat)
    (hL : 1 ≤ L) (hX : X.length = L) (hJ : J.length = L) (hc : c.length = 3)
    (hs : s.length = 6) (hL64 : L < 18446744073709551616) :
    WebRtcSpl_AllPassQMF (X ++ ti) L (J ++ tq) c s
      = Except.ok
          { in_data := cascadeStage2 c s X ++ ti,
            out_data := cascadeStage3 c s X ++ tq,
            filter_state := cascadeState c s X } := by
  obtain ⟨c0, c1, c2, rfl⟩ := length_eq_three hc
  obtain ⟨s0, s1, s2, s3, s4, s5, rfl⟩ := length_eq_six hs
  subst hX
  have hne : X ≠ [] := by
    intro h
    subst h
    simp at hL
  exact WebRtcSpl_AllPassQMF_ok X ti J tq c0 c1 c2 s0 s1 s2 s3 s4 s5 hne hJ hL64

theorem cascadeStage1_length (c s x : List Int) :
    (cascadeStage1 c s x).length = x.length := by
  simp [cascadeStage1, allPassSection_length]

theorem cascadeStage2_length (c s x : List Int) :
    (cascadeStage2 c s x).length = x.length := by
  simp [cascadeStage2, allPassSection_length, cascadeStage1_length]

theorem cascadeStage3_length (c s x : List Int) :
    (cascadeStage3 c s x).length = x.length := by
  simp [cascadeStage3, allPassSection_length, cascadeStage2_length]

/-! ## Loops that fill a buffer cell by cell -/

/-- A counting loop whose `i`-th iteration takes the expected state `E i` to
`E (i + 1)` reaches `E n` after `n` iterations. -/
theorem foldlM_range_steps {σ : Type} (body : σ → Nat → Except Fault σ)
    (E : Nat → σ) (M : Nat)
    (hstep : ∀ i, i < M → body (E i) i = Except.ok (E (i + 1))) :
    ∀ n, n ≤ M → (List.range n).foldlM body (E 0) = Except.ok (E n) := by
  intro n
  induction n with
  | zero => intro _; rfl
  | succ n ih =>
    intro hn
    rw [List.range_succ, List.foldlM_append, ih (Nat.le_of_succ_le hn), ok_bind,
      List.foldlM_cons, hstep n hn, ok_bind]
    rfl

theorem rd_getD (buf : List Int) (i : Nat) (h : i < buf.length) :
    rd buf i = Except.ok (buf.getD i 0) := by
  apply rd_of_getElem?
  rw [List.getD_eq_getElem?_getD, List.getElem?_eq_getElem h]
  rfl

theorem rdI_natCast (buf : List Int) (i : Nat) (h : i < buf.length) :
    rdI buf (i : Int) = Except.ok (buf.getD i 0) := by
  unfold rdI
  rw [if_pos (Int.natCast_nonneg i), Int.toNat_natCast]
  exact rd_getD buf i h

/-- Writing cell `i` of a buffer whose first `i` cells already hold
`g 0, .., g (i-1)`. -/
theorem wr_fill (g : Nat → Int) (b : List Int) (i : Nat) (h : i < b.length) :
    wr ((List.range i).map g ++ b.drop i) i (g i)
      = Except.ok ((List.range (i + 1)).map g ++ b.drop (i + 1)) := by
  rw [List.drop_eq_getElem_cons h, wr_append_cons _ _ _ _ _ (by simp),
    List.range_succ, List.map_append]
  simp

/-- The odd-indexed samples of a frame, shifted to Q10 as the source does. -/
theorem analysisSplit_loop (in_data b1 b2 : List Int) (M : Nat)
    (hin : 2 * M ≤ in_data.length) (h1 : M ≤ b1.length) (h2 : M ≤ b2.length)
    (hM : M ≤ 16383) :
    (List.range M).foldlM (analysisSplitStep in_data) ((0 : Int), b1, b2)
      = Except.ok (((2 * M : Nat) : Int),
          (List.range M).map (fun i => mul32 (in_data.getD (2 * i + 1) 0) 1024)
            ++ b1.drop M,
          (List.range M).map (fun i => mul32 (in_data.getD (2 * i) 0) 1024)
            ++ b2.drop M) := by
  have key := foldlM_range_steps (analysisSplitStep in_data)
    (fun n => (((2 * n : Nat) : Int),
          (List.range n).map (fun i => mul32 (in_data.getD (2 * i + 1) 0) 1024)
            ++ b1.drop n,
          (List.range n).map (fun i => mul32 (in_data.getD (2 * i) 0) 1024)
            ++ b2.drop n)) M ?_ M (Nat.le_refl M)
  · simpa using key
  · intro i hi
    have e1 : ((2 * i : Nat) : Int) + 1 = ((2 * i + 1 : Nat) : Int) := by
      push_cast; ring
    have e2 : wrap16 (((2 * i : Nat) : Int) + 2) = ((2 * (i + 1) : Nat) : Int) := by
      unfold wrap16
      omega
    simp only [analysisSplitStep]
    rw [rdI_natCast _ _ (by omega), ok_bind,
      wr_fill (fun i => mul32 (in_data.getD (2 * i) 0) 1024) b2 i (by omega), ok_bind,
      e1, rdI_natCast _ _ (by omega), ok_bind,
      wr_fill (fun i => mul32 (in_data.getD (2 * i + 1) 0) 1024) b1 i (by omega), ok_bind,
      e2]
    rfl

/-- The loop of `WebRtcSpl_AnalysisQMF` that forms the bands writes cell `i`
of each band from cell `i` of the two filtered streams. -/
theorem analysisCombine_loop (filter1 filter2 low high : List Int) (M : Nat)
    (hf1 : M ≤ filter1.length) (hf2 : M ≤ filter2.length)
    (hl : M ≤ low.length) (hh : M ≤ high.length) :
    (List.range M).foldlM (analysisCombineStep filter1 filter2) (low, high)
      = Except.ok (
          (List.range M).map (fun i => WebRtcSpl_SatW32ToW16
              (sar (add32 (add32 (filter1.getD i 0) (filter2.getD i 0)) 1024) 11))
            ++ low.drop M,
          (List.range M).map (fun i => WebRtcSpl_SatW32ToW16
              (sar (add32 (sub32 (filter1.getD i 0) (filter2.getD i 0)) 1024) 11))
            ++ high.drop M) := by
  have key := foldlM_range_steps (analysisCombineStep filter1 filter2)
    (fun n => (
          (List.range n).map (fun i => WebRtcSpl_SatW32ToW16
              (sar (add32 (add32 (filter1.getD i 0) (filter2.getD i 0)) 1024) 11))
            ++ low.drop n,
          (List.range n).map (fun i => WebRtcSpl_SatW32ToW16
              (sar (add32 (sub32 (filter1.getD i 0) (filter2.getD i 0)) 1024) 11))
            ++ high.drop n)) M ?_ M (Nat.le_refl M)
  · simpa using key
  · intro i hi
    simp only [analysisCombineStep]
    rw [rd_getD _ _ (by omega), ok_bind, rd_getD _ _ (by omega), ok_bind,
      wr_fill (fun i => WebRtcSpl_SatW32ToW16
              (sar (add32 (add32 (filter1.getD i 0) (filter2.getD i 0)) 1024) 11))
        low i (by omega), ok_bind,
      wr_fill (fun i => WebRtcSpl_SatW32ToW16
              (sar (add32 (sub32 (filter1.getD i 0) (filter2.getD i 0)) 1024) 11))
        high i (by omega), ok_bind]
    rfl

/-- `WebRtcSpl_AllPassQMF_eq` with an arbitrary output buffer that has room
for `L` samples. -/
theorem WebRtcSpl_AllPassQMF_buf (X ti out c s : List Int) (L : Nat)
    (hL : 1 ≤ L) (hX : X.length = L) (hout : L ≤ out.length) (hc : c.length = 3)
    (hs : s.length = 6) (hL64 : L < 18446744073709551616) :
    WebRtcSpl_AllPassQMF (X ++ ti) L out c s
      = Except.ok
          { in_data := cascadeStage2 c s X ++ ti,
            out_data := cascadeStage3 c s X ++ out.drop L,
            filter_state := cascadeState c s X } := by
  have h := WebRtcSpl_AllPassQMF_eq X ti (out.take L) (out.drop L) c s L hL hX
    (by simp [hout]) hc hs hL64
  rwa [List.take_append_drop] at h

theorem getD_append_left (F rest : List Int) (i : Nat) (h : i < F.length) :
    (F ++ rest).getD i 0 = F.getD i 0 := by
  rw [List.getD_eq_getElem?_getD, List.getD_eq_getElem?_getD,
    List.getElem?_append_left h]

theorem map_range_congr (f g : Nat → Int) (M : Nat)
    (h : ∀ i, i < M → f i = g i) :
    (List.range M).map f = (List.range M).map g :=
  List.map_congr_left (fun i hi => h i (List.mem_range.mp hi))

theorem localArray_length (n : Nat) : (localArray n).length = n := by
  simp [localArray]

theorem dcheckThat_true : dcheckThat true = Except.ok () := rfl

theorem dcheckThat_false : dcheckThat false = Except.error Fault.dcheck := rfl

/-- What `WebRtcSpl_AnalysisQMF` computes on a frame of `2 * M` samples,
`1 ≤ M ≤ 320`: the call succeeds, the first `M` cells of each band are the
combined outputs of the two cascades and the states are the cascade states. -/
theorem WebRtcSpl_AnalysisQMF_eq (in_data low high st1 st2 : List Int) (M : Nat)
    (hM1 : 1 ≤ M) (hM : M ≤ 320) (hin : 2 * M ≤ in_data.length)
    (hl : M ≤ low.length) (hh : M ≤ high.length)
    (hs1 : st1.length = 6) (hs2 : st2.length = 6) :
    WebRtcSpl_AnalysisQMF in_data (2 * M) low high st1 st2
      = Except.ok
          { low_band := (List.range M).map (fun i => lowSample
                ((cascadeStage3 WebRtcSpl_kAllPassFilter1 st1
                    (analysisHalfIn1 in_data M)).getD i 0)
                ((cascadeStage3 WebRtcSpl_kAllPassFilter2 st2
                    (analysisHalfIn2 in_data M)).getD i 0)) ++ low.drop M,
            high_band := (List.range M).map (fun i => highSample
                ((cascadeStage3 WebRtcSpl_kAllPassFilter1 st1
                    (analysisHalfIn1 in_data M)).getD i 0)
                ((cascadeStage3 WebRtcSpl_kAllPassFilter2 st2
                    (analysisHalfIn2 in_data M)).getD i 0)) ++ high.drop M,
            filter_state1 := cascadeState WebRtcSpl_kAllPassFilter1 st1
                (analysisHalfIn1 in_data M),
            filter_state2 := cascadeState WebRtcSpl_kAllPassFilter2 st2
                (analysisHalfIn2 in_data M) } := by
  have hdiv : 2 * M / 2 = M := by omega
  have hmod : decide (0 = 2 * M % 2) = true := by
    rw [decide_eq_true_eq]; omega
  have hle : decide (M ≤ kMaxBandFrameLength) = true := by
    rw [decide_eq_true_eq]; exact hM
  have hX1 : (analysisHalfIn1 in_data M).length = M := by simp [analysisHalfIn1]
  have hX2 : (analysisHalfIn2 in_data M).length = M := by simp [analysisHalfIn2]
  have hbuf : M ≤ (localArray kMaxBandFrameLength).length := by
    rw [localArray_length]; exact hM
  simp only [WebRtcSpl_AnalysisQMF]
  rw [hmod, dcheckThat_true, ok_bind, hdiv, hle, dcheckThat_true, ok_bind,
    analysisSplit_loop in_data _ _ M hin hbuf hbuf (by omega), ok_bind]
  simp only []
  rw [← analysisHalfIn1, ← analysisHalfIn2,
    WebRtcSpl_AllPassQMF_buf _ _ _ WebRtcSpl_kAllPassFilter1 st1 M hM1 hX1 hbuf rfl hs1
      (by omega), ok_bind,
    WebRtcSpl_AllPassQMF_buf _ _ _ WebRtcSpl_kAllPassFilter2 st2 M hM1 hX2 hbuf rfl hs2
      (by omega), ok_bind]
  simp only []
  have hF1 : (cascadeStage3 WebRtcSpl_kAllPassFilter1 st1
      (analysisHalfIn1 in_data M)).length = M := by rw [cascadeStage3_length, hX1]
  have hF2 : (cascadeStage3 WebRtcSpl_kAllPassFilter2 st2
      (analysisHalfIn2 in_data M)).length = M := by rw [cascadeStage3_length, hX2]
  generalize cascadeStage3 WebRtcSpl_kAllPassFilter1 st1 (analysisHalfIn1 in_data M) = F1
    at hF1 ⊢
  generalize cascadeStage3 WebRtcSpl_kAllPassFilter2 st2 (analysisHalfIn2 in_data M) = F2
    at hF2 ⊢
  generalize List.drop M (localArray kMaxBandFrameLength) = rest
  rw [analysisCombine_loop _ _ low high M
    (by rw [List.length_append, hF1]; omega)
    (by rw [List.length_append, hF2]; omega) hl hh, ok_bind]
  have g1 : ∀ i, i < M → (F1 ++ rest).getD i 0 = F1.getD i 0 :=
    fun i hi => getD_append_left _ _ i (by rw [hF1]; exact hi)
  have g2 : ∀ i, i < M → (F2 ++ rest).getD i 0 = F2.getD i 0 :=
    fun i hi => getD_append_left _ _ i (by rw [hF2]; exact hi)
  rw [map_range_congr
      (fun i => WebRtcSpl_SatW32ToW16
        (sar (add32 (add32 ((F1 ++ rest).getD i 0) ((F2 ++ rest).getD i 0)) 1024) 11))
      (fun i => lowSample (F1.getD i 0) (F2.getD i 0))
      M (fun i hi => by simp only [g1 i hi, g2 i hi, lowSample]),
    map_range_congr
      (fun i => WebRtcSpl_SatW32ToW16
        (sar (add32 (sub32 ((F1 ++ rest).getD i 0) ((F2 ++ rest).getD i 0)) 1024) 11))
      (fun i => highSample (F1.getD i 0) (F2.getD i 0))
      M (fun i hi => by simp only [g1 i hi, g2 i hi, highSample])]
  rfl

/-! ## The loops of `WebRtcSpl_SynthesisQMF` -/

theorem synthesisSumDiff_loop (low high b1 b2 : List Int) (M : Nat)
    (hl : M ≤ low.length) (hh : M ≤ high.length)
    (h1 : M ≤ b1.length) (h2 : M ≤ b2.length) :
    (List.range M).foldlM (synthesisSumDiffStep low high) (b1, b2)
      = Except.ok (synthesisHalfIn1 low high M ++ b1.drop M,
          synthesisHalfIn2 low high M ++ b2.drop M) := by
  have key := foldlM_range_steps (synthesisSumDiffStep low high)
    (fun n => (synthesisHalfIn1 low high n ++ b1.drop n,
          synthesisHalfIn2 low high n ++ b2.drop n)) M ?_ M (Nat.le_refl M)
  · simpa [synthesisHalfIn1, synthesisHalfIn2] using key
  · intro i hi
    simp only [synthesisSumDiffStep, synthesisHalfIn1, synthesisHalfIn2]
    rw [rd_getD _ _ (by omega), ok_bind, rd_getD _ _ (by omega), ok_bind,
      wr_fill (fun i => mul32 (add32 (low.getD i 0) (high.getD i 0)) 1024)
        b1 i (by omega), ok_bind,
      wr_fill (fun i => mul32 (sub32 (low.getD i 0) (high.getD i 0)) 1024)
        b2 i (by omega), ok_bind]
    rfl

theorem interleave_length :
    ∀ (A B : List Int), A.length = B.length → (interleave A B).length = 2 * A.length
  | [], [], _ => rfl
  | [], _ :: _, h => by simp at h
  | _ :: _, [], h => by simp at h
  | a :: A, b :: B, h => by
    have := interleave_length A B (by simpa using h)
    simp only [interleave, List.length_cons, this]
    omega

theorem interleave_snoc :
    ∀ (A B : List Int) (a b : Int), A.length = B.length →
      interleave (A ++ [a]) (B ++ [b]) = interleave A B ++ [a, b]
  | [], [], _, _, _ => rfl
  | [], _ :: _, _, _, h => by simp at h
  | _ :: _, [], _, _, h => by simp at h
  | x :: A, y :: B, a, b, h => by
    have := interleave_snoc A B a b (by simpa using h)
    show x :: y :: interleave (A ++ [a]) (B ++ [b]) = x :: y :: (interleave A B ++ [a, b])
    rw [this]

theorem wrI_natCast (buf : List Int) (i : Nat) (v : Int) :
    wrI buf (i : Int) v = wr buf i v := by
  unfold wrI
  rw [if_pos (Int.natCast_nonneg i), Int.toNat_natCast]

theorem synthesisInterleave_loop (filter1 filter2 out : List Int) (M : Nat)
    (hf1 : M ≤ filter1.length) (hf2 : M ≤ filter2.length)
    (ho : 2 * M ≤ out.length) (hM : M ≤ 16383) :
    (List.range M).foldlM (synthesisInterleaveStep filter1 filter2) ((0 : Int), out)
      = Except.ok (((2 * M : Nat) : Int),
          interleave ((List.range M).map (fun i => outSample (filter2.getD i 0)))
            ((List.range M).map (fun i => outSample (filter1.getD i 0)))
            ++ out.drop (2 * M)) := by
  have key := foldlM_range_steps (synthesisInterleaveStep filter1 filter2)
    (fun n => (((2 * n : Nat) : Int),
          interleave ((List.range n).map (fun i => outSample (filter2.getD i 0)))
            ((List.range n).map (fun i => outSample (filter1.getD i 0)))
            ++ out.drop (2 * n))) M ?_ M (Nat.le_refl M)
  · simpa [interleave] using key
  · intro i hi
    have e1 : wrap16 (((2 * i : Nat) : Int) + 1) = ((2 * i + 1 : Nat) : Int) := by
      unfold wrap16
      omega
    have e2 : wrap16 (((2 * i + 1 : Nat) : Int) + 1) = ((2 * (i + 1) : Nat) : Int) := by
      unfold wrap16
      omega
    have hlenI : (interleave ((List.range i).map (fun i => outSample (filter2.getD i 0)))
        ((List.range i).map (fun i => outSample (filter1.getD i 0)))).length = 2 * i := by
      rw [interleave_length _ _ (by simp)]
      simp
    have hd : out.drop (2 * i)
        = out.getD (2 * i) 0 :: out.getD (2 * i + 1) 0 :: out.drop (2 * (i + 1)) := by
      have h0 : 2 * i < out.length := by omega
      have h1 : 2 * i + 1 < out.length := by omega
      rw [List.drop_eq_getElem_cons h0, List.drop_eq_getElem_cons h1,
        List.getD_eq_getElem?_getD, List.getD_eq_getElem?_getD,
        List.getElem?_eq_getElem h0, List.getElem?_eq_getElem h1]
      rfl
    simp only [synthesisInterleaveStep]
    rw [rd_getD _ _ (by omega), ok_bind, wrI_natCast, hd,
      wr_append_cons _ _ _ _ _ hlenI.symm, ok_bind, e1, rd_getD _ _ (by omega), ok_bind,
      wrI_natCast]
    generalize hI : interleave ((List.range i).map (fun i => outSample (filter2.getD i 0)))
        ((List.range i).map (fun i => outSample (filter1.getD i 0))) = I at hlenI ⊢
    have hre : ∀ (v r : Int) (t : List Int), I ++ v :: r :: t = (I ++ [v]) ++ r :: t := by
      intro v r t; simp
    rw [hre, wr_append_cons _ _ _ _ _ (by simp [hlenI]), ok_bind, e2,
      List.range_succ, List.map_append, List.map_append, List.map_singleton,
      List.map_singleton, interleave_snoc _ _ _ _ (by simp), hI]
    simp [outSample, pure, Except.pure]

/-- What `WebRtcSpl_SynthesisQMF` computes on two bands of `M` samples,
`1 ≤ M ≤ 320`: the call succeeds and the first `2 * M` cells of `out_data`
interleave the narrowed outputs of the second cascade (`filter2`, written
first) and of the first cascade (`filter1`). -/
theorem WebRtcSpl_SynthesisQMF_eq (low high out st1 st2 : List Int) (M : Nat)
    (hM1 : 1 ≤ M) (hM : M ≤ 320) (hl : M ≤ low.length) (hh : M ≤ high.length)
    (ho : 2 * M ≤ out.length) (hs1 : st1.length = 6) (hs2 : st2.length = 6) :
    WebRtcSpl_SynthesisQMF low high M out st1 st2
      = Except.ok
          { out_data := interleave
                ((List.range M).map (fun i => outSample
                  ((cascadeStage3 WebRtcSpl_kAllPassFilter1 st2
                    (synthesisHalfIn2 low high M)).getD i 0)))
                ((List.range M).map (fun i => outSample
                  ((cascadeStage3 WebRtcSpl_kAllPassFilter2 st1
                    (synthesisHalfIn1 low high M)).getD i 0)))
              ++ out.drop (2 * M),
            filter_state1 := cascadeState WebRtcSpl_kAllPassFilter2 st1
                (synthesisHalfIn1 low high M),
            filter_state2 := cascadeState WebRtcSpl_kAllPassFilter1 st2
                (synthesisHalfIn2 low high M) } := by
  have hle : decide (M ≤ kMaxBandFrameLength) = true := by
    rw [decide_eq_true_eq]; exact hM
  have hX1 : (synthesisHalfIn1 low high M).length = M := by simp [synthesisHalfIn1]
  have hX2 : (synthesisHalfIn2 low high M).length = M := by simp [synthesisHalfIn2]
  have hbuf : M ≤ (localArray kMaxBandFrameLength).length := by
    rw [localArray_length]; exact hM
  simp only [WebRtcSpl_SynthesisQMF]
  rw [hle, dcheckThat_true, ok_bind,
    synthesisSumDiff_loop low high _ _ M hl hh hbuf hbuf, ok_bind]
  simp only []
  rw [WebRtcSpl_AllPassQMF_buf _ _ _ WebRtcSpl_kAllPassFilter2 st1 M hM1 hX1 hbuf rfl hs1
      (by omega), ok_bind,
    WebRtcSpl_AllPassQMF_buf _ _ _ WebRtcSpl_kAllPassFilter1 st2 M hM1 hX2 hbuf rfl hs2
      (by omega), ok_bind]
  simp only []
  have hF1 : (cascadeStage3 WebRtcSpl_kAllPassFilter2 st1
      (synthesisHalfIn1 low high M)).length = M := by rw [cascadeStage3_length, hX1]
  have hF2 : (cascadeStage3 WebRtcSpl_kAllPassFilter1 st2
      (synthesisHalfIn2 low high M)).length = M := by rw [cascadeStage3_length, hX2]
  generalize cascadeStage3 WebRtcSpl_kAllPassFilter2 st1 (synthesisHalfIn1 low high M) = F1
    at hF1 ⊢
  generalize cascadeStage3 WebRtcSpl_kAllPassFilter1 st2 (synthesisHalfIn2 low high M) = F2
    at hF2 ⊢
  generalize List.drop M (localArray kMaxBandFrameLength) = rest
  rw [synthesisInterleave_loop _ _ out M
    (by rw [List.length_append, hF1]; omega)
    (by rw [List.length_append, hF2]; omega) ho (by omega), ok_bind]
  have g1 : ∀ i, i < M → (F1 ++ rest).getD i 0 = F1.getD i 0 :=
    fun i hi => getD_append_left _ _ i (by rw [hF1]; exact hi)
  have g2 : ∀ i, i < M → (F2 ++ rest).getD i 0 = F2.getD i 0 :=
    fun i hi => getD_append_left _ _ i (by rw [hF2]; exact hi)
  rw [map_range_congr
      (fun i => outSample ((F2 ++ rest).getD i 0))
      (fun i => outSample (F2.getD i 0))
      M (fun i hi => by simp only [g2 i hi]),
    map_range_congr
      (fun i => outSample ((F1 ++ rest).getD i 0))
      (fun i => outSample (F1.getD i 0))
      M (fun i hi => by simp only [g1 i hi])]
  rfl

theorem interleave_getD_even :
    ∀ (A B rest : List Int) (i : Nat), A.length = B.length → i < A.length →
      (interleave A B ++ rest).getD (2 * i) 0 = A.getD i 0
  | [], _, _, i, _, hi => by simp at hi
  | _ :: _, [], _, _, h, _ => by simp at h
  | a :: A, b :: B, rest, 0, _, _ => rfl
  | a :: A, b :: B, rest, i + 1, h, hi => by
    have := interleave_getD_even A B rest i (by simpa using h) (by simpa using hi)
    have e : 2 * (i + 1) = 2 * i + 1 + 1 := by ring
    rw [e]
    simpa [interleave] using this

theorem interleave_getD_odd :
    ∀ (A B rest : List Int) (i : Nat), A.length = B.length → i < A.length →
      (interleave A B ++ rest).getD (2 * i + 1) 0 = B.getD i 0
  | [], _, _, i, _, hi => by simp at hi
  | _ :: _, [], _, _, h, _ => by simp at h
  | a :: A, b :: B, rest, 0, _, _ => rfl
  | a :: A, b :: B, rest, i + 1, h, hi => by
    have := interleave_getD_odd A B rest i (by simpa using h) (by simpa using hi)
    have e : 2 * (i + 1) + 1 = 2 * i + 1 + 1 + 1 := by ring
    rw [e]
    simpa [interleave] using this

theorem getD_map_range (f : Nat → Int) (M i : Nat) (h : i < M) :
    ((List.range M).map f).getD i 0 = f i := by
  rw [List.getD_eq_getElem?_getD]
  simp [h]

theorem getD_map_range_append (f : Nat → Int) (rest : List Int) (M i : Nat)
    (h : i < M) : ((List.range M).map f ++ rest).getD i 0 = f i := by
  rw [getD_append_left _ _ _ (by simpa using h), getD_map_range f M i h]

/-! ## Arithmetic facts -/

theorem wrap32_of_isInt32 (v : Int) (h : isInt32 v) : wrap32 v = v := by
  unfold isInt32 at h
  unfold wrap32
  omega

theorem mul32_of_isInt16 (v : Int) (h : isInt16 v) : mul32 v 1024 = 1024 * v := by
  unfold isInt16 at h
  unfold mul32 wrap32
  omega

theorem add32_add32 (a b c : Int) : add32 (add32 a b) c = wrap32 (a + b + c) := by
  unfold add32 wrap32
  omega

theorem add32_sub32 (a b c : Int) : add32 (sub32 a b) c = wrap32 (a - b + c) := by
  unfold add32 sub32 wrap32
  omega

theorem getD_mem_of_lt (l : List Int) (i : Nat) (h : i < l.length) :
    l.getD i 0 ∈ l := by
  rw [List.getD_eq_getElem?_getD, List.getElem?_eq_getElem h]
  exact List.getElem_mem h

theorem getElem?_map_range_append (f : Nat → Int) (rest : List Int) (M i : Nat)
    (h : i < M) : ((List.range M).map f ++ rest)[i]? = some (f i) := by
  rw [List.getElem?_append_left (by simpa using h)]
  simp [h]

/-- `WebRtcSpl_AllPassQMF` on a buffer that holds exactly the `L` samples. -/
theorem WebRtcSpl_AllPassQMF_exact (X out c s : List Int) (L : Nat)
    (hL : 1 ≤ L) (hX : X.length = L) (hout : L ≤ out.length) (hc : c.length = 3)
    (hs : s.length = 6) (hL64 : L < 18446744073709551616) :
    WebRtcSpl_AllPassQMF X L out c s
      = Except.ok
          { in_data := cascadeStage2 c s X,
            out_data := cascadeStage3 c s X ++ out.drop L,
            filter_state := cascadeState c s X } := by
  have h := WebRtcSpl_AllPassQMF_buf X [] out c s L hL hX hout hc hs hL64
  simpa using h

/-- On a frame of `int16_t` samples the Q10 streams are the exact products. -/
theorem analysisHalfIn1_eq (x : List Int) (M : Nat) (hx : 2 * M ≤ x.length)
    (hx16 : ∀ v ∈ x, isInt16 v) :
    analysisHalfIn1 x M = (List.range M).map (fun i => 1024 * x.getD (2 * i + 1) 0) :=
  map_range_congr _ _ M (fun i hi =>
    mul32_of_isInt16 _ (hx16 _ (getD_mem_of_lt x (2 * i + 1) (by omega))))

theorem analysisHalfIn2_eq (x : List Int) (M : Nat) (hx : 2 * M ≤ x.length)
    (hx16 : ∀ v ∈ x, isInt16 v) :
    analysisHalfIn2 x M = (List.range M).map (fun i => 1024 * x.getD (2 * i) 0) :=
  map_range_congr _ _ M (fun i hi =>
    mul32_of_isInt16 _ (hx16 _ (getD_mem_of_lt x (2 * i) (by omega))))

/-! ## The claims -/

/-- C1 (two-band Split). For an `int16_t` frame `x` of even length `2 * M`,
`1 ≤ M ≤ 320`, and any two six-word states, let `c1` be the result of the
all-pass cascade on the sequence `1024 * x[2i+1]` with coefficient set 1 and
`filter_state1`, and `c2` the result on `1024 * x[2i]` with coefficient set 2
and `filter_state2`. Then `WebRtcSpl_AnalysisQMF` succeeds and for every
`i < M`: `low_band[i] = sat16((f1[i] + f2[i] + 1024) >> 11)` and
`high_band[i] = sat16((f1[i] - f2[i] + 1024) >> 11)`, the additions and the
subtraction being those of `int32_t`; whenever the exact sum (difference) lies
in the `int32_t` range it is the exact integer formula. -/
theorem C1_analysis_bands (x low high st1 st2 : List Int) (M : Nat)
    (hM1 : 1 ≤ M) (hM : M ≤ 320) (hx : x.length = 2 * M)
    (hx16 : ∀ v ∈ x, isInt16 v) (hl : M ≤ low.length) (hh : M ≤ high.length)
    (hs1 : st1.length = 6) (hs2 : st2.length = 6) :
    ∃ c1 c2 r,
      WebRtcSpl_AllPassQMF ((List.range M).map (fun i => 1024 * x.getD (2 * i + 1) 0)) M
          (localArray M) [6418, 36982, 57261] st1 = Except.ok c1 ∧
      WebRtcSpl_AllPassQMF ((List.range M).map (fun i => 1024 * x.getD (2 * i) 0)) M
          (localArray M) [21333, 49062, 63010] st2 = Except.ok c2 ∧
      WebRtcSpl_AnalysisQMF x (2 * M) low high st1 st2 = Except.ok r ∧
      ∀ i, i < M →
        r.low_band[i]? = some (WebRtcSpl_SatW32ToW16
          (sar (add32 (add32 (c1.out_data.getD i 0) (c2.out_data.getD i 0)) 1024) 11)) ∧
        r.high_band[i]? = some (WebRtcSpl_SatW32ToW16
          (sar (add32 (sub32 (c1.out_data.getD i 0) (c2.out_data.getD i 0)) 1024) 11)) ∧
        (isInt32 (c1.out_data.getD i 0 + c2.out_data.getD i 0 + 1024) →
          r.low_band[i]? = some (WebRtcSpl_SatW32ToW16
            ((c1.out_data.getD i 0 + c2.out_data.getD i 0 + 1024) / 2 ^ 11))) ∧
        (isInt32 (c1.out_data.getD i 0 - c2.out_data.getD i 0 + 1024) →
          r.high_band[i]? = some (WebRtcSpl_SatW32ToW16
            ((c1.out_data.getD i 0 - c2.out_data.getD i 0 + 1024) / 2 ^ 11))) := by
  have hX1 : (analysisHalfIn1 x M).length = M := by simp [analysisHalfIn1]
  have hX2 : (analysisHalfIn2 x M).length = M := by simp [analysisHalfIn2]
  have hF1 : (cascadeStage3 WebRtcSpl_kAllPassFilter1 st1 (analysisHalfIn1 x M)).length = M := by
    rw [cascadeStage3_length, hX1]
  have hF2 : (cascadeStage3 WebRtcSpl_kAllPassFilter2 st2 (analysisHalfIn2 x M)).length = M := by
    rw [cascadeStage3_length, hX2]
  refine ⟨{ in_data := cascadeStage2 WebRtcSpl_kAllPassFilter1 st1 (analysisHalfIn1 x M),
             out_data := cascadeStage3 WebRtcSpl_kAllPassFilter1 st1 (analysisHalfIn1 x M)
               ++ (localArray M).drop M,
             filter_state := cascadeState WebRtcSpl_kAllPassFilter1 st1 (analysisHalfIn1 x M) },
           { in_data := cascadeStage2 WebRtcSpl_kAllPassFilter2 st2 (analysisHalfIn2 x M),
             out_data := cascadeStage3 WebRtcSpl_kAllPassFilter2 st2 (analysisHalfIn2 x M)
               ++ (localArray M).drop M,
             filter_state := cascadeState WebRtcSpl_kAllPassFilter2 st2 (analysisHalfIn2 x M) },
           _, ?_, ?_,
    WebRtcSpl_AnalysisQMF_eq x low high st1 st2 M hM1 hM (by omega) hl hh hs1 hs2, ?_⟩
  · rw [← analysisHalfIn1_eq x M (by omega) hx16]
    exact WebRtcSpl_AllPassQMF_exact _ _ WebRtcSpl_kAllPassFilter1 st1 M hM1 hX1
      (by rw [localArray_length]) rfl hs1 (by omega)
  · rw [← analysisHalfIn2_eq x M (by omega) hx16]
    exact WebRtcSpl_AllPassQMF_exact _ _ WebRtcSpl_kAllPassFilter2 st2 M hM1 hX2
      (by rw [localArray_length]) rfl hs2 (by omega)
  · intro i hi
    have hlow := getElem?_map_range_append
      (fun i => lowSample
        ((cascadeStage3 WebRtcSpl_kAllPassFilter1 st1 (analysisHalfIn1 x M)).getD i 0)
        ((cascadeStage3 WebRtcSpl_kAllPassFilter2 st2 (analysisHalfIn2 x M)).getD i 0))
      (low.drop M) M i hi
    have hhigh := getElem?_map_range_append
      (fun i => highSample
        ((cascadeStage3 WebRtcSpl_kAllPassFilter1 st1 (analysisHalfIn1 x M)).getD i 0)
        ((cascadeStage3 WebRtcSpl_kAllPassFilter2 st2 (analysisHalfIn2 x M)).getD i 0))
      (high.drop M) M i hi
    simp only [] at hlow hhigh ⊢
    rw [getD_append_left _ _ i (by rw [hF1]; exact hi),
      getD_append_left _ _ i (by rw [hF2]; exact hi)]
    generalize (cascadeStage3 WebRtcSpl_kAllPassFilter1 st1 (analysisHalfIn1 x M)).getD i 0 = f1
      at hlow hhigh ⊢
    generalize (cascadeStage3 WebRtcSpl_kAllPassFilter2 st2 (analysisHalfIn2 x M)).getD i 0 = f2
      at hlow hhigh ⊢
    refine ⟨hlow, hhigh, ?_, ?_⟩
    · intro h
      rw [hlow, lowSample, add32_add32, wrap32_of_isInt32 _ h]
      rfl
    · intro h
      rw [hhigh, highSample, add32_sub32, wrap32_of_isInt32 _ h]
      rfl

/-- C1 at the frame `[100, 200, -300, 400]` with zero states. -/
theorem C1_analysis_bands_witness :
    ∃ c1 c2 r,
      WebRtcSpl_AllPassQMF
          ((List.range 2).map (fun i => 1024 * [100, 200, -300, 400].getD (2 * i + 1) 0)) 2
          (localArray 2) [6418, 36982, 57261] [0, 0, 0, 0, 0, 0] = Except.ok c1 ∧
      WebRtcSpl_AllPassQMF
          ((List.range 2).map (fun i => 1024 * [100, 200, -300, 400].getD (2 * i) 0)) 2
          (localArray 2) [21333, 49062, 63010] [0, 0, 0, 0, 0, 0] = Except.ok c2 ∧
      WebRtcSpl_AnalysisQMF [100, 200, -300, 400] (2 * 2) [0, 0] [0, 0]
          [0, 0, 0, 0, 0, 0] [0, 0, 0, 0, 0, 0] = Except.ok r ∧
      ∀ i, i < 2 →
        r.low_band[i]? = some (WebRtcSpl_SatW32ToW16
          (sar (add32 (add32 (c1.out_data.getD i 0) (c2.out_data.getD i 0)) 1024) 11)) ∧
        r.high_band[i]? = some (WebRtcSpl_SatW32ToW16
          (sar (add32 (sub32 (c1.out_data.getD i 0) (c2.out_data.getD i 0)) 1024) 11)) ∧
        (isInt32 (c1.out_data.getD i 0 + c2.out_data.getD i 0 + 1024) →
          r.low_band[i]? = some (WebRtcSpl_SatW32ToW16
            ((c1.out_data.getD i 0 + c2.out_data.getD i 0 + 1024) / 2 ^ 11))) ∧
        (isInt32 (c1.out_data.getD i 0 - c2.out_data.getD i 0 + 1024) →
          r.high_band[i]? = some (WebRtcSpl_SatW32ToW16
            ((c1.out_data.getD i 0 - c2.out_data.getD i 0 + 1024) / 2 ^ 11))) :=
  C1_analysis_bands [100, 200, -300, 400] [0, 0] [0, 0] [0, 0, 0, 0, 0, 0]
    [0, 0, 0, 0, 0, 0] 2 (by decide) (by decide) rfl (by decide) (by decide) (by decide)
    rfl rfl

theorem synthesisHalfIn1_eq (low high : List Int) (M : Nat) (hl : M ≤ low.length)
    (hh : M ≤ high.length) (hl16 : ∀ v ∈ low, isInt16 v) (hh16 : ∀ v ∈ high, isInt16 v) :
    synthesisHalfIn1 low high M
      = (List.range M).map (fun i => (low.getD i 0 + high.getD i 0) * 1024) :=
  map_range_congr _ _ M (fun i hi => by
    have h1 := hl16 _ (getD_mem_of_lt low i (by omega))
    have h2 := hh16 _ (getD_mem_of_lt high i (by omega))
    unfold isInt16 at h1 h2
    show mul32 (add32 (low.getD i 0) (high.getD i 0)) 1024 = _
    unfold mul32 add32 wrap32
    omega)

theorem synthesisHalfIn2_eq (low high : List Int) (M : Nat) (hl : M ≤ low.length)
    (hh : M ≤ high.length) (hl16 : ∀ v ∈ low, isInt16 v) (hh16 : ∀ v ∈ high, isInt16 v) :
    synthesisHalfIn2 low high M
      = (List.range M).map (fun i => (low.getD i 0 - high.getD i 0) * 1024) :=
  map_range_congr _ _ M (fun i hi => by
    have h1 := hl16 _ (getD_mem_of_lt low i (by omega))
    have h2 := hh16 _ (getD_mem_of_lt high i (by omega))
    unfold isInt16 at h1 h2
    show mul32 (sub32 (low.getD i 0) (high.getD i 0)) 1024 = _
    unfold mul32 sub32 wrap32
    omega)

theorem getElem?_of_getD_append (A rest : List Int) (j : Nat) (h : j < A.length) :
    (A ++ rest)[j]? = some ((A ++ rest).getD j 0) := by
  have hj : j < (A ++ rest).length := by rw [List.length_append]; omega
  rw [List.getD_eq_getElem?_getD, List.getElem?_eq_getElem hj]
  rfl

/-- The cells of `out_data` written by `WebRtcSpl_SynthesisQMF`: cell `2i`
holds the narrowed `filter2[i]` and cell `2i+1` the narrowed `filter1[i]`. -/
theorem synthesis_out_cells (F1 F2 rest : List Int) (M i : Nat) (hi : i < M)
    (h1 : F1.length = M) (h2 : F2.length = M) :
    (interleave ((List.range M).map (fun i => outSample (F2.getD i 0)))
        ((List.range M).map (fun i => outSample (F1.getD i 0))) ++ rest)[2 * i]?
      = some (outSample (F2.getD i 0)) ∧
    (interleave ((List.range M).map (fun i => outSample (F2.getD i 0)))
        ((List.range M).map (fun i => outSample (F1.getD i 0))) ++ rest)[2 * i + 1]?
      = some (outSample (F1.getD i 0)) := by
  have hlen : (interleave ((List.range M).map (fun i => outSample (F2.getD i 0)))
        ((List.range M).map (fun i => outSample (F1.getD i 0)))).length = 2 * M := by
    rw [interleave_length _ _ (by simp)]
    simp
  constructor
  · rw [getElem?_of_getD_append _ _ _ (by omega),
      interleave_getD_even _ _ _ i (by simp) (by simpa using hi),
      getD_map_range _ M i hi]
  · rw [getElem?_of_getD_append _ _ _ (by omega),
      interleave_getD_odd _ _ _ i (by simp) (by simpa using hi),
      getD_map_range _ M i hi]

/-- C2 as stated fails. For the one-sample bands `low = [1000]`,
`high = [-1000]` and zero states, with `S` the result of the cascade on the
sum channel and `D` the result on the difference channel, the claim asks for
`out[1] = sat16((D[0] + 512) >> 10)` and `out[0] = sat16((S[0] + 512) >> 10)`;
the code writes `out = [97, 0]` while those two values are `97` and `0`. -/
theorem C2_synthesis_interleaving_counterexample :
    ∃ S D r,
      WebRtcSpl_AllPassQMF [(1000 + -1000) * 1024] 1 (localArray 1)
          [21333, 49062, 63010] [0, 0, 0, 0, 0, 0] = Except.ok S ∧
      WebRtcSpl_AllPassQMF [(1000 - -1000) * 1024] 1 (localArray 1)
          [6418, 36982, 57261] [0, 0, 0, 0, 0, 0] = Except.ok D ∧
      WebRtcSpl_SynthesisQMF [1000] [-1000] 1 [0, 0]
          [0, 0, 0, 0, 0, 0] [0, 0, 0, 0, 0, 0] = Except.ok r ∧
      r.out_data = [97, 0] ∧
      WebRtcSpl_SatW32ToW16 ((D.out_data.getD 0 0 + 512) / 2 ^ 10) = 97 ∧
      WebRtcSpl_SatW32ToW16 ((S.out_data.getD 0 0 + 512) / 2 ^ 10) = 0 ∧
      ¬ (r.out_data[2 * 0 + 1]?
            = some (WebRtcSpl_SatW32ToW16 ((D.out_data.getD 0 0 + 512) / 2 ^ 10)) ∧
         r.out_data[2 * 0]?
            = some (WebRtcSpl_SatW32ToW16 ((S.out_data.getD 0 0 + 512) / 2 ^ 10))) :=
  ⟨{ in_data := [0], out_data := [0], filter_state := [0, 0, 0, 0, 0, 0] },
   { in_data := [113177], out_data := [98886],
     filter_state := [2048000, 200562, 200562, 113177, 113177, 98886] },
   _, by rfl, by rfl,
   WebRtcSpl_SynthesisQMF_eq [1000] [-1000] [0, 0] [0, 0, 0, 0, 0, 0] [0, 0, 0, 0, 0, 0] 1
     (by decide) (by decide) (by decide) (by decide) (by decide) rfl rfl,
   by decide, by decide, by decide, by decide⟩

theorem add32_of_isInt32 (a b : Int) (h : isInt32 (a + b)) : add32 a b = a + b :=
  wrap32_of_isInt32 _ h

/-- C2, amended (two-band Merge interleaving). For `int16_t` bands `low`,
`high` of length `M`, `1 ≤ M ≤ 320`, let `S` be the result of the cascade on the
sum channel `(low + high) * 1024` (coefficient set 2, `filter_state1`) and `D`
the result on the difference channel `(low - high) * 1024` (coefficient set 1,
`filter_state2`). Then `WebRtcSpl_SynthesisQMF` succeeds and, with 0-based
indices, the difference-filtered samples take the even positions and the
sum-filtered samples the odd positions: `out[2i] = sat16((D[i] + 512) >> 10)`
and `out[2i+1] = sat16((S[i] + 512) >> 10)` for every `i < M`, the addition
being that of `int32_t` (the exact one whenever the sum is in range). -/
theorem C2_synthesis_interleaving (low high out st1 st2 : List Int) (M : Nat)
    (hM1 : 1 ≤ M) (hM : M ≤ 320) (hl : low.length = M) (hh : high.length = M)
    (hl16 : ∀ v ∈ low, isInt16 v) (hh16 : ∀ v ∈ high, isInt16 v)
    (ho : 2 * M ≤ out.length) (hs1 : st1.length = 6) (hs2 : st2.length = 6) :
    ∃ S D r,
      WebRtcSpl_AllPassQMF
          ((List.range M).map (fun i => (low.getD i 0 + high.getD i 0) * 1024)) M
          (localArray M) [21333, 49062, 63010] st1 = Except.ok S ∧
      WebRtcSpl_AllPassQMF
          ((List.range M).map (fun i => (low.getD i 0 - high.getD i 0) * 1024)) M
          (localArray M) [6418, 36982, 57261] st2 = Except.ok D ∧
      WebRtcSpl_SynthesisQMF low high M out st1 st2 = Except.ok r ∧
      ∀ i, i < M →
        r.out_data[2 * i]? = some (WebRtcSpl_SatW32ToW16
          (sar (add32 (D.out_data.getD i 0) 512) 10)) ∧
        r.out_data[2 * i + 1]? = some (WebRtcSpl_SatW32ToW16
          (sar (add32 (S.out_data.getD i 0) 512) 10)) ∧
        (isInt32 (D.out_data.getD i 0 + 512) →
          r.out_data[2 * i]? = some (WebRtcSpl_SatW32ToW16
            ((D.out_data.getD i 0 + 512) / 2 ^ 10))) ∧
        (isInt32 (S.out_data.getD i 0 + 512) →
          r.out_data[2 * i + 1]? = some (WebRtcSpl_SatW32ToW16
            ((S.out_data.getD i 0 + 512) / 2 ^ 10))) := by
  have hX1 : (synthesisHalfIn1 low high M).length = M := by simp [synthesisHalfIn1]
  have hX2 : (synthesisHalfIn2 low high M).length = M := by simp [synthesisHalfIn2]
  have hF1 : (cascadeStage3 WebRtcSpl_kAllPassFilter2 st1
      (synthesisHalfIn1 low high M)).length = M := by rw [cascadeStage3_length, hX1]
  have hF2 : (cascadeStage3 WebRtcSpl_kAllPassFilter1 st2
      (synthesisHalfIn2 low high M)).length = M := by rw [cascadeStage3_length, hX2]
  refine ⟨{ in_data := cascadeStage2 WebRtcSpl_kAllPassFilter2 st1 (synthesisHalfIn1 low high M),
             out_data := cascadeStage3 WebRtcSpl_kAllPassFilter2 st1
               (synthesisHalfIn1 low high M) ++ (localArray M).drop M,
             filter_state := cascadeState WebRtcSpl_kAllPassFilter2 st1
               (synthesisHalfIn1 low high M) },
           { in_data := cascadeStage2 WebRtcSpl_kAllPassFilter1 st2 (synthesisHalfIn2 low high M),
             out_data := cascadeStage3 WebRtcSpl_kAllPassFilter1 st2
               (synthesisHalfIn2 low high M) ++ (localArray M).drop M,
             filter_state := cascadeState WebRtcSpl_kAllPassFilter1 st2
               (synthesisHalfIn2 low high M) },
           _, ?_, ?_,
    WebRtcSpl_SynthesisQMF_eq low high out st1 st2 M hM1 hM (by omega) (by omega) ho hs1 hs2,
    ?_⟩
  · rw [← synthesisHalfIn1_eq low high M (by omega) (by omega) hl16 hh16]
    exact WebRtcSpl_AllPassQMF_exact _ _ WebRtcSpl_kAllPassFilter2 st1 M hM1 hX1
      (by rw [localArray_length]) rfl hs1 (by omega)
  · rw [← synthesisHalfIn2_eq low high M (by omega) (by omega) hl16 hh16]
    exact WebRtcSpl_AllPassQMF_exact _ _ WebRtcSpl_kAllPassFilter1 st2 M hM1 hX2
      (by rw [localArray_length]) rfl hs2 (by omega)
  · intro i hi
    have hc := synthesis_out_cells
      (cascadeStage3 WebRtcSpl_kAllPassFilter2 st1 (synthesisHalfIn1 low high M))
      (cascadeStage3 WebRtcSpl_kAllPassFilter1 st2 (synthesisHalfIn2 low high M))
      (out.drop (2 * M)) M i hi hF1 hF2
    simp only [] at hc ⊢
    rw [getD_append_left _ _ i (by rw [hF2]; exact hi),
      getD_append_left _ _ i (by rw [hF1]; exact hi)]
    generalize (cascadeStage3 WebRtcSpl_kAllPassFilter2 st1
      (synthesisHalfIn1 low high M)).getD i 0 = f1 at hc ⊢
    generalize (cascadeStage3 WebRtcSpl_kAllPassFilter1 st2
      (synthesisHalfIn2 low high M)).getD i 0 = f2 at hc ⊢
    refine ⟨hc.1, hc.2, ?_, ?_⟩
    · intro h
      rw [hc.1, outSample, add32_of_isInt32 _ _ h]
      rfl
    · intro h
      rw [hc.2, outSample, add32_of_isInt32 _ _ h]
      rfl

/-- C2 (amended) at the bands `[1000, -5]`, `[-1000, 7]` with zero states. -/
theorem C2_synthesis_interleaving_witness :
    ∃ S D r,
      WebRtcSpl_AllPassQMF
          ((List.range 2).map
            (fun i => ([1000, -5].getD i 0 + [-1000, 7].getD i 0) * 1024)) 2
          (localArray 2) [21333, 49062, 63010] [0, 0, 0, 0, 0, 0] = Except.ok S ∧
      WebRtcSpl_AllPassQMF
          ((List.range 2).map
            (fun i => ([1000, -5].getD i 0 - [-1000, 7].getD i 0) * 1024)) 2
          (localArray 2) [6418, 36982, 57261] [0, 0, 0, 0, 0, 0] = Except.ok D ∧
      WebRtcSpl_SynthesisQMF [1000, -5] [-1000, 7] 2 [0, 0, 0, 0]
          [0, 0, 0, 0, 0, 0] [0, 0, 0, 0, 0, 0] = Except.ok r ∧
      ∀ i, i < 2 →
        r.out_data[2 * i]? = some (WebRtcSpl_SatW32ToW16
          (sar (add32 (D.out_data.getD i 0) 512) 10)) ∧
        r.out_data[2 * i + 1]? = some (WebRtcSpl_SatW32ToW16
          (sar (add32 (S.out_data.getD i 0) 512) 10)) ∧
        (isInt32 (D.out_data.getD i 0 + 512) →
          r.out_data[2 * i]? = some (WebRtcSpl_SatW32ToW16
            ((D.out_data.getD i 0 + 512) / 2 ^ 10))) ∧
        (isInt32 (S.out_data.getD i 0 + 512) →
          r.out_data[2 * i + 1]? = some (WebRtcSpl_SatW32ToW16
            ((S.out_data.getD i 0 + 512) / 2 ^ 10))) :=
  C2_synthesis_interleaving [1000, -5] [-1000, 7] [0, 0, 0, 0] [0, 0, 0, 0, 0, 0]
    [0, 0, 0, 0, 0, 0] 2 (by decide) (by decide) rfl rfl (by decide) (by decide)
    (by decide) rfl rfl

/-- C3 (coefficient-set swap between Split and Merge). In
`WebRtcSpl_AnalysisQMF` the stream of the first buffer and state (odd samples)
goes through the cascade with coefficient set 1 = `{6418, 36982, 57261}` and
the stream of the second buffer and state (even samples) with set 2 =
`{21333, 49062, 63010}`; in `WebRtcSpl_SynthesisQMF` the sum channel, which
uses `filter_state1`, goes through set 2 and the difference channel, which uses
`filter_state2`, through set 1. Both the states left behind and the samples
written are those of these four cascade runs. -/
theorem C3_coefficient_sets_swapped (x low high a1 a2 lo hi out t1 t2 : List Int)
    (M : Nat) (hM1 : 1 ≤ M) (hM : M ≤ 320)
    (hx : x.length = 2 * M) (hx16 : ∀ v ∈ x, isInt16 v)
    (hl : M ≤ low.length) (hh : M ≤ high.length)
    (ha1 : a1.length = 6) (ha2 : a2.length = 6)
    (hlo : lo.length = M) (hhi : hi.length = M)
    (hlo16 : ∀ v ∈ lo, isInt16 v) (hhi16 : ∀ v ∈ hi, isInt16 v)
    (ho : 2 * M ≤ out.length) (ht1 : t1.length = 6) (ht2 : t2.length = 6) :
    ∃ A1 A2 ra S1 S2 rs,
      WebRtcSpl_AllPassQMF ((List.range M).map (fun i => 1024 * x.getD (2 * i + 1) 0)) M
          (localArray M) [6418, 36982, 57261] a1 = Except.ok A1 ∧
      WebRtcSpl_AllPassQMF ((List.range M).map (fun i => 1024 * x.getD (2 * i) 0)) M
          (localArray M) [21333, 49062, 63010] a2 = Except.ok A2 ∧
      WebRtcSpl_AnalysisQMF x (2 * M) low high a1 a2 = Except.ok ra ∧
      ra.filter_state1 = A1.filter_state ∧ ra.filter_state2 = A2.filter_state ∧
      (∀ i, i < M →
        ra.low_band[i]? = some (lowSample (A1.out_data.getD i 0) (A2.out_data.getD i 0)) ∧
        ra.high_band[i]? = some (highSample (A1.out_data.getD i 0) (A2.out_data.getD i 0))) ∧
      WebRtcSpl_AllPassQMF
          ((List.range M).map (fun i => (lo.getD i 0 + hi.getD i 0) * 1024)) M
          (localArray M) [21333, 49062, 63010] t1 = Except.ok S1 ∧
      WebRtcSpl_AllPassQMF
          ((List.range M).map (fun i => (lo.getD i 0 - hi.getD i 0) * 1024)) M
          (localArray M) [6418, 36982, 57261] t2 = Except.ok S2 ∧
      WebRtcSpl_SynthesisQMF lo hi M out t1 t2 = Except.ok rs ∧
      rs.filter_state1 = S1.filter_state ∧ rs.filter_state2 = S2.filter_state ∧
      (∀ i, i < M →
        rs.out_data[2 * i]? = some (outSample (S2.out_data.getD i 0)) ∧
        rs.out_data[2 * i + 1]? = some (outSample (S1.out_data.getD i 0))) := by
  have hX1 : (analysisHalfIn1 x M).length = M := by simp [analysisHalfIn1]
  have hX2 : (analysisHalfIn2 x M).length = M := by simp [analysisHalfIn2]
  have hY1 : (synthesisHalfIn1 lo hi M).length = M := by simp [synthesisHalfIn1]
  have hY2 : (synthesisHalfIn2 lo hi M).length = M := by simp [synthesisHalfIn2]
  have hF1 : (cascadeStage3 WebRtcSpl_kAllPassFilter1 a1 (analysisHalfIn1 x M)).length = M := by
    rw [cascadeStage3_length, hX1]
  have hF2 : (cascadeStage3 WebRtcSpl_kAllPassFilter2 a2 (analysisHalfIn2 x M)).length = M := by
    rw [cascadeStage3_length, hX2]
  have hG1 : (cascadeStage3 WebRtcSpl_kAllPassFilter2 t1
      (synthesisHalfIn1 lo hi M)).length = M := by rw [cascadeStage3_length, hY1]
  have hG2 : (cascadeStage3 WebRtcSpl_kAllPassFilter1 t2
      (synthesisHalfIn2 lo hi M)).length = M := by rw [cascadeStage3_length, hY2]
  refine ⟨cascadeResult WebRtcSpl_kAllPassFilter1 a1 (analysisHalfIn1 x M)
            ((localArray M).drop M),
          cascadeResult WebRtcSpl_kAllPassFilter2 a2 (analysisHalfIn2 x M)
            ((localArray M).drop M), _,
          cascadeResult WebRtcSpl_kAllPassFilter2 t1 (synthesisHalfIn1 lo hi M)
            ((localArray M).drop M),
          cascadeResult WebRtcSpl_kAllPassFilter1 t2 (synthesisHalfIn2 lo hi M)
            ((localArray M).drop M), _, ?_, ?_,
    WebRtcSpl_AnalysisQMF_eq x low high a1 a2 M hM1 hM (by omega) hl hh ha1 ha2, rfl, rfl,
    ?_, ?_, ?_,
    WebRtcSpl_SynthesisQMF_eq lo hi out t1 t2 M hM1 hM (by omega) (by omega) ho ht1 ht2,
    rfl, rfl, ?_⟩
  · rw [← analysisHalfIn1_eq x M (by omega) hx16]
    exact WebRtcSpl_AllPassQMF_exact _ _ WebRtcSpl_kAllPassFilter1 a1 M hM1 hX1
      (by rw [localArray_length]) rfl ha1 (by omega)
  · rw [← analysisHalfIn2_eq x M (by omega) hx16]
    exact WebRtcSpl_AllPassQMF_exact _ _ WebRtcSpl_kAllPassFilter2 a2 M hM1 hX2
      (by rw [localArray_length]) rfl ha2 (by omega)
  · intro i hi
    simp only [cascadeResult]
    rw [getD_append_left _ _ i (by rw [hF1]; exact hi),
      getD_append_left _ _ i (by rw [hF2]; exact hi)]
    exact ⟨getElem?_map_range_append _ _ M i hi, getElem?_map_range_append _ _ M i hi⟩
  · rw [← synthesisHalfIn1_eq lo hi M (by omega) (by omega) hlo16 hhi16]
    exact WebRtcSpl_AllPassQMF_exact _ _ WebRtcSpl_kAllPassFilter2 t1 M hM1 hY1
      (by rw [localArray_length]) rfl ht1 (by omega)
  · rw [← synthesisHalfIn2_eq lo hi M (by omega) (by omega) hlo16 hhi16]
    exact WebRtcSpl_AllPassQMF_exact _ _ WebRtcSpl_kAllPassFilter1 t2 M hM1 hY2
      (by rw [localArray_length]) rfl ht2 (by omega)
  · intro i hi
    simp only [cascadeResult]
    rw [getD_append_left _ _ i (by rw [hG2]; exact hi),
      getD_append_left _ _ i (by rw [hG1]; exact hi)]
    exact synthesis_out_cells _ _ _ M i hi hG1 hG2

theorem rd_cases {α : Type} (buf : List α) (i : Nat) :
    rd buf i = Except.error Fault.outOfRange ∨ ∃ v, rd buf i = Except.ok v := by
  unfold rd
  cases buf[i]? with
  | none => exact Or.inl rfl
  | some v => exact Or.inr ⟨v, rfl⟩

theorem wr_cases {α : Type} (buf : List α) (i : Nat) (v : α) :
    wr buf i v = Except.error Fault.outOfRange ∨ ∃ b, wr buf i v = Except.ok b := by
  unfold wr
  by_cases h : i < buf.length
  · rw [if_pos h]; exact Or.inr ⟨_, rfl⟩
  · rw [if_neg h]; exact Or.inl rfl

theorem allPassLoop_zero (coef : List Int) (ci : Nat) (src dst : List Int) :
    allPassLoop coef ci src 0 dst = Except.ok dst := rfl

theorem rd_sizeSub_zero (buf : List Int) (h : buf.length < 18446744073709551616) :
    rd buf (sizeSub 0 1) = Except.error Fault.outOfRange := by
  have e : sizeSub 0 1 = 18446744073709551615 := by decide
  rw [e]
  unfold rd
  rw [List.getElem?_eq_none (by omega)]

/-- With `data_length = 0` the cascade reads `in_data[data_length - 1]`, an
index outside every array. -/
theorem WebRtcSpl_AllPassQMF_zero (in_data out_data coef st : List Int)
    (h : in_data.length < 18446744073709551616) :
    WebRtcSpl_AllPassQMF in_data 0 out_data coef st = Except.error Fault.outOfRange := by
  unfold WebRtcSpl_AllPassQMF
  rcases rd_cases in_data 0 with e | ⟨x0, e⟩ <;> rw [e]
  · rfl
  rw [ok_bind]
  rcases rd_cases st 1 with e | ⟨s1, e⟩ <;> rw [e]
  · rfl
  rw [ok_bind]
  rcases rd_cases coef 0 with e | ⟨c0, e⟩ <;> rw [e]
  · rfl
  rw [ok_bind]
  rcases rd_cases st 0 with e | ⟨s0, e⟩ <;> rw [e]
  · rfl
  rw [ok_bind]
  rcases wr_cases out_data 0 (WEBRTC_SPL_SCALEDIFF32 c0 (WebRtcSpl_SubSatW32 x0 s1) s0)
    with e | ⟨o, e⟩ <;> rw [e]
  · rfl
  rw [ok_bind, allPassLoop_zero, ok_bind, rd_sizeSub_zero in_data h]
  rfl

theorem lastOf_singleton (a : Int) : lastOf [a] = a := rfl

theorem lastOf_cons_cons (a b : Int) (l : List Int) :
    lastOf (a :: b :: l) = lastOf (b :: l) := rfl

theorem lastOf_append (x y : List Int) (hy : y ≠ []) : lastOf (x ++ y) = lastOf y := by
  induction x with
  | nil => rfl
  | cons a x ih =>
    have hne : x ++ y ≠ [] := by
      intro h
      exact hy (List.append_eq_nil.mp h).2
    obtain ⟨b, l, hbl⟩ := List.exists_cons_of_ne_nil hne
    rw [List.cons_append, hbl, lastOf_cons_cons, ← hbl, ih]

theorem allPassSection_ne_nil (a xp yp : Int) (x : List Int) (hx : x ≠ []) :
    allPassSection a xp yp x ≠ [] := by
  intro h
  have := congrArg List.length h
  rw [allPassSection_length] at this
  exact hx (List.length_eq_zero.mp this)

/-- A section run over `x ++ y` is the section run over `x` followed by the
section run over `y` from the last input and the last output of the first
run. -/
theorem allPassSection_append (a : Int) :
    ∀ (x : List Int) (xp yp : Int) (y : List Int), x ≠ [] →
      allPassSection a xp yp (x ++ y)
        = allPassSection a xp yp x
          ++ allPassSection a (lastOf x) (lastOf (allPassSection a xp yp x)) y
  | [], _, _, _, h => absurd rfl h
  | [x0], xp, yp, y, _ => rfl
  | x0 :: x1 :: xs, xp, yp, y, _ => by
    have ih := allPassSection_append a (x1 :: xs)
      x0 (WEBRTC_SPL_SCALEDIFF32 a (WebRtcSpl_SubSatW32 x0 yp) xp) y (by simp)
    show _ :: allPassSection a x0 _ ((x1 :: xs) ++ y) = _
    rw [ih]
    rfl

theorem cascadeStage1_ne_nil (c s x : List Int) (hx : x ≠ []) :
    cascadeStage1 c s x ≠ [] := allPassSection_ne_nil _ _ _ x hx

theorem cascadeStage2_ne_nil (c s x : List Int) (hx : x ≠ []) :
    cascadeStage2 c s x ≠ [] :=
  allPassSection_ne_nil _ _ _ _ (cascadeStage1_ne_nil c s x hx)

theorem cascadeStage3_ne_nil (c s x : List Int) (hx : x ≠ []) :
    cascadeStage3 c s x ≠ [] :=
  allPassSection_ne_nil _ _ _ _ (cascadeStage2_ne_nil c s x hx)

theorem cascadeStage1_append (c s x y : List Int) (hx : x ≠ []) :
    cascadeStage1 c s (x ++ y)
      = cascadeStage1 c s x ++ cascadeStage1 c (cascadeState c s x) y := by
  unfold cascadeStage1
  rw [allPassSection_append _ x _ _ y hx]
  rfl

theorem cascadeStage2_append (c s x y : List Int) (hx : x ≠ []) :
    cascadeStage2 c s (x ++ y)
      = cascadeStage2 c s x ++ cascadeStage2 c (cascadeState c s x) y := by
  unfold cascadeStage2
  rw [cascadeStage1_append c s x y hx,
    allPassSection_append _ _ _ _ _ (cascadeStage1_ne_nil c s x hx)]
  rfl

theorem cascadeStage3_append (c s x y : List Int) (hx : x ≠ []) :
    cascadeStage3 c s (x ++ y)
      = cascadeStage3 c s x ++ cascadeStage3 c (cascadeState c s x) y := by
  unfold cascadeStage3
  rw [cascadeStage2_append c s x y hx,
    allPassSection_append _ _ _ _ _ (cascadeStage2_ne_nil c s x hx)]
  rfl

theorem cascadeState_append (c s x y : List Int) (hx : x ≠ []) (hy : y ≠ []) :
    cascadeState c s (x ++ y) = cascadeState c (cascadeState c s x) y := by
  unfold cascadeState
  rw [cascadeStage1_append c s x y hx, cascadeStage2_append c s x y hx,
    cascadeStage3_append c s x y hx, lastOf_append x y hy,
    lastOf_append _ _ (cascadeStage1_ne_nil c _ y hy),
    lastOf_append _ _ (cascadeStage2_ne_nil c _ y hy),
    lastOf_append _ _ (cascadeStage3_ne_nil c _ y hy)]
  rfl

theorem cascadeState_length (c s x : List Int) : (cascadeState c s x).length = 6 := rfl

theorem length_pos_of_ne_nil' (x : List Int) (hx : x ≠ []) : 1 ≤ x.length :=
  List.length_pos.mpr hx

/-- C9 (streaming continuity of the all-pass cascade). For any three
coefficients, any six-word state `s` and any two non-empty sequences `x`, `y`,
one call of `WebRtcSpl_AllPassQMF` on `x ++ y` from `s` gives the same output
and the same final state as a call on `x` from `s` followed by a call on `y`
from the state the first call left, the outputs concatenated. -/
theorem C9_streaming_continuity (c s x y o1 o2 o : List Int)
    (hc : c.length = 3) (hs : s.length = 6) (hx : x ≠ []) (hy : y ≠ [])
    (ho1 : o1.length = x.length) (ho2 : o2.length = y.length)
    (ho : o.length = x.length + y.length)
    (hlen : x.length + y.length < 18446744073709551616) :
    ∃ r1 r2 r,
      WebRtcSpl_AllPassQMF x x.length o1 c s = Except.ok r1 ∧
      WebRtcSpl_AllPassQMF y y.length o2 c r1.filter_state = Except.ok r2 ∧
      WebRtcSpl_AllPassQMF (x ++ y) (x.length + y.length) o c s = Except.ok r ∧
      r.out_data = r1.out_data ++ r2.out_data ∧
      r.filter_state = r2.filter_state := by
  have hx1 := length_pos_of_ne_nil' x hx
  have hy1 := length_pos_of_ne_nil' y hy
  refine ⟨cascadeResult c s x (o1.drop x.length),
    cascadeResult c (cascadeState c s x) y (o2.drop y.length),
    cascadeResult c s (x ++ y) (o.drop (x.length + y.length)),
    WebRtcSpl_AllPassQMF_exact x o1 c s x.length hx1 rfl (by omega) hc hs (by omega),
    WebRtcSpl_AllPassQMF_exact y o2 c _ y.length hy1 rfl (by omega) hc
      (cascadeState_length c s x) (by omega),
    WebRtcSpl_AllPassQMF_exact (x ++ y) o c s (x.length + y.length) (by omega)
      (by simp) (by omega) hc hs hlen, ?_, ?_⟩
  · simp only [cascadeResult]
    rw [List.drop_of_length_le (by omega), List.drop_of_length_le (by omega),
      List.drop_of_length_le (by omega), cascadeStage3_append c s x y hx]
    simp
  · simp only [cascadeResult]
    exact cascadeState_append c s x y hx hy

theorem WebRtcSpl_AnalysisQMF_zero (x low high st1 st2 : List Int) :
    WebRtcSpl_AnalysisQMF x 0 low high st1 st2 = Except.error Fault.outOfRange := by
  simp only [WebRtcSpl_AnalysisQMF]
  have h0 : (0 : Nat) / 2 = 0 := rfl
  have d1 : dcheckThat (decide True) = Except.ok () := rfl
  have d2 : dcheckThat (decide (0 ≤ kMaxBandFrameLength)) = Except.ok () := rfl
  rw [d1, ok_bind, h0, d2, ok_bind, List.range_zero, List.foldlM_nil]
  show (Except.ok _ >>= _) = _
  rw [ok_bind]
  simp only []
  rw [WebRtcSpl_AllPassQMF_zero _ _ _ _ (by rw [localArray_length]; decide)]
  rfl

theorem WebRtcSpl_SynthesisQMF_zero (lo hi out t1 t2 : List Int) :
    WebRtcSpl_SynthesisQMF lo hi 0 out t1 t2 = Except.error Fault.outOfRange := by
  simp only [WebRtcSpl_SynthesisQMF]
  have d2 : dcheckThat (decide (0 ≤ kMaxBandFrameLength)) = Except.ok () := rfl
  rw [d2, ok_bind, List.range_zero, List.foldlM_nil]
  show (Except.ok _ >>= _) = _
  rw [ok_bind]
  simp only []
  rw [WebRtcSpl_AllPassQMF_zero _ _ _ _ (by rw [localArray_length]; decide)]
  rfl

/-- C8 (length-0 input). The claim does not hold of the code: with
`data_length = 0` `WebRtcSpl_AllPassQMF` reads `in_data[data_length - 1]`, whose
index wraps to `SIZE_MAX`, outside every array (after having written
`out_data[0]`); `WebRtcSpl_AnalysisQMF` on an empty frame and
`WebRtcSpl_SynthesisQMF` on empty bands pass their checks and reach that
access. -/
theorem C8_length_zero_out_of_range (in_data out_data coef st : List Int)
    (x low high st1 st2 lo hi out t1 t2 : List Int)
    (h : in_data.length < 18446744073709551616) :
    WebRtcSpl_AllPassQMF in_data 0 out_data coef st = Except.error Fault.outOfRange ∧
    WebRtcSpl_AnalysisQMF x 0 low high st1 st2 = Except.error Fault.outOfRange ∧
    WebRtcSpl_SynthesisQMF lo hi 0 out t1 t2 = Except.error Fault.outOfRange :=
  ⟨WebRtcSpl_AllPassQMF_zero in_data out_data coef st h,
   WebRtcSpl_AnalysisQMF_zero x low high st1 st2,
   WebRtcSpl_SynthesisQMF_zero lo hi out t1 t2⟩

/-- C8 at 320-word buffers, zero states and coefficient set 1. -/
theorem C8_length_zero_out_of_range_witness :
    WebRtcSpl_AllPassQMF (localArray 320) 0 (localArray 320) [6418, 36982, 57261]
        [0, 0, 0, 0, 0, 0] = Except.error Fault.outOfRange ∧
    WebRtcSpl_AnalysisQMF [] 0 [] [] [0, 0, 0, 0, 0, 0] [0, 0, 0, 0, 0, 0]
        = Except.error Fault.outOfRange ∧
    WebRtcSpl_SynthesisQMF [] [] 0 [] [0, 0, 0, 0, 0, 0] [0, 0, 0, 0, 0, 0]
        = Except.error Fault.outOfRange :=
  C8_length_zero_out_of_range (localArray 320) (localArray 320) [6418, 36982, 57261]
    [0, 0, 0, 0, 0, 0] [] [] [] [0, 0, 0, 0, 0, 0] [0, 0, 0, 0, 0, 0] [] [] []
    [0, 0, 0, 0, 0, 0] [0, 0, 0, 0, 0, 0] (by rw [localArray_length]; decide)

/-- C9 at `x = [1024, -2048]`, `y = [4096]`, coefficient set 2. -/
theorem C9_streaming_continuity_witness :
    ∃ r1 r2 r,
      WebRtcSpl_AllPassQMF [1024, -2048] [1024, -2048].length [0, 0]
          [21333, 49062, 63010] [5, -7, 11, 0, 3, 1] = Except.ok r1 ∧
      WebRtcSpl_AllPassQMF [4096] [4096].length [0] [21333, 49062, 63010]
          r1.filter_state = Except.ok r2 ∧
      WebRtcSpl_AllPassQMF ([1024, -2048] ++ [4096])
          ([1024, -2048].length + [4096].length) [0, 0, 0]
          [21333, 49062, 63010] [5, -7, 11, 0, 3, 1] = Except.ok r ∧
      r.out_data = r1.out_data ++ r2.out_data ∧
      r.filter_state = r2.filter_state :=
  C9_streaming_continuity [21333, 49062, 63010] [5, -7, 11, 0, 3, 1] [1024, -2048]
    [4096] [0, 0] [0] [0, 0, 0] rfl rfl (by decide) (by decide) rfl rfl rfl (by decide)

/-- C3 at the frame `[100, 200]` and the bands `[1000]`, `[-1000]`. -/
theorem C3_coefficient_sets_swapped_witness :
    ∃ A1 A2 ra S1 S2 rs,
      WebRtcSpl_AllPassQMF ((List.range 1).map (fun i => 1024 * [100, 200].getD (2 * i + 1) 0)) 1
          (localArray 1) [6418, 36982, 57261] [0, 0, 0, 0, 0, 0] = Except.ok A1 ∧
      WebRtcSpl_AllPassQMF ((List.range 1).map (fun i => 1024 * [100, 200].getD (2 * i) 0)) 1
          (localArray 1) [21333, 49062, 63010] [0, 0, 0, 0, 0, 0] = Except.ok A2 ∧
      WebRtcSpl_AnalysisQMF [100, 200] (2 * 1) [0] [0] [0, 0, 0, 0, 0, 0]
          [0, 0, 0, 0, 0, 0] = Except.ok ra ∧
      ra.filter_state1 = A1.filter_state ∧ ra.filter_state2 = A2.filter_state ∧
      (∀ i, i < 1 →
        ra.low_band[i]? = some (lowSample (A1.out_data.getD i 0) (A2.out_data.getD i 0)) ∧
        ra.high_band[i]? = some (highSample (A1.out_data.getD i 0) (A2.out_data.getD i 0))) ∧
      WebRtcSpl_AllPassQMF
          ((List.range 1).map (fun i => ([1000].getD i 0 + [-1000].getD i 0) * 1024)) 1
          (localArray 1) [21333, 49062, 63010] [0, 0, 0, 0, 0, 0] = Except.ok S1 ∧
      WebRtcSpl_AllPassQMF
          ((List.range 1).map (fun i => ([1000].getD i 0 - [-1000].getD i 0) * 1024)) 1
          (localArray 1) [6418, 36982, 57261] [0, 0, 0, 0, 0, 0] = Except.ok S2 ∧
      WebRtcSpl_SynthesisQMF [1000] [-1000] 1 [0, 0] [0, 0, 0, 0, 0, 0]
          [0, 0, 0, 0, 0, 0] = Except.ok rs ∧
      rs.filter_state1 = S1.filter_state ∧ rs.filter_state2 = S2.filter_state ∧
      (∀ i, i < 1 →
        rs.out_data[2 * i]? = some (outSample (S2.out_data.getD i 0)) ∧
        rs.out_data[2 * i + 1]? = some (outSample (S1.out_data.getD i 0))) :=
  C3_coefficient_sets_swapped [100, 200] [0] [0] [0, 0, 0, 0, 0, 0] [0, 0, 0, 0, 0, 0]
    [1000] [-1000] [0, 0] [0, 0, 0, 0, 0, 0] [0, 0, 0, 0, 0, 0] 1 (by decide) (by decide)
    rfl (by decide) (by decide) (by decide) rfl rfl rfl rfl (by decide) (by decide)
    (by decide) rfl rfl

/-! ## Per-channel loops -/

theorem forChannels_append {σ : Type} (body : σ → Nat → Option Fault × σ) :
    ∀ (l l2 : List Nat) (s : σ),
      forChannels body (l ++ l2) s
        = match forChannels body l s with
          | (none, s1) => forChannels body l2 s1
          | (some e, s1) => (some e, s1)
  | [], _, _ => rfl
  | i :: l, l2, s => by
    show forChannels body (i :: (l ++ l2)) s = _
    simp only [forChannels]
    rcases h : body s i with ⟨_ | e, s1⟩
    · simp only []
      exact forChannels_append body l l2 s1
    · rfl

/-- A per-channel loop whose `i`-th iteration takes the expected state `X i`
to `X (i + 1)` without fault reaches `X n` after the channels `0 .. n-1`. -/
theorem forChannels_range_steps {σ : Type} (body : σ → Nat → Option Fault × σ)
    (X : Nat → σ) (M : Nat)
    (hstep : ∀ i, i < M → body (X i) i = (none, X (i + 1))) :
    ∀ n, n ≤ M → forChannels body (List.range n) (X 0) = (none, X n) := by
  intro n
  induction n with
  | zero => intro _; rfl
  | succ n ih =>
    intro hn
    rw [List.range_succ, forChannels_append, ih (Nat.le_of_succ_le hn)]
    simp only [forChannels, hstep n hn]

/-- A relation that every iteration preserves holds between the state before
and the state after the loop, whether or not the loop faults. -/
theorem forChannels_preserves {σ : Type} (body : σ → Nat → Option Fault × σ)
    (R : σ → σ → Prop) (hrefl : ∀ s, R s s)
    (htrans : ∀ a b c, R a b → R b c → R a c) :
    ∀ (l : List Nat), (∀ s i, i ∈ l → R s (body s i).2) →
      ∀ s, R s (forChannels body l s).2
  | [], _, s => hrefl s
  | i :: l, hbody, s => by
    have h1 := hbody s i (List.mem_cons_self i l)
    simp only [forChannels]
    rcases h : body s i with ⟨_ | e, s1⟩
    · rw [h] at h1
      simp only []
      exact htrans _ _ _ h1 (forChannels_preserves body R hrefl htrans l
        (fun s j hj => hbody s j (List.mem_cons_of_mem i hj)) s1)
    · rw [h] at h1
      exact h1

theorem set_fill {α : Type} (g : Nat → α) (l : List α) (i : Nat) (h : i < l.length) :
    ((List.range i).map g ++ l.drop i).set i (g i)
      = (List.range (i + 1)).map g ++ l.drop (i + 1) := by
  rw [List.drop_eq_getElem_cons h, List.range_succ, List.map_append]
  have hl : ((List.range i).map g).length = i := by simp
  rw [List.set_append_right _ _ (by omega), hl]
  simp only [Nat.sub_self, List.set_cons_zero, List.append_assoc, List.map_cons, List.map_nil,
    List.singleton_append]

theorem getElem?_fill {α : Type} (g : Nat → α) (l : List α) (i : Nat) :
    ((List.range i).map g ++ l.drop i)[i]? = l[i]? := by
  rw [List.getElem?_append_right (by simp)]
  simp

theorem rd_fill {α : Type} (g : Nat → α) (l : List α) (i : Nat) (d : α)
    (h : i < l.length) :
    rd ((List.range i).map g ++ l.drop i) i = Except.ok (l.getD i d) := by
  apply rd_of_getElem?
  rw [getElem?_fill, List.getD_eq_getElem?_getD, List.getElem?_eq_getElem h]
  rfl

theorem rd_getD_gen {α : Type} (l : List α) (i : Nat) (d : α) (h : i < l.length) :
    rd l i = Except.ok (l.getD i d) := by
  apply rd_of_getElem?
  rw [List.getD_eq_getElem?_getD, List.getElem?_eq_getElem h]
  rfl

theorem getD_mem_gen {α : Type} (l : List α) (i : Nat) (d : α) (h : i < l.length) :
    l.getD i d ∈ l := by
  rw [List.getD_eq_getElem?_getD, List.getElem?_eq_getElem h]
  exact List.getElem_mem h

theorem writeSlice_length {F : Type} (ch : List F) (off : Nat) (v : List F)
    (h : off + v.length ≤ ch.length) : (writeSlice ch off v).length = ch.length := by
  unfold writeSlice
  simp only [List.length_append, List.length_take, List.length_drop]
  omega

theorem readAt_ok {F : Type} (b : ChannelBuffer F) (band i n : Nat)
    (hi : i < b.data.length)
    (h : band * b.num_frames_per_band + n ≤ (b.data.getD i []).length) :
    b.readAt band i n
      = Except.ok (((b.data.getD i []).drop (band * b.num_frames_per_band)).take n) := by
  unfold ChannelBuffer.readAt
  rw [rd_getD_gen b.data i [] hi, ok_bind, if_pos h]
  rfl

theorem writeAt_ok {F : Type} (b : ChannelBuffer F) (band i : Nat) (v : List F)
    (hi : i < b.data.length)
    (h : band * b.num_frames_per_band + v.length ≤ (b.data.getD i []).length) :
    b.writeAt band i v
      = Except.ok (b.withChannel i
          (writeSlice (b.data.getD i []) (band * b.num_frames_per_band) v)) := by
  unfold ChannelBuffer.writeAt
  rw [rd_getD_gen b.data i [] hi, ok_bind, if_pos h]
  rfl

theorem WebRtcSpl_AnalysisQMF_eq_result (in_data low high st1 st2 : List Int) (M : Nat)
    (hM1 : 1 ≤ M) (hM : M ≤ 320) (hin : 2 * M ≤ in_data.length)
    (hl : M ≤ low.length) (hh : M ≤ high.length)
    (hs1 : st1.length = 6) (hs2 : st2.length = 6) :
    WebRtcSpl_AnalysisQMF in_data (2 * M) low high st1 st2
      = Except.ok (analysisQMFResult in_data low high st1 st2 M) :=
  WebRtcSpl_AnalysisQMF_eq in_data low high st1 st2 M hM1 hM hin hl hh hs1 hs2

theorem WebRtcSpl_SynthesisQMF_eq_result (low high out st1 st2 : List Int) (M : Nat)
    (hM1 : 1 ≤ M) (hM : M ≤ 320) (hl : M ≤ low.length) (hh : M ≤ high.length)
    (ho : 2 * M ≤ out.length) (hs1 : st1.length = 6) (hs2 : st2.length = 6) :
    WebRtcSpl_SynthesisQMF low high M out st1 st2
      = Except.ok (synthesisQMFResult low high out st1 st2 M) :=
  WebRtcSpl_SynthesisQMF_eq low high out st1 st2 M hM1 hM hl hh ho hs1 hs2

/-- The call of `WebRtcSpl_AnalysisQMF` made for one channel succeeds. -/
theorem channelAnalysis_ok (E : Externals) (st : TwoBandsStates) (src : List E.Sample)
    (hst : st.WellFormed) (hsrc : src.length = 320) :
    WebRtcSpl_AnalysisQMF (src.map E.FloatS16ToS16) 320 (localArray kSamplesPerBand)
        (localArray kSamplesPerBand) st.analysis_state1 st.analysis_state2
      = Except.ok (channelAnalysis E st src) :=
  WebRtcSpl_AnalysisQMF_eq_result _ _ _ _ _ 160 (by decide) (by decide)
    (by rw [List.length_map, hsrc]) (by rw [localArray_length]; decide)
    (by rw [localArray_length]; decide) hst.1 hst.2.1

/-- The call of `WebRtcSpl_SynthesisQMF` made for one channel succeeds. -/
theorem channelSynthesis_ok (E : Externals) (st : TwoBandsStates) (src : List E.Sample)
    (hst : st.WellFormed) (hsrc : src.length = 320) :
    WebRtcSpl_SynthesisQMF ((src.take kSamplesPerBand).map E.FloatS16ToS16)
        (((src.drop kSamplesPerBand).take kSamplesPerBand).map E.FloatS16ToS16) 160
        (localArray kTwoBandFilterSamplesPerFrame) st.synthesis_state1 st.synthesis_state2
      = Except.ok (channelSynthesis E st src) :=
  WebRtcSpl_SynthesisQMF_eq_result _ _ _ _ _ 160 (by decide) (by decide)
    (by rw [List.length_map, List.length_take, hsrc]; decide)
    (by rw [List.length_map, List.length_take, List.length_drop, hsrc]; decide)
    (by rw [localArray_length]; decide) hst.2.2.1 hst.2.2.2

theorem channelAnalysis_low_length (E : Externals) (st : TwoBandsStates)
    (src : List E.Sample) : (channelAnalysis E st src).low_band.length = 160 := by
  simp [channelAnalysis, analysisQMFResult, localArray, kSamplesPerBand]

theorem channelAnalysis_high_length (E : Externals) (st : TwoBandsStates)
    (src : List E.Sample) : (channelAnalysis E st src).high_band.length = 160 := by
  simp [channelAnalysis, analysisQMFResult, localArray, kSamplesPerBand]

theorem channelSynthesis_out_length (E : Externals) (st : TwoBandsStates)
    (src : List E.Sample) : (channelSynthesis E st src).out_data.length = 320 := by
  unfold channelSynthesis synthesisQMFResult
  simp only [List.length_append, List.length_drop, localArray_length]
  rw [interleave_length _ _ (by simp)]
  simp [kSamplesPerBand, kTwoBandFilterSamplesPerFrame]

theorem take_drop_zero_of_length {F : Type} (ch : List F) (k n : Nat) (h : ch.length = n) :
    (ch.drop (0 * k)).take n = ch := by
  rw [Nat.zero_mul, List.drop_zero, List.take_of_length_le (by omega)]

theorem set_set_same {α : Type} (l : List α) (i : Nat) (a b : α) :
    (l.set i a).set i b = l.set i b := by
  simp

theorem twoBandsAnalysisChannel_step (E : Externals) (sf : SplittingFilter E)
    (data bands : ChannelBuffer E.Sample) (N : Nat) (hsf : sf.TwoBand N)
    (hd : data.num_frames = 320) (hdl : data.data.length = N)
    (hdc : ∀ ch ∈ data.data, ch.length = 320)
    (hb : bands.num_frames_per_band = 160) (hbl : bands.data.length = N)
    (hbc : ∀ ch ∈ bands.data, ch.length = 320) (i : Nat) (hi : i < N) :
    twoBandsAnalysisChannel E data
        (sf.afterAnalysis data i, bands.afterAnalysis sf data i) i
      = (none, (sf.afterAnalysis data (i + 1), bands.afterAnalysis sf data (i + 1))) := by
  obtain ⟨_, hsl, hsw⟩ := hsf
  have hsrc : (data.data.getD i []).length = 320 :=
    hdc _ (getD_mem_gen data.data i [] (by omega))
  have hch : (bands.data.getD i []).length = 320 :=
    hbc _ (getD_mem_gen bands.data i [] (by omega))
  have hst : (sf.two_bands_states_.getD i TwoBandsStates.zero).WellFormed :=
    hsw _ (getD_mem_gen sf.two_bands_states_ i _ (by omega))
  have hread : data.readAt 0 i kTwoBandFilterSamplesPerFrame
      = Except.ok (data.data.getD i []) := by
    rw [readAt_ok data 0 i _ (by omega) (by rw [hsrc]; simp [kTwoBandFilterSamplesPerFrame]),
      take_drop_zero_of_length _ _ kTwoBandFilterSamplesPerFrame hsrc]
  have hrd : rd (sf.afterAnalysis data i).two_bands_states_ i
      = Except.ok (sf.two_bands_states_.getD i TwoBandsStates.zero) :=
    rd_fill _ _ i _ (by omega)
  have hq : WebRtcSpl_AnalysisQMF ((data.data.getD i []).map E.FloatS16ToS16)
      data.num_frames (localArray kSamplesPerBand) (localArray kSamplesPerBand)
      (sf.two_bands_states_.getD i TwoBandsStates.zero).analysis_state1
      (sf.two_bands_states_.getD i TwoBandsStates.zero).analysis_state2
      = Except.ok (channelAnalysis E (sf.two_bands_states_.getD i TwoBandsStates.zero)
          (data.data.getD i [])) := by
    rw [hd]
    exact channelAnalysis_ok E _ _ hst hsrc
  generalize hstv : sf.two_bands_states_.getD i TwoBandsStates.zero = st at hrd hq hst
  generalize hsrcv : data.data.getD i [] = src at hread hq hsrc
  have hlen0 : ((bands.afterAnalysis sf data i).data).length = N := by
    simp only [ChannelBuffer.afterAnalysis, List.length_append, List.length_map,
      List.length_range, List.length_drop]
    omega
  have hget0 : (bands.afterAnalysis sf data i).data.getD i [] = bands.data.getD i [] := by
    rw [List.getD_eq_getElem?_getD, List.getD_eq_getElem?_getD]
    simp only [ChannelBuffer.afterAnalysis]
    rw [getElem?_fill]
  have hw0 : (bands.afterAnalysis sf data i).writeAt 0 i
      ((channelAnalysis E st src).low_band.map E.S16ToFloatS16)
      = Except.ok ((bands.afterAnalysis sf data i).withChannel i
          (writeSlice (bands.data.getD i []) 0
            ((channelAnalysis E st src).low_band.map E.S16ToFloatS16))) := by
    rw [writeAt_ok _ 0 i _ (by omega)
      (by rw [hget0, hch, List.length_map, channelAnalysis_low_length]; simp), hget0,
      Nat.zero_mul]
  have hw1 : ((bands.afterAnalysis sf data i).withChannel i
          (writeSlice (bands.data.getD i []) 0
            ((channelAnalysis E st src).low_band.map E.S16ToFloatS16))).writeAt 1 i
      ((channelAnalysis E st src).high_band.map E.S16ToFloatS16)
      = Except.ok ((bands.afterAnalysis sf data i).withChannel i
          (channelAnalysisBands E st src (bands.data.getD i []))) := by
    have hwl : (writeSlice (bands.data.getD i []) 0
        ((channelAnalysis E st src).low_band.map E.S16ToFloatS16)).length = 320 := by
      rw [writeSlice_length _ _ _
        (by rw [hch, List.length_map, channelAnalysis_low_length]; simp), hch]
    have hg : ((bands.afterAnalysis sf data i).withChannel i
          (writeSlice (bands.data.getD i []) 0
            ((channelAnalysis E st src).low_band.map E.S16ToFloatS16))).data.getD i []
        = writeSlice (bands.data.getD i []) 0
            ((channelAnalysis E st src).low_band.map E.S16ToFloatS16) := by
      rw [List.getD_eq_getElem?_getD]
      simp only [ChannelBuffer.withChannel]
      rw [List.getElem?_set_self (by omega)]
      rfl
    have hnf : ((bands.afterAnalysis sf data i).withChannel i
          (writeSlice (bands.data.getD i []) 0
            ((channelAnalysis E st src).low_band.map E.S16ToFloatS16))).num_frames_per_band
        = 160 := hb
    rw [writeAt_ok _ 1 i _ (by simp only [ChannelBuffer.withChannel, List.length_set]; omega)
      (by rw [hg, hwl, hnf, List.length_map, channelAnalysis_high_length]), hg, hnf]
    simp only [ChannelBuffer.withChannel, set_set_same]
    rfl
  unfold twoBandsAnalysisChannel
  simp only [hread, hrd, hq, hw0, hw1]
  have e1 : (sf.afterAnalysis data i).two_bands_states_.set i
      { st with analysis_state1 := (channelAnalysis E st src).filter_state1,
                analysis_state2 := (channelAnalysis E st src).filter_state2 }
      = (sf.afterAnalysis data (i + 1)).two_bands_states_ := by
    simp only [SplittingFilter.afterAnalysis]
    rw [← set_fill _ _ i (by omega), hstv, hsrcv]
    rfl
  have e2 : ((bands.afterAnalysis sf data i).withChannel i
      (channelAnalysisBands E st src (bands.data.getD i [])))
      = bands.afterAnalysis sf data (i + 1) := by
    simp only [ChannelBuffer.afterAnalysis, ChannelBuffer.withChannel]
    rw [← set_fill _ _ i (by omega), hstv, hsrcv]
  rw [← e2]
  simp only [SplittingFilter.afterAnalysis] at e1 ⊢
  rw [← e1]

theorem twoBandsSynthesisChannel_step (E : Externals) (sf : SplittingFilter E)
    (bands data : ChannelBuffer E.Sample) (N n : Nat) (hsf : sf.TwoBand N) (hn : n ≤ N)
    (hb : bands.num_frames_per_band = 160) (hbl : bands.data.length = n)
    (hbc : ∀ ch ∈ bands.data, ch.length = 320)
    (hdl : data.data.length = n) (hdc : ∀ ch ∈ data.data, ch.length = 320)
    (i : Nat) (hi : i < n) :
    twoBandsSynthesisChannel E bands
        (sf.afterSynthesis bands i, data.afterSynthesis sf bands i) i
      = (none, (sf.afterSynthesis bands (i + 1), data.afterSynthesis sf bands (i + 1))) := by
  obtain ⟨_, hsl, hsw⟩ := hsf
  have hsrc : (bands.data.getD i []).length = 320 :=
    hbc _ (getD_mem_gen bands.data i [] (by omega))
  have hch : (data.data.getD i []).length = 320 :=
    hdc _ (getD_mem_gen data.data i [] (by omega))
  have hst : (sf.two_bands_states_.getD i TwoBandsStates.zero).WellFormed :=
    hsw _ (getD_mem_gen sf.two_bands_states_ i _ (by omega))
  have hread0 : bands.readAt 0 i kSamplesPerBand
      = Except.ok ((bands.data.getD i []).take kSamplesPerBand) := by
    rw [readAt_ok bands 0 i _ (by omega) (by rw [hsrc]; simp [kSamplesPerBand]),
      Nat.zero_mul, List.drop_zero]
  have hread1 : bands.readAt 1 i kSamplesPerBand
      = Except.ok (((bands.data.getD i []).drop kSamplesPerBand).take kSamplesPerBand) := by
    rw [readAt_ok bands 1 i _ (by omega) (by rw [hsrc, hb]; simp [kSamplesPerBand]),
      hb, Nat.one_mul]
    rfl
  have hrd : rd (sf.afterSynthesis bands i).two_bands_states_ i
      = Except.ok (sf.two_bands_states_.getD i TwoBandsStates.zero) :=
    rd_fill _ _ i _ (by omega)
  have hq : WebRtcSpl_SynthesisQMF
      (((bands.data.getD i []).take kSamplesPerBand).map E.FloatS16ToS16)
      ((((bands.data.getD i []).drop kSamplesPerBand).take kSamplesPerBand).map
        E.FloatS16ToS16)
      bands.num_frames_per_band (localArray kTwoBandFilterSamplesPerFrame)
      (sf.two_bands_states_.getD i TwoBandsStates.zero).synthesis_state1
      (sf.two_bands_states_.getD i TwoBandsStates.zero).synthesis_state2
      = Except.ok (channelSynthesis E (sf.two_bands_states_.getD i TwoBandsStates.zero)
          (bands.data.getD i [])) := by
    rw [hb]
    exact channelSynthesis_ok E _ _ hst hsrc
  generalize hstv : sf.two_bands_states_.getD i TwoBandsStates.zero = st at hrd hq hst
  generalize hsrcv : bands.data.getD i [] = src at hread0 hread1 hq hsrc
  have hget0 : (data.afterSynthesis sf bands i).data.getD i [] = data.data.getD i [] := by
    rw [List.getD_eq_getElem?_getD, List.getD_eq_getElem?_getD]
    simp only [ChannelBuffer.afterSynthesis]
    rw [getElem?_fill]
  have hlen0 : ((data.afterSynthesis sf bands i).data).length = n := by
    simp only [ChannelBuffer.afterSynthesis, List.length_append, List.length_map,
      List.length_range, List.length_drop]
    omega
  have hw0 : (data.afterSynthesis sf bands i).writeAt 0 i
      ((channelSynthesis E st src).out_data.map E.S16ToFloatS16)
      = Except.ok ((data.afterSynthesis sf bands i).withChannel i
          (channelSynthesisData E st src (data.data.getD i []))) := by
    rw [writeAt_ok _ 0 i _ (by omega)
      (by rw [hget0, hch, List.length_map, channelSynthesis_out_length]; simp), hget0,
      Nat.zero_mul]
    rfl
  unfold twoBandsSynthesisChannel
  simp only [hread0, hread1, hrd, hq, hw0]
  have e1 : (sf.afterSynthesis bands i).two_bands_states_.set i
      { st with synthesis_state1 := (channelSynthesis E st src).filter_state1,
                synthesis_state2 := (channelSynthesis E st src).filter_state2 }
      = (sf.afterSynthesis bands (i + 1)).two_bands_states_ := by
    simp only [SplittingFilter.afterSynthesis]
    rw [← set_fill _ _ i (by omega), hstv, hsrcv]
    rfl
  have e2 : ((data.afterSynthesis sf bands i).withChannel i
      (channelSynthesisData E st src (data.data.getD i [])))
      = data.afterSynthesis sf bands (i + 1) := by
    simp only [ChannelBuffer.afterSynthesis, ChannelBuffer.withChannel]
    rw [← set_fill _ _ i (by omega), hstv, hsrcv]
  rw [← e2]
  simp only [SplittingFilter.afterSynthesis] at e1 ⊢
  rw [← e1]

theorem afterAnalysis_zero {E : Externals} (sf : SplittingFilter E)
    (data : ChannelBuffer E.Sample) : sf.afterAnalysis data 0 = sf := rfl

theorem afterAnalysis_buffer_zero {E : Externals} (bands : ChannelBuffer E.Sample)
    (sf : SplittingFilter E) (data : ChannelBuffer E.Sample) :
    bands.afterAnalysis sf data 0 = bands := rfl

theorem afterSynthesis_zero {E : Externals} (sf : SplittingFilter E)
    (bands : ChannelBuffer E.Sample) : sf.afterSynthesis bands 0 = sf := rfl

theorem afterSynthesis_buffer_zero {E : Externals} (data : ChannelBuffer E.Sample)
    (sf : SplittingFilter E) (bands : ChannelBuffer E.Sample) :
    data.afterSynthesis sf bands 0 = data := rfl

/-- A valid two-band `Analysis` call: every check passes, every channel is
processed, and the object and the `bands` buffer end as `afterAnalysis`. -/
theorem Analysis_eq (E : Externals) (sf : SplittingFilter E)
    (data bands : ChannelBuffer E.Sample) (N : Nat) (hsf : sf.TwoBand N)
    (hdn : data.num_channels = N) (hd : data.num_frames = 320)
    (hdl : data.data.length = N) (hdc : ∀ ch ∈ data.data, ch.length = 320)
    (hbn : bands.num_channels = N) (hbb : bands.num_bands = 2)
    (hb : bands.num_frames_per_band = 160) (hbl : bands.data.length = N)
    (hbc : ∀ ch ∈ bands.data, ch.length = 320) :
    sf.Analysis data bands
      = { fault := none, filter := sf.afterAnalysis data N,
          buffer := bands.afterAnalysis sf data N } := by
  have hloop := forChannels_range_steps (twoBandsAnalysisChannel E data)
    (fun n => (sf.afterAnalysis data n, bands.afterAnalysis sf data n)) N
    (fun i hi => twoBandsAnalysisChannel_step E sf data bands N hsf hd hdl hdc hb hbl hbc i hi)
    N (Nat.le_refl N)
  simp only [afterAnalysis_zero, afterAnalysis_buffer_zero] at hloop
  obtain ⟨h2, hsl, _⟩ := hsf
  unfold SplittingFilter.Analysis SplittingFilter.TwoBandsAnalysis
  simp only [h2, hbb, hdn, hbn, hd, hb, hsl, kTwoBandFilterSamplesPerFrame, hloop,
    ne_eq, not_true_eq_false, if_false, if_true, Nat.reduceMul]

/-- A valid two-band `Synthesis` call on `n ≤ N` channels: every check passes,
the channels `0 .. n-1` are processed, and the object and the `data` buffer end
as `afterSynthesis`. -/
theorem Synthesis_eq (E : Externals) (sf : SplittingFilter E)
    (bands data : ChannelBuffer E.Sample) (N n : Nat) (hsf : sf.TwoBand N) (hn : n ≤ N)
    (hdn : data.num_channels = n) (hd : data.num_frames = 320)
    (hdl : data.data.length = n) (hdc : ∀ ch ∈ data.data, ch.length = 320)
    (hbn : bands.num_channels = n) (hbb : bands.num_bands = 2)
    (hb : bands.num_frames_per_band = 160) (hbl : bands.data.length = n)
    (hbc : ∀ ch ∈ bands.data, ch.length = 320) :
    sf.Synthesis bands data
      = { fault := none, filter := sf.afterSynthesis bands n,
          buffer := data.afterSynthesis sf bands n } := by
  have hloop := forChannels_range_steps (twoBandsSynthesisChannel E bands)
    (fun k => (sf.afterSynthesis bands k, data.afterSynthesis sf bands k)) n
    (fun i hi => twoBandsSynthesisChannel_step E sf bands data N n hsf hn hb hbl hbc hdl hdc
      i hi)
    n (Nat.le_refl n)
  simp only [afterSynthesis_zero, afterSynthesis_buffer_zero] at hloop
  obtain ⟨h2, hsl, _⟩ := hsf
  unfold SplittingFilter.Synthesis SplittingFilter.TwoBandsSynthesis
  simp only [h2, hbb, hdn, hbn, hd, hb, hsl, kTwoBandFilterSamplesPerFrame, hloop, hn,
    ne_eq, not_true_eq_false, if_false, if_true, Nat.reduceMul]

/-! ## Frame conditions of the per-channel loops -/

theorem getElem?_of_rd {α : Type} {l : List α} {i : Nat} {v : α}
    (h : rd l i = Except.ok v) : l[i]? = some v := by
  unfold rd at h
  cases hl : l[i]? with
  | none => rw [hl] at h; cases h
  | some w =>
    rw [hl] at h
    cases h
    rfl

theorem twoBandsAnalysisChannel_states (E : Externals) (data : ChannelBuffer E.Sample)
    (s : SplittingFilter E × ChannelBuffer E.Sample) (i : Nat) :
    StatesStep (fun st st2 => st2.synthesis_state1 = st.synthesis_state1 ∧
        st2.synthesis_state2 = st.synthesis_state2) i
      s.1.two_bands_states_ (twoBandsAnalysisChannel E data s i).2.1.two_bands_states_ := by
  unfold twoBandsAnalysisChannel
  simp only []
  split
  · exact Or.inl rfl
  · split
    · exact Or.inl rfl
    · rename_i st hst
      split
      · exact Or.inl rfl
      · split
        · exact Or.inr ⟨st, _, getElem?_of_rd hst, (by exact ⟨rfl, rfl⟩), rfl⟩
        · split
          · exact Or.inr ⟨st, _, getElem?_of_rd hst, (by exact ⟨rfl, rfl⟩), rfl⟩
          · exact Or.inr ⟨st, _, getElem?_of_rd hst, (by exact ⟨rfl, rfl⟩), rfl⟩

theorem twoBandsSynthesisChannel_states (E : Externals) (bands : ChannelBuffer E.Sample)
    (s : SplittingFilter E × ChannelBuffer E.Sample) (i : Nat) :
    StatesStep (fun st st2 => st2.analysis_state1 = st.analysis_state1 ∧
        st2.analysis_state2 = st.analysis_state2) i
      s.1.two_bands_states_ (twoBandsSynthesisChannel E bands s i).2.1.two_bands_states_ := by
  unfold twoBandsSynthesisChannel
  simp only []
  split
  · exact Or.inl rfl
  · split
    · exact Or.inl rfl
    · split
      · exact Or.inl rfl
      · rename_i st hst
        split
        · exact Or.inl rfl
        · split
          · exact Or.inr ⟨st, _, getElem?_of_rd hst, (by exact ⟨rfl, rfl⟩), rfl⟩
          · exact Or.inr ⟨st, _, getElem?_of_rd hst, (by exact ⟨rfl, rfl⟩), rfl⟩

theorem threeBandsAnalysisChannel_states (E : Externals) (data : ChannelBuffer E.Sample)
    (s : SplittingFilter E × ChannelBuffer E.Sample) (i : Nat) :
    (threeBandsAnalysisChannel E data s i).2.1.two_bands_states_ = s.1.two_bands_states_ := by
  unfold threeBandsAnalysisChannel
  simp only []
  split
  · rfl
  · split
    · rfl
    · split <;> rfl

theorem threeBandsSynthesisChannel_states (E : Externals) (bands : ChannelBuffer E.Sample)
    (s : SplittingFilter E × ChannelBuffer E.Sample) (i : Nat) :
    (threeBandsSynthesisChannel E bands s i).2.1.two_bands_states_ = s.1.two_bands_states_ := by
  unfold threeBandsSynthesisChannel
  simp only []
  split
  · rfl
  · split
    · rfl
    · split <;> rfl

/-- A projection of the channel states that a `StatesStep` keeps. -/
theorem StatesStep_map {β : Type} (f : TwoBandsStates → β)
    (P : TwoBandsStates → TwoBandsStates → Prop)
    (hP : ∀ st st2, P st st2 → f st2 = f st) (i : Nat) (old new : List TwoBandsStates)
    (h : StatesStep P i old new) (j : Nat) : (new[j]?).map f = (old[j]?).map f := by
  rcases h with h | ⟨st, st2, hst, hp, h⟩
  · rw [h]
  · rw [h, List.getElem?_set]
    by_cases hij : i = j
    · subst hij
      rw [if_pos rfl]
      have hlt : i < old.length := by
        rcases Nat.lt_or_ge i old.length with h1 | h1
        · exact h1
        · rw [List.getElem?_eq_none h1] at hst; cases hst
      rw [if_pos hlt, hst]
      simp [hP st st2 hp]
    · rw [if_neg hij]

/-- A `StatesStep` at channel `i` leaves every other channel alone. -/
theorem StatesStep_other (P : TwoBandsStates → TwoBandsStates → Prop) (i : Nat)
    (old new : List TwoBandsStates) (h : StatesStep P i old new) (j : Nat) (hij : i ≠ j) :
    new[j]? = old[j]? := by
  rcases h with h | ⟨st, st2, _, _, h⟩
  · rw [h]
  · rw [h, List.getElem?_set, if_neg hij]

theorem TwoBandsAnalysis_frame {E : Externals} {β : Type} (f : TwoBandsStates → β)
    (hf : ∀ st st2 : TwoBandsStates, st2.synthesis_state1 = st.synthesis_state1 ∧
      st2.synthesis_state2 = st.synthesis_state2 → f st2 = f st)
    (sf : SplittingFilter E) (data bands : ChannelBuffer E.Sample) (j : Nat) :
    ((sf.TwoBandsAnalysis data bands).filter.two_bands_states_[j]?).map f
      = (sf.two_bands_states_[j]?).map f := by
  unfold SplittingFilter.TwoBandsAnalysis
  split
  · rfl
  · split
    · rfl
    · exact forChannels_preserves (twoBandsAnalysisChannel E data)
        (fun s s2 => ∀ j, (s2.1.two_bands_states_[j]?).map f
          = (s.1.two_bands_states_[j]?).map f)
        (fun _ _ => rfl) (fun a b c hab hbc j => (hbc j).trans (hab j)) _
        (fun s i _ j => StatesStep_map f _ hf i _ _
          (twoBandsAnalysisChannel_states E data s i) j) (sf, bands) j

theorem TwoBandsSynthesis_frame {E : Externals} {β : Type} (f : TwoBandsStates → β)
    (hf : ∀ st st2 : TwoBandsStates, st2.analysis_state1 = st.analysis_state1 ∧
      st2.analysis_state2 = st.analysis_state2 → f st2 = f st)
    (sf : SplittingFilter E) (bands data : ChannelBuffer E.Sample) (j : Nat) :
    ((sf.TwoBandsSynthesis bands data).filter.two_bands_states_[j]?).map f
      = (sf.two_bands_states_[j]?).map f := by
  unfold SplittingFilter.TwoBandsSynthesis
  split
  · rfl
  · split
    · rfl
    · exact forChannels_preserves (twoBandsSynthesisChannel E bands)
        (fun s s2 => ∀ j, (s2.1.two_bands_states_[j]?).map f
          = (s.1.two_bands_states_[j]?).map f)
        (fun _ _ => rfl) (fun a b c hab hbc j => (hbc j).trans (hab j)) _
        (fun s i _ j => StatesStep_map f _ hf i _ _
          (twoBandsSynthesisChannel_states E bands s i) j) (sf, data) j

theorem TwoBandsSynthesis_unprocessed {E : Externals}
    (sf : SplittingFilter E) (bands data : ChannelBuffer E.Sample) (j : Nat)
    (hj : data.num_channels ≤ j) :
    (sf.TwoBandsSynthesis bands data).filter.two_bands_states_[j]?
      = sf.two_bands_states_[j]? := by
  unfold SplittingFilter.TwoBandsSynthesis
  split
  · rfl
  · split
    · rfl
    · exact forChannels_preserves (twoBandsSynthesisChannel E bands)
        (fun s s2 => s2.1.two_bands_states_[j]? = s.1.two_bands_states_[j]?)
        (fun _ => rfl) (fun a b c hab hbc => hbc.trans hab) _
        (fun s i hi => StatesStep_other _ i _ _
          (twoBandsSynthesisChannel_states E bands s i) j
          (by have := List.mem_range.mp hi; omega)) (sf, data)

theorem ThreeBandsAnalysis_states {E : Externals}
    (sf : SplittingFilter E) (data bands : ChannelBuffer E.Sample) :
    (sf.ThreeBandsAnalysis data bands).filter.two_bands_states_ = sf.two_bands_states_ := by
  unfold SplittingFilter.ThreeBandsAnalysis
  split
  · rfl
  · exact forChannels_preserves (threeBandsAnalysisChannel E data)
      (fun s s2 => s2.1.two_bands_states_ = s.1.two_bands_states_)
      (fun _ => rfl) (fun a b c hab hbc => hbc.trans hab) _
      (fun s i _ => threeBandsAnalysisChannel_states E data s i) (sf, bands)

theorem ThreeBandsSynthesis_states {E : Externals}
    (sf : SplittingFilter E) (bands data : ChannelBuffer E.Sample) :
    (sf.ThreeBandsSynthesis bands data).filter.two_bands_states_ = sf.two_bands_states_ := by
  unfold SplittingFilter.ThreeBandsSynthesis
  split
  · rfl
  · exact forChannels_preserves (threeBandsSynthesisChannel E bands)
      (fun s s2 => s2.1.two_bands_states_ = s.1.two_bands_states_)
      (fun _ => rfl) (fun a b c hab hbc => hbc.trans hab) _
      (fun s i _ => threeBandsSynthesisChannel_states E bands s i) (sf, data)

/-- C10 (direction/channel frame condition). Whatever the buffers, a call of
`Analysis` leaves the `synthesis_state1` and `synthesis_state2` blocks of every
channel as they were (and the number of channel states); a call of `Synthesis`
leaves the `analysis_state1` and `analysis_state2` blocks of every channel as
they were, and leaves the whole state record of every channel it does not
process (index at or above `data.num_channels`) as it was. -/
theorem C10_frame_condition (E : Externals) (sf : SplittingFilter E)
    (data bands : ChannelBuffer E.Sample) :
    (∀ j : Nat, ((sf.Analysis data bands).filter.two_bands_states_[j]?).map
            (fun st : TwoBandsStates => (st.synthesis_state1, st.synthesis_state2))
          = (sf.two_bands_states_[j]?).map
            (fun st : TwoBandsStates => (st.synthesis_state1, st.synthesis_state2))) ∧
    (∀ j : Nat, ((sf.Synthesis bands data).filter.two_bands_states_[j]?).map
            (fun st : TwoBandsStates => (st.analysis_state1, st.analysis_state2))
          = (sf.two_bands_states_[j]?).map
            (fun st : TwoBandsStates => (st.analysis_state1, st.analysis_state2))) ∧
    (∀ j : Nat, data.num_channels ≤ j →
        (sf.Synthesis bands data).filter.two_bands_states_[j]?
          = sf.two_bands_states_[j]?) := by
  refine ⟨?_, ?_, ?_⟩
  · intro j
    unfold SplittingFilter.Analysis
    split
    · rfl
    · split
      · rfl
      · split
        · rfl
        · split
          · exact TwoBandsAnalysis_frame _
              (fun st st2 h => by rw [h.1, h.2]) sf data bands j
          · split
            · rw [ThreeBandsAnalysis_states]
            · rfl
  · intro j
    unfold SplittingFilter.Synthesis
    split
    · rfl
    · split
      · rfl
      · split
        · rfl
        · split
          · exact TwoBandsSynthesis_frame _
              (fun st st2 h => by rw [h.1, h.2]) sf bands data j
          · split
            · rw [ThreeBandsSynthesis_states]
            · rfl
  · intro j hj
    unfold SplittingFilter.Synthesis
    split
    · rfl
    · split
      · rfl
      · split
        · rfl
        · split
          · exact TwoBandsSynthesis_unprocessed sf bands data j hj
          · split
            · rw [ThreeBandsSynthesis_states]
            · rfl

/-- C5 (shape validation is atomic). When one of the three shape preconditions
is violated, both `Analysis` and `Synthesis` end on the failed check, with the
object (hence every channel's four state blocks) and the output buffer exactly
as they were before the call. -/
theorem C5_shape_validation_atomic (E : Externals) (sf : SplittingFilter E)
    (data bands : ChannelBuffer E.Sample)
    (h : sf.num_bands_ ≠ bands.num_bands ∨ data.num_channels ≠ bands.num_channels ∨
      data.num_frames ≠ bands.num_frames_per_band * bands.num_bands) :
    (sf.Analysis data bands).fault = some Fault.dcheck ∧
    (sf.Analysis data bands).filter = sf ∧
    (sf.Analysis data bands).buffer = bands ∧
    (sf.Synthesis bands data).fault = some Fault.dcheck ∧
    (sf.Synthesis bands data).filter = sf ∧
    (sf.Synthesis bands data).buffer = data := by
  unfold SplittingFilter.Analysis SplittingFilter.Synthesis
  by_cases h1 : sf.num_bands_ ≠ bands.num_bands
  · simp only [if_pos h1, and_self]
  · by_cases h2 : data.num_channels ≠ bands.num_channels
    · simp only [if_neg h1, if_pos h2, and_self]
    · by_cases h3 : data.num_frames ≠ bands.num_frames_per_band * bands.num_bands
      · simp only [if_neg h1, if_neg h2, if_pos h3, and_self]
      · rcases h with h | h | h
        · exact absurd h h1
        · exact absurd h h2
        · exact absurd h h3

theorem getElem?_eq_some_getD {α : Type} (l : List α) (i : Nat) (d : α)
    (h : i < l.length) : l[i]? = some (l.getD i d) := by
  rw [List.getD_eq_getElem?_getD, List.getElem?_eq_getElem h]
  rfl

theorem getD_fill_lt {α : Type} (g : Nat → α) (rest : List α) (n i : Nat) (d : α)
    (h : i < n) : ((List.range n).map g ++ rest).getD i d = g i := by
  rw [List.getD_eq_getElem?_getD, List.getElem?_append_left (by simpa using h)]
  simp [h]

theorem getD_fill_ge {α : Type} (g : Nat → α) (l : List α) (n i : Nat) (d : α)
    (h : n ≤ i) : ((List.range n).map g ++ l.drop n).getD i d = l.getD i d := by
  rw [List.getD_eq_getElem?_getD, List.getD_eq_getElem?_getD,
    List.getElem?_append_right (by simpa using h)]
  simp only [List.length_map, List.length_range, List.getElem?_drop]
  rw [Nat.add_sub_cancel' h]

/-- After `TwoBandsAnalysis` the array of a channel is its low band followed
by its high band. -/
theorem channelAnalysisBands_eq (E : Externals) (st : TwoBandsStates)
    (src ch : List E.Sample) (hch : ch.length = 320) :
    channelAnalysisBands E st src ch
      = (channelAnalysis E st src).low_band.map E.S16ToFloatS16
        ++ (channelAnalysis E st src).high_band.map E.S16ToFloatS16 := by
  have hl : ((channelAnalysis E st src).low_band.map E.S16ToFloatS16).length = 160 := by
    rw [List.length_map, channelAnalysis_low_length]
  have hh : ((channelAnalysis E st src).high_band.map E.S16ToFloatS16).length = 160 := by
    rw [List.length_map, channelAnalysis_high_length]
  unfold channelAnalysisBands writeSlice
  generalize (channelAnalysis E st src).low_band.map E.S16ToFloatS16 = lo at hl ⊢
  generalize (channelAnalysis E st src).high_band.map E.S16ToFloatS16 = hi at hh ⊢
  simp only [List.take_zero, List.nil_append, Nat.zero_add, hl, hh, kSamplesPerBand]
  rw [List.take_append_of_le_length (by omega), List.take_of_length_le (by omega),
    List.drop_of_length_le (by simp only [List.length_append, List.length_drop]; omega)]
  simp

theorem channelSynthesisData_eq (E : Externals) (st : TwoBandsStates)
    (src ch : List E.Sample) (hch : ch.length = 320) :
    channelSynthesisData E st src ch
      = (channelSynthesis E st src).out_data.map E.S16ToFloatS16 := by
  have hl : ((channelSynthesis E st src).out_data.map E.S16ToFloatS16).length = 320 := by
    rw [List.length_map, channelSynthesis_out_length]
  unfold channelSynthesisData writeSlice
  generalize (channelSynthesis E st src).out_data.map E.S16ToFloatS16 = o at hl ⊢
  simp only [List.take_zero, List.nil_append, Nat.zero_add, hl]
  rw [List.drop_of_length_le (by omega)]
  simp

theorem ValidTwoBandCall.bands_length {F : Type} {n : Nat} {data bands : ChannelBuffer F}
    (h : ValidTwoBandCall n data bands) :
    data.data.length = n ∧ (∀ ch ∈ data.data, ch.length = 320) ∧
    bands.data.length = n ∧ (∀ ch ∈ bands.data, ch.length = 320) := by
  obtain ⟨⟨_, hdl, hdc⟩, ⟨hbf, hbl, hbc⟩, hdn, hd, hbn, hbb, hb⟩ := h
  rw [hbb, hb] at hbf
  refine ⟨hdl.trans hdn, fun ch hc => (hdc ch hc).trans hd, hbl.trans hbn,
    fun ch hc => (hbc ch hc).trans hbf⟩

/-- C4 (facade two-band Analysis). On a two-band filter with `N` channel
states, for well-formed buffers with `N` channels, a 320-sample full band and
two 160-sample bands, `Analysis` returns without fault and, for every channel
`i < N`, band 0 of channel `i` is `S16ToFloatS16` of the low band and band 1 is
`S16ToFloatS16` of the high band that `WebRtcSpl_AnalysisQMF` computes from
`FloatS16ToS16` of the channel's full-band frame with the channel's own
`analysis_state1`/`analysis_state2`; each band has exactly 160 samples. -/
theorem C4_facade_analysis (E : Externals) (sf : SplittingFilter E)
    (data bands : ChannelBuffer E.Sample) (N : Nat) (hsf : sf.TwoBand N)
    (hv : ValidTwoBandCall N data bands) :
    (sf.Analysis data bands).fault = none ∧
    ∀ i, i < N → ∃ st src r,
      sf.two_bands_states_[i]? = some st ∧ data.data[i]? = some src ∧
      WebRtcSpl_AnalysisQMF (src.map E.FloatS16ToS16) 320 (localArray 160) (localArray 160)
        st.analysis_state1 st.analysis_state2 = Except.ok r ∧
      (sf.Analysis data bands).buffer.readAt 0 i 160
        = Except.ok (r.low_band.map E.S16ToFloatS16) ∧
      (sf.Analysis data bands).buffer.readAt 1 i 160
        = Except.ok (r.high_band.map E.S16ToFloatS16) ∧
      r.low_band.length = 160 ∧ r.high_band.length = 160 := by
  obtain ⟨hdl, hdc, hbl, hbc⟩ := hv.bands_length
  obtain ⟨_, _, hdn, hd, hbn, hbb, hb⟩ := hv
  rw [Analysis_eq E sf data bands N hsf hdn hd hdl hdc hbn hbb hb hbl hbc]
  refine ⟨rfl, fun i hi => ?_⟩
  have hsl : sf.two_bands_states_.length = N := hsf.2.1
  have hst : (sf.two_bands_states_.getD i TwoBandsStates.zero).WellFormed :=
    hsf.2.2 _ (getD_mem_gen _ i _ (by omega))
  have hsrc : (data.data.getD i []).length = 320 :=
    hdc _ (getD_mem_gen data.data i [] (by omega))
  have hch : (bands.data.getD i []).length = 320 :=
    hbc _ (getD_mem_gen bands.data i [] (by omega))
  have hlen : (bands.afterAnalysis sf data N).data.length = N := by
    simp only [ChannelBuffer.afterAnalysis, List.length_append, List.length_map,
      List.length_range, List.length_drop]
    omega
  have hget : (bands.afterAnalysis sf data N).data.getD i []
      = (channelAnalysis E (sf.two_bands_states_.getD i TwoBandsStates.zero)
            (data.data.getD i [])).low_band.map E.S16ToFloatS16
        ++ (channelAnalysis E (sf.two_bands_states_.getD i TwoBandsStates.zero)
            (data.data.getD i [])).high_band.map E.S16ToFloatS16 := by
    simp only [ChannelBuffer.afterAnalysis]
    rw [getD_fill_lt _ _ N i [] hi, channelAnalysisBands_eq E _ _ _ hch]
  have hnf : (bands.afterAnalysis sf data N).num_frames_per_band = 160 := hb
  have hl := channelAnalysis_low_length E
    (sf.two_bands_states_.getD i TwoBandsStates.zero) (data.data.getD i [])
  have hh := channelAnalysis_high_length E
    (sf.two_bands_states_.getD i TwoBandsStates.zero) (data.data.getD i [])
  refine ⟨_, _, _, getElem?_eq_some_getD _ i _ (by omega),
    getElem?_eq_some_getD _ i _ (by omega), channelAnalysis_ok E _ _ hst hsrc, ?_, ?_,
    hl, hh⟩
  · simp only []
    rw [readAt_ok _ 0 i 160 (by omega)
      (by rw [hget, hnf, List.length_append, List.length_map, List.length_map, hl, hh]; decide),
      hget, Nat.zero_mul, List.drop_zero,
      List.take_left' (by rw [List.length_map, hl])]
  · simp only []
    rw [readAt_ok _ 1 i 160 (by omega)
      (by rw [hget, hnf, List.length_append, List.length_map, List.length_map, hl, hh]),
      hget, hnf, Nat.one_mul, List.drop_left' (by rw [List.length_map, hl]),
      List.take_of_length_le (by rw [List.length_map, hh])]

/-! ## Sequences of calls -/

theorem TwoBandsStates.zero_WellFormed : TwoBandsStates.zero.WellFormed :=
  ⟨rfl, rfl, rfl, rfl⟩

theorem TwoBand_getD {E : Externals} {sf : SplittingFilter E} {N : Nat}
    (h : sf.TwoBand N) (j : Nat) :
    (sf.two_bands_states_.getD j TwoBandsStates.zero).WellFormed := by
  rcases Nat.lt_or_ge j sf.two_bands_states_.length with hj | hj
  · exact h.2.2 _ (getD_mem_gen _ j _ hj)
  · rw [List.getD_eq_default _ _ hj]
    exact TwoBandsStates.zero_WellFormed

theorem channelAnalysisStates_WellFormed (E : Externals) (st : TwoBandsStates)
    (src : List E.Sample) (h : st.WellFormed) :
    (channelAnalysisStates E st src).WellFormed :=
  ⟨rfl, rfl, h.2.2.1, h.2.2.2⟩

theorem channelSynthesisStates_WellFormed (E : Externals) (st : TwoBandsStates)
    (src : List E.Sample) (h : st.WellFormed) :
    (channelSynthesisStates E st src).WellFormed :=
  ⟨h.1, h.2.1, rfl, rfl⟩

theorem fill_forall {α : Type} (P : α → Prop) (g : Nat → α) (l : List α) (n : Nat)
    (hg : ∀ j, P (g j)) (hl : ∀ a ∈ l, P a) :
    ∀ a ∈ (List.range n).map g ++ l.drop n, P a := by
  intro a ha
  rcases List.mem_append.mp ha with h | h
  · obtain ⟨j, _, rfl⟩ := List.mem_map.mp h
    exact hg j
  · exact hl a (List.mem_of_mem_drop h)

theorem afterAnalysis_TwoBand {E : Externals} (sf : SplittingFilter E)
    (data : ChannelBuffer E.Sample) (N n : Nat) (h : sf.TwoBand N) (hn : n ≤ N) :
    (sf.afterAnalysis data n).TwoBand N := by
  refine ⟨h.1, ?_, ?_⟩
  · simp only [SplittingFilter.afterAnalysis, List.length_append, List.length_map,
      List.length_range, List.length_drop, h.2.1]
    omega
  · exact fill_forall _ _ _ n
      (fun j => channelAnalysisStates_WellFormed E _ _ (TwoBand_getD h j)) h.2.2

theorem afterSynthesis_TwoBand {E : Externals} (sf : SplittingFilter E)
    (bands : ChannelBuffer E.Sample) (N n : Nat) (h : sf.TwoBand N) (hn : n ≤ N) :
    (sf.afterSynthesis bands n).TwoBand N := by
  refine ⟨h.1, ?_, ?_⟩
  · simp only [SplittingFilter.afterSynthesis, List.length_append, List.length_map,
      List.length_range, List.length_drop, h.2.1]
    omega
  · exact fill_forall _ _ _ n
      (fun j => channelSynthesisStates_WellFormed E _ _ (TwoBand_getD h j)) h.2.2

theorem onlyChannel_WellFormed {F : Type} (b : ChannelBuffer F) (i : Nat)
    (h : b.WellFormed) (hi : i < b.num_channels) : (b.onlyChannel i).WellFormed := by
  obtain ⟨hf, hl, hc⟩ := h
  refine ⟨hf, rfl, ?_⟩
  intro ch hch
  have : ch = b.data.getD i [] := by
    simpa [ChannelBuffer.onlyChannel] using hch
  rw [this]
  exact hc _ (getD_mem_gen b.data i [] (by omega))

theorem onlyChannel_valid {F : Type} (n i : Nat) (data bands : ChannelBuffer F)
    (h : ValidTwoBandCall n data bands) (hi : i < n) :
    ValidTwoBandCall 1 (data.onlyChannel i) (bands.onlyChannel i) := by
  obtain ⟨hdW, hbW, hdn, hd, hbn, hbb, hb⟩ := h
  exact ⟨onlyChannel_WellFormed data i hdW (by omega),
    onlyChannel_WellFormed bands i hbW (by omega), rfl, hd, rfl, hbb, hb⟩

/-- A valid `Analysis` call on `N` channels, seen from channel `i`. -/
theorem Analysis_channelView (E : Externals) (sf : SplittingFilter E)
    (data bands : ChannelBuffer E.Sample) (N i : Nat) (hsf : sf.TwoBand N)
    (hv : ValidTwoBandCall N data bands) (hi : i < N) :
    (sf.Analysis data bands).channelView i
      = (none,
         channelAnalysisBands E (sf.two_bands_states_.getD i TwoBandsStates.zero)
           (data.data.getD i []) (bands.data.getD i []),
         channelAnalysisStates E (sf.two_bands_states_.getD i TwoBandsStates.zero)
           (data.data.getD i [])) ∧
    (sf.Analysis data bands).filter.TwoBand N := by
  obtain ⟨hdl, hdc, hbl, hbc⟩ := hv.bands_length
  obtain ⟨_, _, hdn, hd, hbn, hbb, hb⟩ := hv
  rw [Analysis_eq E sf data bands N hsf hdn hd hdl hdc hbn hbb hb hbl hbc]
  refine ⟨?_, afterAnalysis_TwoBand sf data N N hsf (Nat.le_refl N)⟩
  simp only [CallOutcome.channelView, ChannelBuffer.afterAnalysis,
    SplittingFilter.afterAnalysis]
  rw [getD_fill_lt _ _ N i _ hi, getD_fill_lt _ _ N i _ hi]

/-- A valid `Synthesis` call on `n ≤ N` channels, seen from channel `i < n`. -/
theorem Synthesis_channelView (E : Externals) (sf : SplittingFilter E)
    (bands data : ChannelBuffer E.Sample) (N n i : Nat) (hsf : sf.TwoBand N)
    (hn : n ≤ N) (hv : ValidTwoBandCall n data bands) (hi : i < n) :
    (sf.Synthesis bands data).channelView i
      = (none,
         channelSynthesisData E (sf.two_bands_states_.getD i TwoBandsStates.zero)
           (bands.data.getD i []) (data.data.getD i []),
         channelSynthesisStates E (sf.two_bands_states_.getD i TwoBandsStates.zero)
           (bands.data.getD i [])) ∧
    (sf.Synthesis bands data).filter.TwoBand N := by
  obtain ⟨hdl, hdc, hbl, hbc⟩ := hv.bands_length
  obtain ⟨_, _, hdn, hd, hbn, hbb, hb⟩ := hv
  rw [Synthesis_eq E sf bands data N n hsf hn hdn hd hdl hdc hbn hbb hb hbl hbc]
  refine ⟨?_, afterSynthesis_TwoBand sf bands N n hsf hn⟩
  simp only [CallOutcome.channelView, ChannelBuffer.afterSynthesis,
    SplittingFilter.afterSynthesis]
  rw [getD_fill_lt _ _ n i _ hi, getD_fill_lt _ _ n i _ hi]

/-- One call: what channel `i` of the `N`-channel object shows equals what
channel 0 of a one-channel object shows when the latter starts from channel
`i`'s states and is fed channel `i` of the buffers. -/
theorem run_channelView (E : Externals) (N i : Nat) (c : FacadeCall E.Sample)
    (sfN sf1 : SplittingFilter E) (hN : sfN.TwoBand N) (h1 : sf1.TwoBand 1)
    (hst : sf1.two_bands_states_.getD 0 TwoBandsStates.zero
      = sfN.two_bands_states_.getD i TwoBandsStates.zero)
    (hc : c.ProcessesChannel N i) :
    (c.run sfN).channelView i = ((c.onlyChannel i).run sf1).channelView 0 ∧
    (c.run sfN).filter.TwoBand N ∧ ((c.onlyChannel i).run sf1).filter.TwoBand 1 ∧
    (c.run sfN).fault = none := by
  cases c with
  | analysis data bands =>
    obtain ⟨hi, hv⟩ := hc
    have a := Analysis_channelView E sfN data bands N i hN hv hi
    have b := Analysis_channelView E sf1 (data.onlyChannel i) (bands.onlyChannel i) 1 0 h1
      (onlyChannel_valid N i data bands hv hi) (by decide)
    refine ⟨?_, a.2, b.2, congrArg Prod.fst a.1⟩
    show (sfN.Analysis data bands).channelView i
      = (sf1.Analysis (data.onlyChannel i) (bands.onlyChannel i)).channelView 0
    rw [a.1, b.1, hst]
    rfl
  | synthesis bands data =>
    obtain ⟨n, hi, hn, hv⟩ := hc
    have a := Synthesis_channelView E sfN bands data N n i hN hn hv hi
    have b := Synthesis_channelView E sf1 (bands.onlyChannel i) (data.onlyChannel i) 1 1 0 h1
      (Nat.le_refl 1) (onlyChannel_valid n i data bands hv hi) (by decide)
    refine ⟨?_, a.2, b.2, congrArg Prod.fst a.1⟩
    show (sfN.Synthesis bands data).channelView i
      = (sf1.Synthesis (bands.onlyChannel i) (data.onlyChannel i)).channelView 0
    rw [a.1, b.1, hst]
    rfl

theorem runCalls_channelView (E : Externals) (N i : Nat) :
    ∀ (calls : List (FacadeCall E.Sample)) (sfN sf1 : SplittingFilter E),
      sfN.TwoBand N → sf1.TwoBand 1 →
      sf1.two_bands_states_.getD 0 TwoBandsStates.zero
        = sfN.two_bands_states_.getD i TwoBandsStates.zero →
      (∀ c ∈ calls, c.ProcessesChannel N i) →
      (runCalls sfN calls).map (CallOutcome.channelView i)
        = (runCalls sf1 (calls.map (FacadeCall.onlyChannel i))).map
            (CallOutcome.channelView 0) ∧
      ∀ o ∈ runCalls sfN calls, o.fault = none
  | [], _, _, _, _, _, _ => ⟨rfl, fun _ h => by cases h⟩
  | c :: rest, sfN, sf1, hN, h1, hst, hc => by
    obtain ⟨hv, hN2, h12, hf⟩ := run_channelView E N i c sfN sf1 hN h1 hst
      (hc c (List.mem_cons_self c rest))
    have hst2 : (FacadeCall.run sf1 (c.onlyChannel i)).filter.two_bands_states_.getD 0
          TwoBandsStates.zero
        = (FacadeCall.run sfN c).filter.two_bands_states_.getD i TwoBandsStates.zero := by
      have := congrArg (fun v => v.2.2) hv
      exact this.symm
    have ih := runCalls_channelView E N i rest _ _ hN2 h12 hst2
      (fun c2 h2 => hc c2 (List.mem_cons_of_mem c h2))
    refine ⟨?_, ?_⟩
    · simp only [runCalls, List.map_cons, hv, ih.1]
    · intro o ho
      simp only [runCalls, List.mem_cons] at ho
      rcases ho with rfl | ho
      · exact hf
      · exact ih.2 o ho

theorem create_two (E : Externals) (N F : Nat) :
    SplittingFilter.create E N 2 F
      = Except.ok { num_bands_ := 2,
                    two_bands_states_ := List.replicate N TwoBandsStates.zero,
                    three_band_filter_banks_ := [] } := rfl

theorem create_two_TwoBand (E : Externals) (N : Nat) :
    SplittingFilter.TwoBand
      ({ num_bands_ := 2,
         two_bands_states_ := List.replicate N TwoBandsStates.zero,
         three_band_filter_banks_ := [] } : SplittingFilter E) N := by
  refine ⟨rfl, by simp, ?_⟩
  intro st hst
  rw [List.eq_of_mem_replicate hst]
  exact TwoBandsStates.zero_WellFormed

/-- C7 (state independence across channels). For `N ≥ 1`, a channel `i < N`
and any sequence of valid two-band calls that process channel `i` (`Analysis`
on `N` channels, `Synthesis` on `n` channels with `i < n ≤ N`), made on a
freshly constructed `N`-channel filter: at every call, the fault status, the
output written for channel `i` and the states of channel `i` are those that a
freshly constructed one-channel filter shows when it is given the same calls
with channel `i` of the buffers only. -/
theorem C7_state_independence (E : Externals) (N i : Nat) (hi : i < N)
    (calls : List (FacadeCall E.Sample))
    (hc : ∀ c ∈ calls, c.ProcessesChannel N i) :
    ∃ sfN sf1,
      SplittingFilter.create E N 2 320 = Except.ok sfN ∧
      SplittingFilter.create E 1 2 320 = Except.ok sf1 ∧
      (runCalls sfN calls).map (CallOutcome.channelView i)
        = (runCalls sf1 (calls.map (FacadeCall.onlyChannel i))).map
            (CallOutcome.channelView 0) ∧
      ∀ o ∈ runCalls sfN calls, o.fault = none := by
  have h := runCalls_channelView E N i calls _ _ (create_two_TwoBand E N)
    (create_two_TwoBand E 1)
    (by
      show (List.replicate 1 TwoBandsStates.zero).getD 0 TwoBandsStates.zero
        = (List.replicate N TwoBandsStates.zero).getD i TwoBandsStates.zero
      rw [List.getD_eq_getElem?_getD, List.getD_eq_getElem?_getD]
      simp [hi])
    hc
  exact ⟨_, _, create_two E N 320, create_two E 1 320, h.1, h.2⟩

theorem ofFn_WellFormed {F : Type} (nf nc nb : Nat) (f : Nat → Nat → F)
    (h : nf = nb * (nf / nb)) : (ChannelBuffer.ofFn nf nc nb f).WellFormed := by
  refine ⟨h, by simp [ChannelBuffer.ofFn], ?_⟩
  intro ch hch
  simp only [ChannelBuffer.ofFn, List.mem_map] at hch ⊢
  obtain ⟨c, _, rfl⟩ := hch
  simp

theorem demo_valid (n : Nat) : ValidTwoBandCall n (demoData n) (demoBands n) :=
  ⟨ofFn_WellFormed 320 n 1 _ (by decide), ofFn_WellFormed 320 n 2 _ (by decide),
    rfl, rfl, rfl, rfl, rfl⟩

theorem demoFilter_TwoBand : demoFilter.TwoBand 2 := create_two_TwoBand intExternals 2

/-- C4 at the two-channel demo objects. -/
theorem C4_facade_analysis_witness :
    (demoFilter.Analysis (demoData 2) (demoBands 2)).fault = none ∧
    ∀ i, i < 2 → ∃ st src r,
      demoFilter.two_bands_states_[i]? = some st ∧ (demoData 2).data[i]? = some src ∧
      WebRtcSpl_AnalysisQMF (src.map intExternals.FloatS16ToS16) 320 (localArray 160)
        (localArray 160) st.analysis_state1 st.analysis_state2 = Except.ok r ∧
      (demoFilter.Analysis (demoData 2) (demoBands 2)).buffer.readAt 0 i 160
        = Except.ok (r.low_band.map intExternals.S16ToFloatS16) ∧
      (demoFilter.Analysis (demoData 2) (demoBands 2)).buffer.readAt 1 i 160
        = Except.ok (r.high_band.map intExternals.S16ToFloatS16) ∧
      r.low_band.length = 160 ∧ r.high_band.length = 160 :=
  C4_facade_analysis intExternals demoFilter (demoData 2) (demoBands 2) 2
    demoFilter_TwoBand (demo_valid 2)

/-- C5 at the demo filter with a one-channel `data` and a two-channel
`bands` buffer. -/
theorem C5_shape_validation_atomic_witness :
    (demoFilter.Analysis (demoData 1) (demoBands 2)).fault = some Fault.dcheck ∧
    (demoFilter.Analysis (demoData 1) (demoBands 2)).filter = demoFilter ∧
    (demoFilter.Analysis (demoData 1) (demoBands 2)).buffer = demoBands 2 ∧
    (demoFilter.Synthesis (demoBands 2) (demoData 1)).fault = some Fault.dcheck ∧
    (demoFilter.Synthesis (demoBands 2) (demoData 1)).filter = demoFilter ∧
    (demoFilter.Synthesis (demoBands 2) (demoData 1)).buffer = demoData 1 :=
  C5_shape_validation_atomic intExternals demoFilter (demoData 1) (demoBands 2)
    (Or.inr (Or.inl (by decide)))

/-- C10 at the demo filter: a one-channel `Synthesis` call leaves channel 1
untouched. -/
theorem C10_frame_condition_witness :
    (demoFilter.Synthesis (demoBands 1) (demoData 1)).filter.two_bands_states_[1]?
      = demoFilter.two_bands_states_[1]? :=
  (C10_frame_condition intExternals demoFilter (demoData 1) (demoBands 1)).2.2 1
    (Nat.le_refl 1)

/-- C7 at two channels, channel 1, for an `Analysis` call followed by a
`Synthesis` call. -/
theorem C7_state_independence_witness :
    ∃ sfN sf1,
      SplittingFilter.create intExternals 2 2 320 = Except.ok sfN ∧
      SplittingFilter.create intExternals 1 2 320 = Except.ok sf1 ∧
      (runCalls sfN [FacadeCall.analysis (demoData 2) (demoBands 2),
          FacadeCall.synthesis (demoBands 2) (demoData 2)]).map (CallOutcome.channelView 1)
        = (runCalls sf1 ([FacadeCall.analysis (demoData 2) (demoBands 2),
            FacadeCall.synthesis (demoBands 2) (demoData 2)].map
              (FacadeCall.onlyChannel 1))).map (CallOutcome.channelView 0) ∧
      ∀ o ∈ runCalls sfN [FacadeCall.analysis (demoData 2) (demoBands 2),
          FacadeCall.synthesis (demoBands 2) (demoData 2)], o.fault = none :=
  C7_state_independence intExternals 2 1 (by decide)
    [FacadeCall.analysis (demoData 2) (demoBands 2),
      FacadeCall.synthesis (demoBands 2) (demoData 2)]
    (by
      intro c hc
      simp only [List.mem_cons, List.mem_singleton, List.not_mem_nil, or_false] at hc
      rcases hc with rfl | rfl
      · exact ⟨by decide, demo_valid 2⟩
      · exact ⟨2, by decide, by decide, demo_valid 2⟩)

/-- The shape conditions under which a two-band filter with `N` channel states
accepts `Analysis(data, bands)`. -/
theorem Analysis_accepts_iff (E : Externals) (sf : SplittingFilter E)
    (data bands : ChannelBuffer E.Sample) (N : Nat) (hsf : sf.TwoBand N)
    (hdW : data.WellFormed) (hbW : bands.WellFormed) :
    (sf.Analysis data bands).fault = none ↔
      (bands.num_bands = 2 ∧ data.num_channels = bands.num_channels ∧
       data.num_frames = bands.num_frames_per_band * bands.num_bands ∧
       data.num_frames = 320 ∧ data.num_channels = N) := by
  constructor
  · intro h
    by_contra hc
    have : (sf.Analysis data bands).fault = some Fault.dcheck := by
      unfold SplittingFilter.Analysis SplittingFilter.TwoBandsAnalysis
      simp only [hsf.1, hsf.2.1, kTwoBandFilterSamplesPerFrame]
      by_cases h1 : (2 : Nat) ≠ bands.num_bands
      · rw [if_pos h1]
      · rw [if_neg h1]
        by_cases h2 : data.num_channels ≠ bands.num_channels
        · rw [if_pos h2]
        · rw [if_neg h2]
          by_cases h3 : data.num_frames ≠ bands.num_frames_per_band * bands.num_bands
          · rw [if_pos h3]
          · rw [if_neg h3]
            have hb2 : bands.num_bands = 2 := by omega
            rw [if_pos hb2]
            by_cases h4 : N ≠ data.num_channels
            · rw [if_pos h4]
            · rw [if_neg h4]
              by_cases h5 : data.num_frames ≠ 320
              · rw [if_pos h5]
              · exact absurd ⟨hb2, by omega, by omega, by omega, by omega⟩ hc
    rw [this] at h
    cases h
  · rintro ⟨hbb, hch, hfr, hd, hdn⟩
    have hv : ValidTwoBandCall N data bands :=
      ⟨hdW, hbW, hdn, hd, by omega, hbb, by rw [hbb] at hfr; omega⟩
    obtain ⟨hdl, hdc, hbl, hbc⟩ := hv.bands_length
    obtain ⟨_, _, _, _, hbn, _, hb⟩ := hv
    rw [Analysis_eq E sf data bands N hsf hdn hd hdl hdc hbn hbb hb hbl hbc]

/-- The shape conditions under which a two-band filter with `N` channel states
accepts `Synthesis(bands, data)`. -/
theorem Synthesis_accepts_iff (E : Externals) (sf : SplittingFilter E)
    (data bands : ChannelBuffer E.Sample) (N : Nat) (hsf : sf.TwoBand N)
    (hdW : data.WellFormed) (hbW : bands.WellFormed) :
    (sf.Synthesis bands data).fault = none ↔
      (bands.num_bands = 2 ∧ data.num_channels = bands.num_channels ∧
       data.num_frames = bands.num_frames_per_band * bands.num_bands ∧
       data.num_frames = 320 ∧ data.num_channels ≤ N) := by
  constructor
  · intro h
    by_contra hc
    have : (sf.Synthesis bands data).fault = some Fault.dcheck := by
      unfold SplittingFilter.Synthesis SplittingFilter.TwoBandsSynthesis
      simp only [hsf.1, hsf.2.1, kTwoBandFilterSamplesPerFrame]
      by_cases h1 : (2 : Nat) ≠ bands.num_bands
      · rw [if_pos h1]
      · rw [if_neg h1]
        by_cases h2 : data.num_channels ≠ bands.num_channels
        · rw [if_pos h2]
        · rw [if_neg h2]
          by_cases h3 : data.num_frames ≠ bands.num_frames_per_band * bands.num_bands
          · rw [if_pos h3]
          · rw [if_neg h3]
            have hb2 : bands.num_bands = 2 := by omega
            rw [if_pos hb2]
            by_cases h4 : ¬ data.num_channels ≤ N
            · rw [if_pos h4]
            · rw [if_neg h4]
              by_cases h5 : data.num_frames ≠ 320
              · rw [if_pos h5]
              · exact absurd ⟨hb2, by omega, by omega, by omega, by omega⟩ hc
    rw [this] at h
    cases h
  · rintro ⟨hbb, hch, hfr, hd, hdn⟩
    have hv : ValidTwoBandCall data.num_channels data bands :=
      ⟨hdW, hbW, rfl, hd, by omega, hbb, by rw [hbb] at hfr; omega⟩
    obtain ⟨hdl, hdc, hbl, hbc⟩ := hv.bands_length
    obtain ⟨_, _, _, _, hbn, _, hb⟩ := hv
    rw [Synthesis_eq E sf bands data N data.num_channels hsf hdn rfl hd hdl hdc hbn hbb hb
      hbl hbc]

/-- C6 as stated fails. On a freshly constructed two-band filter with two
channels, one-channel buffers of the right frame sizes are accepted by
`Synthesis` and rejected by `Analysis`. -/
theorem C6_synthesis_preconditions_counterexample :
    ∃ sf, SplittingFilter.create intExternals 2 2 320 = Except.ok sf ∧
      (sf.Synthesis (demoBands 1) (demoData 1)).fault = none ∧
      (sf.Analysis (demoData 1) (demoBands 1)).fault = some Fault.dcheck ∧
      ¬ ((sf.Synthesis (demoBands 1) (demoData 1)).fault = none ↔
          (sf.Analysis (demoData 1) (demoBands 1)).fault = none) := by
  have hs : (demoFilter.Synthesis (demoBands 1) (demoData 1)).fault = none :=
    (Synthesis_accepts_iff intExternals demoFilter (demoData 1) (demoBands 1) 2
      demoFilter_TwoBand (demo_valid 1).1 (demo_valid 1).2.1).mpr
      ⟨rfl, rfl, rfl, rfl, by decide⟩
  have ha : (demoFilter.Analysis (demoData 1) (demoBands 1)).fault = some Fault.dcheck := rfl
  refine ⟨demoFilter, rfl, hs, ha, ?_⟩
  intro h
  have := h.mp hs
  rw [ha] at this
  cases this

/-- C6, amended (preconditions of Synthesis and Analysis). For a two-band
filter with `N` channel states and well-formed buffers, `Synthesis(bands, data)`
is accepted exactly when `bands.num_bands = 2`, the channel counts agree,
`data.num_frames = num_frames_per_band * num_bands = 320` and the channel count
is at most `N`; `Analysis(data, bands)` is accepted exactly when, in addition,
the channel count equals `N`. Hence every pair of shapes accepted by
`Analysis` is accepted by `Synthesis`, and the two agree when the channel count
is `N`; buffers with fewer channels are accepted by `Synthesis` only. -/
theorem C6_synthesis_preconditions (E : Externals) (sf : SplittingFilter E)
    (data bands : ChannelBuffer E.Sample) (N : Nat) (hsf : sf.TwoBand N)
    (hdW : data.WellFormed) (hbW : bands.WellFormed) :
    ((sf.Synthesis bands data).fault = none ↔
      (bands.num_bands = 2 ∧ data.num_channels = bands.num_channels ∧
       data.num_frames = bands.num_frames_per_band * bands.num_bands ∧
       data.num_frames = 320 ∧ data.num_channels ≤ N)) ∧
    ((sf.Analysis data bands).fault = none ↔
      (bands.num_bands = 2 ∧ data.num_channels = bands.num_channels ∧
       data.num_frames = bands.num_frames_per_band * bands.num_bands ∧
       data.num_frames = 320 ∧ data.num_channels = N)) ∧
    ((sf.Analysis data bands).fault = none ↔
      ((sf.Synthesis bands data).fault = none ∧ data.num_channels = N)) := by
  have hS := Synthesis_accepts_iff E sf data bands N hsf hdW hbW
  have hA := Analysis_accepts_iff E sf data bands N hsf hdW hbW
  refine ⟨hS, hA, ?_⟩
  rw [hS, hA]
  constructor
  · rintro ⟨a, b, c, d, e⟩
    exact ⟨⟨a, b, c, d, Nat.le_of_eq e⟩, e⟩
  · rintro ⟨⟨a, b, c, d, _⟩, e⟩
    exact ⟨a, b, c, d, e⟩

/-- C6 (amended) at the demo filter and one-channel buffers. -/
theorem C6_synthesis_preconditions_witness :
    ((demoFilter.Synthesis (demoBands 1) (demoData 1)).fault = none ↔
      ((demoBands 1).num_bands = 2 ∧ (demoData 1).num_channels = (demoBands 1).num_channels ∧
       (demoData 1).num_frames
          = (demoBands 1).num_frames_per_band * (demoBands 1).num_bands ∧
       (demoData 1).num_frames = 320 ∧ (demoData 1).num_channels ≤ 2)) ∧
    ((demoFilter.Analysis (demoData 1) (demoBands 1)).fault = none ↔
      ((demoBands 1).num_bands = 2 ∧ (demoData 1).num_channels = (demoBands 1).num_channels ∧
       (demoData 1).num_frames
          = (demoBands 1).num_frames_per_band * (demoBands 1).num_bands ∧
       (demoData 1).num_frames = 320 ∧ (demoData 1).num_channels = 2)) ∧
    ((demoFilter.Analysis (demoData 1) (demoBands 1)).fault = none ↔
      ((demoFilter.Synthesis (demoBands 1) (demoData 1)).fault = none ∧
        (demoData 1).num_channels = 2)) :=
  C6_synthesis_preconditions intExternals demoFilter (demoData 1) (demoBands 1) 2
    demoFilter_TwoBand (demo_valid 1).1 (demo_valid 1).2.1

/-! ## Construction -/

theorem create_ok (E : Externals) (nc nb nf : Nat) (h : nb = 2 ∨ nb = 3) :
    SplittingFilter.create E nc nb nf
      = Except.ok
          { num_bands_ := nb,
            two_bands_states_ :=
              List.replicate (if nb = 2 then nc else 0) TwoBandsStates.zero,
            three_band_filter_banks_ :=
              List.replicate (if nb = 3 then nc else 0) E.newBank } := by
  unfold SplittingFilter.create
  rw [decide_eq_true h, dcheckThat_true, ok_bind]
  rfl

theorem create_error (E : Externals) (nc nb nf : Nat) (h : ¬ (nb = 2 ∨ nb = 3)) :
    SplittingFilter.create E nc nb nf = Except.error Fault.dcheck := by
  unfold SplittingFilter.create
  rw [decide_eq_false h, dcheckThat_false]
  rfl

/-- C11 as stated fails. With `num_channels = 0` and `num_bands = 2` the
constructor succeeds and both state arrays are empty, so it is not the case
that exactly one of them is non-empty. -/
theorem C11_one_state_array_counterexample :
    ∃ sf, SplittingFilter.create intExternals 0 2 320 = Except.ok sf ∧
      sf.two_bands_states_ = [] ∧ sf.three_band_filter_banks_ = [] ∧
      ¬ ((sf.two_bands_states_ ≠ [] ∧ sf.three_band_filter_banks_ = []) ∨
         (sf.two_bands_states_ = [] ∧ sf.three_band_filter_banks_ ≠ [])) :=
  ⟨_, rfl, rfl, rfl, by
    rintro (⟨h, _⟩ | ⟨_, h⟩)
    · exact h rfl
    · exact h rfl⟩

/-- C11, amended (construction allocates one state array). For every
`num_channels` and `num_bands` in `{2, 3}` the constructor succeeds, the array
selected by `num_bands` has `num_channels` entries and the other array is
empty; so whenever `num_channels ≥ 1` exactly one of the two arrays is
non-empty, namely the selected one. -/
theorem C11_one_state_array (E : Externals) (nc nb nf : Nat) (h : nb = 2 ∨ nb = 3) :
    ∃ sf, SplittingFilter.create E nc nb nf = Except.ok sf ∧
      (nb = 2 → sf.two_bands_states_.length = nc ∧ sf.three_band_filter_banks_ = []) ∧
      (nb = 3 → sf.three_band_filter_banks_.length = nc ∧ sf.two_bands_states_ = []) ∧
      (1 ≤ nc →
        ((sf.two_bands_states_ ≠ [] ∧ sf.three_band_filter_banks_ = []) ∨
         (sf.two_bands_states_ = [] ∧ sf.three_band_filter_banks_ ≠ []))) := by
  refine ⟨_, create_ok E nc nb nf h, ?_, ?_, ?_⟩
  · intro h2
    subst h2
    simp
  · intro h3
    subst h3
    simp
  · intro hnc
    have hne : ∀ {α : Type} (a : α), List.replicate nc a ≠ [] := by
      intro α a hr
      have := congrArg List.length hr
      simp at this
      omega
    rcases h with h2 | h3
    · subst h2
      exact Or.inl ⟨by simpa using hne TwoBandsStates.zero, by simp⟩
    · subst h3
      exact Or.inr ⟨by simp, by simpa using hne E.newBank⟩

/-- C11 (amended) at two channels and three bands. -/
theorem C11_one_state_array_witness :
    ∃ sf, SplittingFilter.create intExternals 2 3 480 = Except.ok sf ∧
      (3 = 2 → sf.two_bands_states_.length = 2 ∧ sf.three_band_filter_banks_ = []) ∧
      (3 = 3 → sf.three_band_filter_banks_.length = 2 ∧ sf.two_bands_states_ = []) ∧
      (1 ≤ 2 →
        ((sf.two_bands_states_ ≠ [] ∧ sf.three_band_filter_banks_ = []) ∨
         (sf.two_bands_states_ = [] ∧ sf.three_band_filter_banks_ ≠ []))) :=
  C11_one_state_array intExternals 2 3 480 (Or.inr rfl)

/-- C12 (construction validates the band count). For every `num_channels`,
`num_bands` and `num_frames` the constructor ends on its fatal check exactly
when `num_bands` is neither 2 nor 3, and returns an object exactly when
`num_bands` is 2 or 3. -/
theorem C12_constructor_validates (E : Externals) (nc nb nf : Nat) :
    (SplittingFilter.create E nc nb nf = Except.error Fault.dcheck ↔
      (nb ≠ 2 ∧ nb ≠ 3)) ∧
    ((∃ sf, SplittingFilter.create E nc nb nf = Except.ok sf) ↔ (nb = 2 ∨ nb = 3)) := by
  by_cases h : nb = 2 ∨ nb = 3
  · rw [create_ok E nc nb nf h]
    refine ⟨⟨fun e => (by cases e), fun hn => ?_⟩, ⟨fun _ => h, fun _ => ⟨_, rfl⟩⟩⟩
    rcases h with h | h
    · exact absurd h hn.1
    · exact absurd h hn.2
  · rw [create_error E nc nb nf h]
    refine ⟨⟨fun _ => ⟨fun h2 => h (Or.inl h2), fun h3 => h (Or.inr h3)⟩, fun _ => rfl⟩,
      ⟨fun ⟨_, e⟩ => (by cases e), fun h2 => absurd h2 h⟩⟩

/-! ## The specification's stage and the section of the code -/

theorem stageSample_cons_succ (a xp yp x : Int) (xs : List Int) :
    ∀ n, stageSample a xp yp (x :: xs) (n + 1)
      = stageSample a x (WEBRTC_SPL_SCALEDIFF32 a (WebRtcSpl_SubSatW32 x yp) xp) xs n
  | 0 => rfl
  | n + 1 => by
    show WEBRTC_SPL_SCALEDIFF32 a
        (WebRtcSpl_SubSatW32 ((x :: xs).getD (n + 1 + 1) 0)
          (stageSample a xp yp (x :: xs) (n + 1))) ((x :: xs).getD (n + 1) 0) = _
    rw [stageSample_cons_succ a xp yp x xs n]
    rfl

theorem stage_cons (a xp yp x : Int) (xs : List Int) :
    stage a xp yp (x :: xs)
      = WEBRTC_SPL_SCALEDIFF32 a (WebRtcSpl_SubSatW32 x yp) xp
        :: stage a x (WEBRTC_SPL_SCALEDIFF32 a (WebRtcSpl_SubSatW32 x yp) xp) xs := by
  unfold stage
  rw [List.length_cons, List.range_succ_eq_map, List.map_cons, List.map_map]
  congr 1
  apply List.map_congr_left
  intro n _
  exact stageSample_cons_succ a xp yp x xs n

/-- The specification's stage is the section the code runs. -/
theorem stage_eq_allPassSection (a : Int) :
    ∀ (u : List Int) (xp yp : Int), stage a xp yp u = allPassSection a xp yp u
  | [], _, _ => rfl
  | x :: xs, xp, yp => by
    rw [stage_cons, stage_eq_allPassSection a xs]
    rfl

theorem lastOf_eq_getD :
    ∀ (l : List Int), l ≠ [] → lastOf l = l.getD (l.length - 1) 0
  | [], h => absurd rfl h
  | [a], _ => rfl
  | a :: b :: l, _ => by
    rw [lastOf_cons_cons, lastOf_eq_getD (b :: l) (by simp)]
    rfl

theorem cascadeStage1_eq_stage (a1 a2 a3 : Int) (st x : List Int) :
    cascadeStage1 [a1, a2, a3] st x = stage a1 (st.getD 0 0) (st.getD 1 0) x := by
  rw [stage_eq_allPassSection]
  rfl

theorem cascadeStage2_eq_stage (a1 a2 a3 : Int) (st x : List Int) :
    cascadeStage2 [a1, a2, a3] st x
      = stage a2 (st.getD 2 0) (st.getD 3 0)
          (stage a1 (st.getD 0 0) (st.getD 1 0) x) := by
  rw [stage_eq_allPassSection, stage_eq_allPassSection]
  rfl

theorem cascadeStage3_eq_stage (a1 a2 a3 : Int) (st x : List Int) :
    cascadeStage3 [a1, a2, a3] st x
      = stage a3 (st.getD 4 0) (st.getD 5 0)
          (stage a2 (st.getD 2 0) (st.getD 3 0)
            (stage a1 (st.getD 0 0) (st.getD 1 0) x)) := by
  rw [stage_eq_allPassSection, stage_eq_allPassSection, stage_eq_allPassSection]
  rfl

theorem stage_length (a xp yp : Int) (u : List Int) : (stage a xp yp u).length = u.length := by
  simp [stage]

/-- C15 (the in-place two-buffer implementation equals a three-stage
cascade). For a non-empty input `x` of length `L` held at the start of
`in_data`, any coefficient triple and any six-word state,
`WebRtcSpl_AllPassQMF` succeeds and the `L` samples it leaves in `out_data` are
`stage(a3, state[4], state[5], stage(a2, state[2], state[3],
stage(a1, state[0], state[1], x)))`; the use of `in_data` as the buffer of the
second stage does not change the result (it ends holding the second stage's
output). -/
theorem C15_in_place_equals_cascade (x ti out st : List Int) (a1 a2 a3 : Int) (L : Nat)
    (hL : 1 ≤ L) (hx : x.length = L) (ho : L ≤ out.length) (hs : st.length = 6)
    (hL64 : L < 18446744073709551616) :
    ∃ r, WebRtcSpl_AllPassQMF (x ++ ti) L out [a1, a2, a3] st = Except.ok r ∧
      r.out_data.take L
        = stage a3 (st.getD 4 0) (st.getD 5 0)
            (stage a2 (st.getD 2 0) (st.getD 3 0)
              (stage a1 (st.getD 0 0) (st.getD 1 0) x)) ∧
      r.out_data.drop L = out.drop L ∧
      r.in_data
        = stage a2 (st.getD 2 0) (st.getD 3 0) (stage a1 (st.getD 0 0) (st.getD 1 0) x)
          ++ ti := by
  refine ⟨_, WebRtcSpl_AllPassQMF_buf x ti out [a1, a2, a3] st L hL hx ho rfl hs hL64,
    ?_, ?_, ?_⟩
  · simp only []
    rw [← cascadeStage3_eq_stage a1 a2 a3 st x,
      List.take_left' (by rw [cascadeStage3_length, hx])]
  · simp only []
    rw [List.drop_left' (by rw [cascadeStage3_length, hx])]
  · simp only []
    rw [cascadeStage2_eq_stage]

/-- C15 at a three-sample input in a four-word buffer. -/
theorem C15_in_place_equals_cascade_witness :
    ∃ r, WebRtcSpl_AllPassQMF ([1024, -2048, 4096] ++ [7]) 3 [9, 9, 9, 9]
          [6418, 36982, 57261] [5, -7, 11, 0, 3, 1] = Except.ok r ∧
      r.out_data.take 3
        = stage 57261 ([5, -7, 11, 0, 3, 1].getD 4 0) ([5, -7, 11, 0, 3, 1].getD 5 0)
            (stage 36982 ([5, -7, 11, 0, 3, 1].getD 2 0) ([5, -7, 11, 0, 3, 1].getD 3 0)
              (stage 6418 ([5, -7, 11, 0, 3, 1].getD 0 0) ([5, -7, 11, 0, 3, 1].getD 1 0)
                [1024, -2048, 4096])) ∧
      r.out_data.drop 3 = [9, 9, 9, 9].drop 3 ∧
      r.in_data
        = stage 36982 ([5, -7, 11, 0, 3, 1].getD 2 0) ([5, -7, 11, 0, 3, 1].getD 3 0)
            (stage 6418 ([5, -7, 11, 0, 3, 1].getD 0 0) ([5, -7, 11, 0, 3, 1].getD 1 0)
              [1024, -2048, 4096])
          ++ [7] :=
  C15_in_place_equals_cascade [1024, -2048, 4096] [7] [9, 9, 9, 9] [5, -7, 11, 0, 3, 1]
    6418 36982 57261 3 (by decide) rfl (by decide) rfl (by decide)

/-- C16 (state persisted by the cascade). For a non-empty input `x` of length
`L` with stage outputs `y1`, `y2`, `y3`, after `WebRtcSpl_AllPassQMF` returns
the six state words are `(x[L-1], y1[L-1], y1[L-1], y2[L-1], y2[L-1], y3[L-1])`,
`y3` is what `out_data` holds, and `state[5]` is the last output sample. -/
theorem C16_state_persisted (x ti out st : List Int) (a1 a2 a3 : Int) (L : Nat)
    (hL : 1 ≤ L) (hx : x.length = L) (ho : L ≤ out.length) (hs : st.length = 6)
    (hL64 : L < 18446744073709551616) :
    ∃ r y1 y2 y3,
      WebRtcSpl_AllPassQMF (x ++ ti) L out [a1, a2, a3] st = Except.ok r ∧
      y1 = stage a1 (st.getD 0 0) (st.getD 1 0) x ∧
      y2 = stage a2 (st.getD 2 0) (st.getD 3 0) y1 ∧
      y3 = stage a3 (st.getD 4 0) (st.getD 5 0) y2 ∧
      r.out_data.take L = y3 ∧
      r.filter_state
        = [x.getD (L - 1) 0, y1.getD (L - 1) 0, y1.getD (L - 1) 0,
           y2.getD (L - 1) 0, y2.getD (L - 1) 0, y3.getD (L - 1) 0] ∧
      r.filter_state.getD 5 0 = r.out_data.getD (L - 1) 0 := by
  have hne : x ≠ [] := by
    intro h
    subst h
    simp at hx
    omega
  have h1 : (cascadeStage1 [a1, a2, a3] st x).length = L := by
    rw [cascadeStage1_length, hx]
  have h2 : (cascadeStage2 [a1, a2, a3] st x).length = L := by
    rw [cascadeStage2_length, hx]
  have h3 : (cascadeStage3 [a1, a2, a3] st x).length = L := by
    rw [cascadeStage3_length, hx]
  have hstate : cascadeState [a1, a2, a3] st x
      = [x.getD (L - 1) 0, (cascadeStage1 [a1, a2, a3] st x).getD (L - 1) 0,
         (cascadeStage1 [a1, a2, a3] st x).getD (L - 1) 0,
         (cascadeStage2 [a1, a2, a3] st x).getD (L - 1) 0,
         (cascadeStage2 [a1, a2, a3] st x).getD (L - 1) 0,
         (cascadeStage3 [a1, a2, a3] st x).getD (L - 1) 0] := by
    unfold cascadeState
    rw [lastOf_eq_getD x hne, lastOf_eq_getD _ (cascadeStage1_ne_nil _ _ x hne),
      lastOf_eq_getD _ (cascadeStage2_ne_nil _ _ x hne),
      lastOf_eq_getD _ (cascadeStage3_ne_nil _ _ x hne), h1, h2, h3, hx]
  refine ⟨_, _, _, _,
    WebRtcSpl_AllPassQMF_buf x ti out [a1, a2, a3] st L hL hx ho rfl hs hL64,
    rfl, rfl, rfl, ?_, ?_, ?_⟩
  · simp only []
    rw [← cascadeStage3_eq_stage a1 a2 a3 st x, List.take_left' h3]
  · simp only []
    rw [hstate, cascadeStage1_eq_stage, cascadeStage2_eq_stage, cascadeStage3_eq_stage]
  · simp only []
    rw [hstate, getD_append_left _ _ _ (by rw [h3]; omega)]
    rfl

/-- C16 at a three-sample input in a four-word buffer. -/
theorem C16_state_persisted_witness :
    ∃ r y1 y2 y3,
      WebRtcSpl_AllPassQMF ([1024, -2048, 4096] ++ [7]) 3 [9, 9, 9, 9]
          [21333, 49062, 63010] [5, -7, 11, 0, 3, 1] = Except.ok r ∧
      y1 = stage 21333 ([5, -7, 11, 0, 3, 1].getD 0 0) ([5, -7, 11, 0, 3, 1].getD 1 0)
            [1024, -2048, 4096] ∧
      y2 = stage 49062 ([5, -7, 11, 0, 3, 1].getD 2 0) ([5, -7, 11, 0, 3, 1].getD 3 0) y1 ∧
      y3 = stage 63010 ([5, -7, 11, 0, 3, 1].getD 4 0) ([5, -7, 11, 0, 3, 1].getD 5 0) y2 ∧
      r.out_data.take 3 = y3 ∧
      r.filter_state
        = [[1024, -2048, 4096].getD (3 - 1) 0, y1.getD (3 - 1) 0, y1.getD (3 - 1) 0,
           y2.getD (3 - 1) 0, y2.getD (3 - 1) 0, y3.getD (3 - 1) 0] ∧
      r.filter_state.getD 5 0 = r.out_data.getD (3 - 1) 0 :=
  C16_state_persisted [1024, -2048, 4096] [7] [9, 9, 9, 9] [5, -7, 11, 0, 3, 1]
    21333 49062 63010 3 (by decide) rfl (by decide) rfl (by decide)

/-! ## Silence -/

theorem getD_replicate_zero (n i : Nat) : (List.replicate n (0 : Int)).getD i 0 = 0 := by
  rw [List.getD_eq_getElem?_getD]
  by_cases h : i < n
  · rw [List.getElem?_replicate, if_pos h]; rfl
  · rw [List.getElem?_replicate, if_neg h]; rfl

theorem map_range_const_zero (M : Nat) :
    (List.range M).map (fun _ => (0 : Int)) = List.replicate M 0 := by
  apply List.ext_getElem
  · simp
  · intro i h1 h2
    simp

theorem SCALEDIFF32_zero (a : Int) :
    WEBRTC_SPL_SCALEDIFF32 a (WebRtcSpl_SubSatW32 0 0) 0 = 0 := by
  have h : WebRtcSpl_SubSatW32 0 0 = 0 := by decide
  rw [h]
  unfold WEBRTC_SPL_SCALEDIFF32
  simp [wrap32]

theorem allPassSection_zero (a : Int) :
    ∀ n, allPassSection a 0 0 (List.replicate n 0) = List.replicate n 0
  | 0 => rfl
  | n + 1 => by
    rw [List.replicate_succ]
    simp only [allPassSection]
    rw [SCALEDIFF32_zero, allPassSection_zero a n]

theorem cascadeStage3_zero (c : List Int) (n : Nat) :
    cascadeStage3 c (List.replicate 6 0) (List.replicate n 0) = List.replicate n 0 := by
  unfold cascadeStage3 cascadeStage2 cascadeStage1
  simp only [getD_replicate_zero]
  rw [allPassSection_zero, allPassSection_zero, allPassSection_zero]

theorem lastOf_replicate_zero (n : Nat) : lastOf (List.replicate n 0) = 0 := by
  unfold lastOf
  cases n with
  | zero => rfl
  | succ n =>
    rw [List.getLastD_eq_getLast?, List.getLast?_eq_getLast _ (by simp)]
    simp

theorem cascadeState_zero (c : List Int) (n : Nat) :
    cascadeState c (List.replicate 6 0) (List.replicate n 0) = List.replicate 6 0 := by
  have h3 := cascadeStage3_zero c n
  unfold cascadeStage3 at h3
  unfold cascadeState
  have h1 : cascadeStage1 c (List.replicate 6 0) (List.replicate n 0) = List.replicate n 0 := by
    unfold cascadeStage1
    simp only [getD_replicate_zero]
    rw [allPassSection_zero]
  have h2 : cascadeStage2 c (List.replicate 6 0) (List.replicate n 0) = List.replicate n 0 := by
    unfold cascadeStage2
    rw [h1]
    simp only [getD_replicate_zero]
    rw [allPassSection_zero]
  rw [cascadeStage3_zero, h2, h1, lastOf_replicate_zero]
  rfl

theorem analysisHalfIn_zero (M n : Nat) :
    analysisHalfIn1 (List.replicate n 0) M = List.replicate M 0 ∧
    analysisHalfIn2 (List.replicate n 0) M = List.replicate M 0 := by
  unfold analysisHalfIn1 analysisHalfIn2
  simp only [getD_replicate_zero]
  have h : mul32 0 1024 = 0 := by decide
  rw [h]
  exact ⟨map_range_const_zero M, map_range_const_zero M⟩

theorem synthesisHalfIn_zero (M n m : Nat) :
    synthesisHalfIn1 (List.replicate n 0) (List.replicate m 0) M = List.replicate M 0 ∧
    synthesisHalfIn2 (List.replicate n 0) (List.replicate m 0) M = List.replicate M 0 := by
  unfold synthesisHalfIn1 synthesisHalfIn2
  simp only [getD_replicate_zero]
  have h : mul32 (add32 0 0) 1024 = 0 := by decide
  have h2 : mul32 (sub32 0 0) 1024 = 0 := by decide
  rw [h, h2]
  exact ⟨map_range_const_zero M, map_range_const_zero M⟩

theorem interleave_zero : ∀ M : Nat,
    interleave (List.replicate M 0) (List.replicate M 0) = List.replicate (2 * M) 0
  | 0 => rfl
  | M + 1 => by
    have e : List.replicate (2 * (M + 1)) (0 : Int) = 0 :: 0 :: List.replicate (2 * M) 0 := by
      have e2 : 2 * (M + 1) = (2 * M + 1) + 1 := by omega
      rw [e2]
      rfl
    rw [e, List.replicate_succ]
    simp only [interleave]
    rw [interleave_zero M]

/-- C18 (silence is a fixed point). For `1 ≤ M ≤ 320`, `WebRtcSpl_AnalysisQMF`
on an all-zero frame of `2 * M` samples with both states all-zero returns
all-zero low and high bands of `M` samples and all-zero states, and
`WebRtcSpl_SynthesisQMF` on all-zero bands of `M` samples with all-zero states
returns an all-zero frame of `2 * M` samples and all-zero states, whatever the
output arrays held before. -/
theorem C18_silence_fixed_point (M : Nat) (hM1 : 1 ≤ M) (hM : M ≤ 320)
    (low high out : List Int) (hl : low.length = M) (hh : high.length = M)
    (ho : out.length = 2 * M) :
    WebRtcSpl_AnalysisQMF (List.replicate (2 * M) 0) (2 * M) low high
        (List.replicate 6 0) (List.replicate 6 0)
      = Except.ok { low_band := List.replicate M 0, high_band := List.replicate M 0,
                    filter_state1 := List.replicate 6 0,
                    filter_state2 := List.replicate 6 0 } ∧
    WebRtcSpl_SynthesisQMF (List.replicate M 0) (List.replicate M 0) M out
        (List.replicate 6 0) (List.replicate 6 0)
      = Except.ok { out_data := List.replicate (2 * M) 0,
                    filter_state1 := List.replicate 6 0,
                    filter_state2 := List.replicate 6 0 } := by
  constructor
  · rw [WebRtcSpl_AnalysisQMF_eq _ low high _ _ M hM1 hM (by simp) (by omega) (by omega)
      (by simp) (by simp)]
    rw [(analysisHalfIn_zero M (2 * M)).1, (analysisHalfIn_zero M (2 * M)).2,
      cascadeStage3_zero, cascadeStage3_zero, cascadeState_zero, cascadeState_zero]
    simp only [getD_replicate_zero]
    have h1 : lowSample 0 0 = 0 := by decide
    have h2 : highSample 0 0 = 0 := by decide
    rw [h1, h2, map_range_const_zero, List.drop_of_length_le (by omega),
      List.drop_of_length_le (by omega), List.append_nil]
  · rw [WebRtcSpl_SynthesisQMF_eq _ _ out _ _ M hM1 hM (by simp) (by simp) (by omega)
      (by simp) (by simp)]
    rw [(synthesisHalfIn_zero M M M).1, (synthesisHalfIn_zero M M M).2,
      cascadeStage3_zero, cascadeStage3_zero, cascadeState_zero, cascadeState_zero]
    simp only [getD_replicate_zero]
    have h1 : outSample 0 = 0 := by decide
    rw [h1, map_range_const_zero, interleave_zero, List.drop_of_length_le (by omega),
      List.append_nil]

/-- C18 at `M = 2`, the output arrays holding other values before the calls. -/
theorem C18_silence_fixed_point_witness :
    WebRtcSpl_AnalysisQMF (List.replicate (2 * 2) 0) (2 * 2) [5, 6] [7, 8]
        (List.replicate 6 0) (List.replicate 6 0)
      = Except.ok { low_band := List.replicate 2 0, high_band := List.replicate 2 0,
                    filter_state1 := List.replicate 6 0,
                    filter_state2 := List.replicate 6 0 } ∧
    WebRtcSpl_SynthesisQMF (List.replicate 2 0) (List.replicate 2 0) 2 [1, 2, 3, 4]
        (List.replicate 6 0) (List.replicate 6 0)
      = Except.ok { out_data := List.replicate (2 * 2) 0,
                    filter_state1 := List.replicate 6 0,
                    filter_state2 := List.replicate 6 0 } :=
  C18_silence_fixed_point 2 (by decide) (by decide) [5, 6] [7, 8] [1, 2, 3, 4] rfl rfl rfl

/-! ## The reachable states of the facade -/

theorem cascadeState_blockLinked (c s x : List Int) : blockLinked (cascadeState c s x) :=
  ⟨rfl, rfl⟩

theorem TwoBandsStates.zero_Linked : TwoBandsStates.zero.Linked := by
  unfold TwoBandsStates.Linked TwoBandsStates.zero
  decide

theorem Linked_getD (l : List TwoBandsStates) (h : ∀ st ∈ l, st.Linked) (j : Nat) :
    (l.getD j TwoBandsStates.zero).Linked := by
  rcases Nat.lt_or_ge j l.length with hj | hj
  · exact h _ (getD_mem_gen _ j _ hj)
  · rw [List.getD_eq_default _ _ hj]
    exact TwoBandsStates.zero_Linked

theorem channelAnalysisStates_Linked (E : Externals) (st : TwoBandsStates)
    (src : List E.Sample) (h : st.Linked) : (channelAnalysisStates E st src).Linked :=
  ⟨cascadeState_blockLinked _ _ _, cascadeState_blockLinked _ _ _, h.2.2.1, h.2.2.2⟩

theorem channelSynthesisStates_Linked (E : Externals) (st : TwoBandsStates)
    (src : List E.Sample) (h : st.Linked) : (channelSynthesisStates E st src).Linked :=
  ⟨h.1, h.2.1, cascadeState_blockLinked _ _ _, cascadeState_blockLinked _ _ _⟩

/-- An accepted call on a two-band filter whose blocks are linked leaves a
two-band filter whose blocks are linked. -/
theorem run_Linked (E : Externals) (N : Nat) (sf : SplittingFilter E)
    (c : FacadeCall E.Sample) (hsf : sf.TwoBand N)
    (hL : ∀ st ∈ sf.two_bands_states_, st.Linked) (hw : c.WellFormed)
    (ha : (c.run sf).fault = none) :
    (c.run sf).filter.TwoBand N ∧ ∀ st ∈ (c.run sf).filter.two_bands_states_, st.Linked := by
  cases c with
  | analysis data bands =>
    obtain ⟨hdW, hbW⟩ := hw
    obtain ⟨hb2, hcc, hfr, h320, hN⟩ :=
      (Analysis_accepts_iff E sf data bands N hsf hdW hbW).mp ha
    have hb160 : bands.num_frames_per_band = 160 := by
      rw [h320, hb2] at hfr
      omega
    have e := Analysis_eq E sf data bands N hsf hN h320 (by rw [hdW.2.1, hN])
      (fun ch hch => by rw [hdW.2.2 ch hch, h320]) (by rw [← hcc, hN]) hb2 hb160
      (by rw [hbW.2.1, ← hcc, hN])
      (fun ch hch => by rw [hbW.2.2 ch hch, hbW.1, hb2, hb160])
    show (sf.Analysis data bands).filter.TwoBand N ∧
      ∀ st ∈ (sf.Analysis data bands).filter.two_bands_states_, st.Linked
    rw [e]
    refine ⟨afterAnalysis_TwoBand sf data N N hsf (Nat.le_refl N), ?_⟩
    exact fill_forall _ _ _ N
      (fun j => channelAnalysisStates_Linked E _ _ (Linked_getD _ hL j)) hL
  | synthesis bands data =>
    obtain ⟨hdW, hbW⟩ := hw
    obtain ⟨hb2, hcc, hfr, h320, hN⟩ :=
      (Synthesis_accepts_iff E sf data bands N hsf hdW hbW).mp ha
    have hb160 : bands.num_frames_per_band = 160 := by
      rw [h320, hb2] at hfr
      omega
    have e := Synthesis_eq E sf bands data N data.num_channels hsf hN rfl h320 hdW.2.1
      (fun ch hch => by rw [hdW.2.2 ch hch, h320]) hcc.symm hb2 hb160
      (by rw [hbW.2.1, ← hcc])
      (fun ch hch => by rw [hbW.2.2 ch hch, hbW.1, hb2, hb160])
    show (sf.Synthesis bands data).filter.TwoBand N ∧
      ∀ st ∈ (sf.Synthesis bands data).filter.two_bands_states_, st.Linked
    rw [e]
    refine ⟨afterSynthesis_TwoBand sf bands N _ hsf hN, ?_⟩
    exact fill_forall _ _ _ _
      (fun j => channelSynthesisStates_Linked E _ _ (Linked_getD _ hL j)) hL

theorem runCalls_Linked (E : Externals) (N : Nat) :
    ∀ (calls : List (FacadeCall E.Sample)) (sf : SplittingFilter E),
      sf.TwoBand N → (∀ st ∈ sf.two_bands_states_, st.Linked) →
      (∀ c ∈ calls, c.WellFormed) → (∀ o ∈ runCalls sf calls, o.fault = none) →
      ∀ o ∈ runCalls sf calls,
        o.filter.TwoBand N ∧ ∀ st ∈ o.filter.two_bands_states_, st.Linked
  | [], _, _, _, _, _ => by
    intro o ho
    cases ho
  | c :: rest, sf, hsf, hL, hw, ha => by
    have ha0 : (c.run sf).fault = none := ha _ (List.mem_cons_self _ _)
    have h1 := run_Linked E N sf c hsf hL (hw c (List.mem_cons_self _ _)) ha0
    intro o ho
    simp only [runCalls, List.mem_cons] at ho
    rcases ho with rfl | ho
    · exact h1
    · exact runCalls_Linked E N rest _ h1.1 h1.2
        (fun c2 hc2 => hw c2 (List.mem_cons_of_mem _ hc2))
        (fun o2 ho2 => ha o2 (by
          simp only [runCalls, List.mem_cons]
          exact Or.inr ho2)) o ho

/-- C17 (reachable-state invariant). On a freshly constructed two-band filter
with `N` channels every state block of every channel is linked
(`state[1] = state[2]` and `state[3] = state[4]`), and after every call of any
sequence of accepted `Analysis` and `Synthesis` calls (no call faults; the
buffers satisfy the `ChannelBuffer` invariant) the filter still has `N`
channel records of four six-word blocks and each block is linked. -/
theorem C17_reachable_states_linked (E : Externals) (N nf : Nat)
    (sf0 : SplittingFilter E) (calls : List (FacadeCall E.Sample))
    (hc : SplittingFilter.create E N 2 nf = Except.ok sf0)
    (hw : ∀ c ∈ calls, c.WellFormed)
    (ha : ∀ o ∈ runCalls sf0 calls, o.fault = none) :
    (sf0.two_bands_states_.length = N ∧
      ∀ st ∈ sf0.two_bands_states_,
        blockLinked st.analysis_state1 ∧ blockLinked st.analysis_state2 ∧
        blockLinked st.synthesis_state1 ∧ blockLinked st.synthesis_state2) ∧
    ∀ o ∈ runCalls sf0 calls,
      o.filter.two_bands_states_.length = N ∧
      ∀ st ∈ o.filter.two_bands_states_,
        st.WellFormed ∧ blockLinked st.analysis_state1 ∧
        blockLinked st.analysis_state2 ∧ blockLinked st.synthesis_state1 ∧
        blockLinked st.synthesis_state2 := by
  rw [create_two] at hc
  cases hc
  have h0 : ∀ st ∈ List.replicate N TwoBandsStates.zero, st.Linked := by
    intro st hst
    rw [List.eq_of_mem_replicate hst]
    exact TwoBandsStates.zero_Linked
  refine ⟨⟨by simp, h0⟩, ?_⟩
  intro o ho
  have h := runCalls_Linked E N calls _ (create_two_TwoBand E N) h0 hw ha o ho
  exact ⟨h.1.2.1, fun st hst => ⟨h.1.2.2 st hst, h.2 st hst⟩⟩

/-- C17 on the two-channel demo filter, after an `Analysis` call followed by a
`Synthesis` call. -/
theorem C17_reachable_states_linked_witness :
    (demoFilter.two_bands_states_.length = 2 ∧
      ∀ st ∈ demoFilter.two_bands_states_,
        blockLinked st.analysis_state1 ∧ blockLinked st.analysis_state2 ∧
        blockLinked st.synthesis_state1 ∧ blockLinked st.synthesis_state2) ∧
    ∀ o ∈ runCalls demoFilter [FacadeCall.analysis (demoData 2) (demoBands 2),
        FacadeCall.synthesis (demoBands 2) (demoData 2)],
      o.filter.two_bands_states_.length = 2 ∧
      ∀ st ∈ o.filter.two_bands_states_,
        st.WellFormed ∧ blockLinked st.analysis_state1 ∧
        blockLinked st.analysis_state2 ∧ blockLinked st.synthesis_state1 ∧
        blockLinked st.synthesis_state2 :=
  C17_reachable_states_linked intExternals 2 320 demoFilter
    [FacadeCall.analysis (demoData 2) (demoBands 2),
      FacadeCall.synthesis (demoBands 2) (demoData 2)]
    rfl
    (by
      intro c hc
      simp only [List.mem_cons, List.mem_singleton, List.not_mem_nil, or_false] at hc
      rcases hc with rfl | rfl
      · exact ⟨(demo_valid 2).1, (demo_valid 2).2.1⟩
      · exact ⟨(demo_valid 2).1, (demo_valid 2).2.1⟩)
    (runCalls_channelView intExternals 2 0 _ demoFilter
      { num_bands_ := 2, two_bands_states_ := List.replicate 1 TwoBandsStates.zero,
        three_band_filter_banks_ := [] }
      demoFilter_TwoBand (create_two_TwoBand intExternals 1) rfl
      (by
        intro c hc
        simp only [List.mem_cons, List.mem_singleton, List.not_mem_nil, or_false] at hc
        rcases hc with rfl | rfl
        · exact ⟨by decide, demo_valid 2⟩
        · exact ⟨2, by decide, by decide, demo_valid 2⟩)).2

/-! ## Index safety of an accepted call -/

/-- After `m ≤ 160` iterations of the split loop on a 320-sample frame the
`int16_t` index `k` is exactly `2 * m`. -/
theorem analysisSplit_upto (in_data b1 b2 : List Int) (hin : in_data.length = 320)
    (h1 : b1.length = 320) (h2 : b2.length = 320) (m : Nat) (hm : m ≤ 160) :
    ∃ half_in1 half_in2,
      (List.range m).foldlM (analysisSplitStep in_data) ((0 : Int), b1, b2)
        = Except.ok (((2 * m : Nat) : Int), half_in1, half_in2) :=
  ⟨_, _, analysisSplit_loop in_data b1 b2 m (by omega) (by omega) (by omega) (by omega)⟩

/-- After `m ≤ 160` iterations of the interleaving loop the `int16_t` index `k`
is exactly `2 * m`. -/
theorem synthesisInterleave_upto (filter1 filter2 out : List Int)
    (hf1 : filter1.length = 320) (hf2 : filter2.length = 320) (ho : out.length = 320)
    (m : Nat) (hm : m ≤ 160) :
    ∃ out_data,
      (List.range m).foldlM (synthesisInterleaveStep filter1 filter2) ((0 : Int), out)
        = Except.ok (((2 * m : Nat) : Int), out_data) :=
  ⟨_, synthesisInterleave_loop filter1 filter2 out m (by omega) (by omega) (by omega)
    (by omega)⟩

/-- C19 (index safety under the facade preconditions). On a two-band filter
with `N` six-word channel states and buffers that satisfy the `ChannelBuffer`
invariant, let the checks of `Analysis`/`Synthesis` pass (band counts agree,
channel counts agree, `num_frames = num_frames_per_band * num_bands`,
`num_frames = 320`). Every array access of the model is bounds-checked and an
access outside its array is a fault; then:

* if `two_bands_states_.size() == num_channels`, `Analysis` ends without fault,
  and for every channel index `i` of its loop the state record `i` exists, the
  320 samples of channel `i` are read, `WebRtcSpl_AnalysisQMF` on them with
  160-entry band arrays returns normally, and after every number `m ≤ 160` of
  iterations of its split loop the `int16_t` index `k` is exactly `2 * m`
  (at most 320, no wrap);
* if `num_channels <= two_bands_states_.size()`, `Synthesis` ends without
  fault, and for every channel index `i` of its loop `i` is below the number
  of state records, both 160-sample bands are read, `WebRtcSpl_SynthesisQMF`
  with a 320-entry output array returns normally, and after every number
  `m ≤ 160` of iterations of its interleaving loop `k` is exactly `2 * m`,
  the index of the second write of an iteration being `2 * m + 1`. -/
theorem C19_index_safety (E : Externals) (sf : SplittingFilter E)
    (data bands : ChannelBuffer E.Sample) (N : Nat) (hsf : sf.TwoBand N)
    (hdW : data.WellFormed) (hbW : bands.WellFormed)
    (hb2 : sf.num_bands_ = bands.num_bands)
    (hcc : data.num_channels = bands.num_channels)
    (hfr : data.num_frames = bands.num_frames_per_band * bands.num_bands)
    (h320 : data.num_frames = kTwoBandFilterSamplesPerFrame) :
    (sf.two_bands_states_.length = data.num_channels →
      (sf.Analysis data bands).fault = none ∧
      ∀ i, i < sf.two_bands_states_.length → ∃ st src r,
        rd sf.two_bands_states_ i = Except.ok st ∧
        data.readAt 0 i kTwoBandFilterSamplesPerFrame = Except.ok src ∧
        WebRtcSpl_AnalysisQMF (src.map E.FloatS16ToS16) data.num_frames
          (localArray kSamplesPerBand) (localArray kSamplesPerBand)
          st.analysis_state1 st.analysis_state2 = Except.ok r ∧
        ∀ m, m ≤ 160 → ∃ half_in1 half_in2,
          (List.range m).foldlM (analysisSplitStep (src.map E.FloatS16ToS16))
            ((0 : Int), localArray kMaxBandFrameLength, localArray kMaxBandFrameLength)
            = Except.ok (((2 * m : Nat) : Int), half_in1, half_in2)) ∧
    (data.num_channels ≤ sf.two_bands_states_.length →
      (sf.Synthesis bands data).fault = none ∧
      ∀ i, i < data.num_channels → i < sf.two_bands_states_.length ∧
        ∃ st src0 src1 r,
          rd sf.two_bands_states_ i = Except.ok st ∧
          bands.readAt 0 i kSamplesPerBand = Except.ok src0 ∧
          bands.readAt 1 i kSamplesPerBand = Except.ok src1 ∧
          WebRtcSpl_SynthesisQMF (src0.map E.FloatS16ToS16) (src1.map E.FloatS16ToS16)
            bands.num_frames_per_band (localArray kTwoBandFilterSamplesPerFrame)
            st.synthesis_state1 st.synthesis_state2 = Except.ok r ∧
          ∀ filter1 filter2 : List Int,
            filter1.length = kMaxBandFrameLength → filter2.length = kMaxBandFrameLength →
            ∀ m, m ≤ 160 →
              (∃ out_data,
                (List.range m).foldlM (synthesisInterleaveStep filter1 filter2)
                  ((0 : Int), localArray kTwoBandFilterSamplesPerFrame)
                  = Except.ok (((2 * m : Nat) : Int), out_data)) ∧
              wrap16 (((2 * m : Nat) : Int) + 1) = ((2 * m + 1 : Nat) : Int)) := by
  have hbb : bands.num_bands = 2 := by rw [← hb2]; exact hsf.1
  have hd : data.num_frames = 320 := h320
  have hb160 : bands.num_frames_per_band = 160 := by
    rw [hd, hbb] at hfr
    omega
  have hdc : ∀ ch ∈ data.data, ch.length = 320 := fun ch hch => by rw [hdW.2.2 ch hch, hd]
  have hbc : ∀ ch ∈ bands.data, ch.length = 320 := fun ch hch => by
    rw [hbW.2.2 ch hch, hbW.1, hbb, hb160]
  have hsl : sf.two_bands_states_.length = N := hsf.2.1
  constructor
  · intro hN
    rw [hsl] at hN
    refine ⟨?_, fun i hi => ?_⟩
    · rw [Analysis_eq E sf data bands N hsf hN.symm hd (by rw [hdW.2.1, hN]) hdc
        (by rw [← hcc, hN]) hbb hb160 (by rw [hbW.2.1, ← hcc, hN]) hbc]
    · have hiD : i < data.data.length := by rw [hdW.2.1, ← hN, ← hsl]; exact hi
      have hsrc : (data.data.getD i []).length = 320 := hdc _ (getD_mem_gen _ i [] hiD)
      have hst : (sf.two_bands_states_.getD i TwoBandsStates.zero).WellFormed :=
        hsf.2.2 _ (getD_mem_gen _ i _ hi)
      refine ⟨sf.two_bands_states_.getD i TwoBandsStates.zero, data.data.getD i [],
        channelAnalysis E (sf.two_bands_states_.getD i TwoBandsStates.zero)
          (data.data.getD i []),
        rd_getD_gen _ i TwoBandsStates.zero hi, ?_, ?_, ?_⟩
      · rw [readAt_ok data 0 i _ hiD
          (by rw [hsrc]; simp [kTwoBandFilterSamplesPerFrame]),
          take_drop_zero_of_length _ _ kTwoBandFilterSamplesPerFrame hsrc]
      · rw [hd]
        exact channelAnalysis_ok E _ _ hst hsrc
      · intro m hm
        exact analysisSplit_upto _ _ _ (by rw [List.length_map, hsrc])
          (by rw [localArray_length]; rfl) (by rw [localArray_length]; rfl) m hm
  · intro hN
    rw [hsl] at hN
    refine ⟨?_, fun i hi => ?_⟩
    · rw [Synthesis_eq E sf bands data N data.num_channels hsf hN rfl hd hdW.2.1 hdc
        hcc.symm hbb hb160 (by rw [hbW.2.1, ← hcc]) hbc]
    · have hiS : i < sf.two_bands_states_.length := by omega
      have hiB : i < bands.data.length := by rw [hbW.2.1, ← hcc]; exact hi
      have hsrc : (bands.data.getD i []).length = 320 := hbc _ (getD_mem_gen _ i [] hiB)
      have hst : (sf.two_bands_states_.getD i TwoBandsStates.zero).WellFormed :=
        hsf.2.2 _ (getD_mem_gen _ i _ hiS)
      refine ⟨hiS, sf.two_bands_states_.getD i TwoBandsStates.zero,
        (bands.data.getD i []).take kSamplesPerBand,
        ((bands.data.getD i []).drop kSamplesPerBand).take kSamplesPerBand,
        channelSynthesis E (sf.two_bands_states_.getD i TwoBandsStates.zero)
          (bands.data.getD i []),
        rd_getD_gen _ i TwoBandsStates.zero hiS, ?_, ?_, ?_, ?_⟩
      · rw [readAt_ok bands 0 i _ hiB (by rw [hsrc]; simp [kSamplesPerBand]),
          Nat.zero_mul, List.drop_zero]
      · rw [readAt_ok bands 1 i _ hiB (by rw [hsrc, hb160]; simp [kSamplesPerBand]),
          hb160, Nat.one_mul]
        rfl
      · rw [hb160]
        exact channelSynthesis_ok E _ _ hst hsrc
      · intro f1 f2 hf1 hf2 m hm
        refine ⟨synthesisInterleave_upto f1 f2 _ hf1 hf2
          (by rw [localArray_length]; rfl) m hm, ?_⟩
        unfold wrap16
        omega

/-- C19 on the two-channel demo filter and demo buffers. -/
theorem C19_index_safety_witness :
    (demoFilter.two_bands_states_.length = (demoData 2).num_channels →
      (demoFilter.Analysis (demoData 2) (demoBands 2)).fault = none ∧
      ∀ i, i < demoFilter.two_bands_states_.length → ∃ st src r,
        rd demoFilter.two_bands_states_ i = Except.ok st ∧
        (demoData 2).readAt 0 i kTwoBandFilterSamplesPerFrame = Except.ok src ∧
        WebRtcSpl_AnalysisQMF (src.map intExternals.FloatS16ToS16) (demoData 2).num_frames
          (localArray kSamplesPerBand) (localArray kSamplesPerBand)
          st.analysis_state1 st.analysis_state2 = Except.ok r ∧
        ∀ m, m ≤ 160 → ∃ half_in1 half_in2,
          (List.range m).foldlM (analysisSplitStep (src.map intExternals.FloatS16ToS16))
            ((0 : Int), localArray kMaxBandFrameLength, localArray kMaxBandFrameLength)
            = Except.ok (((2 * m : Nat) : Int), half_in1, half_in2)) ∧
    ((demoData 2).num_channels ≤ demoFilter.two_bands_states_.length →
      (demoFilter.Synthesis (demoBands 2) (demoData 2)).fault = none ∧
      ∀ i, i < (demoData 2).num_channels → i < demoFilter.two_bands_states_.length ∧
        ∃ st src0 src1 r,
          rd demoFilter.two_bands_states_ i = Except.ok st ∧
          (demoBands 2).readAt 0 i kSamplesPerBand = Except.ok src0 ∧
          (demoBands 2).readAt 1 i kSamplesPerBand = Except.ok src1 ∧
          WebRtcSpl_SynthesisQMF (src0.map intExternals.FloatS16ToS16)
            (src1.map intExternals.FloatS16ToS16)
            (demoBands 2).num_frames_per_band (localArray kTwoBandFilterSamplesPerFrame)
            st.synthesis_state1 st.synthesis_state2 = Except.ok r ∧
          ∀ filter1 filter2 : List Int,
            filter1.length = kMaxBandFrameLength → filter2.length = kMaxBandFrameLength →
            ∀ m, m ≤ 160 →
              (∃ out_data,
                (List.range m).foldlM (synthesisInterleaveStep filter1 filter2)
                  ((0 : Int), localArray kTwoBandFilterSamplesPerFrame)
                  = Except.ok (((2 * m : Nat) : Int), out_data)) ∧
              wrap16 (((2 * m : Nat) : Int) + 1) = ((2 * m + 1 : Nat) : Int)) :=
  C19_index_safety intExternals demoFilter (demoData 2) (demoBands 2) 2 demoFilter_TwoBand
    (demo_valid 2).1 (demo_valid 2).2.1 rfl rfl rfl rfl

/-! ## No wraparound in the analysis filter bank -/

theorem SubSat_exact (a b : Int) (h1 : -2147483648 ≤ a - b) (h2 : a - b ≤ 2147483647) :
    WebRtcSpl_SubSatW32 a b = a - b := by
  unfold WebRtcSpl_SubSatW32
  rw [if_neg (by omega), if_neg (by omega)]

/-- The exact value `v` of the scaled difference, before it is stored in an
`int32_t`: `65536 * v = 65536 * C + A * B - r` with `0 ≤ r < 65536`. -/
theorem scalediff_exact (A B C : Int) :
    ∃ r, 0 ≤ r ∧ r ≤ 65535 ∧
      65536 * (C + (B / 65536) * A + ((B % 65536) * A) / 65536) = 65536 * C + A * B - r := by
  refine ⟨((B % 65536) * A) % 65536, Int.emod_nonneg _ (by decide), ?_, ?_⟩
  · have := Int.emod_lt_of_pos ((B % 65536) * A) (show (0 : Int) < 65536 by decide)
    omega
  · have h1 : 65536 * (B / 65536) + B % 65536 = B := Int.ediv_add_emod B 65536
    have h2 : 65536 * (((B % 65536) * A) / 65536) + ((B % 65536) * A) % 65536
        = (B % 65536) * A := Int.ediv_add_emod _ 65536
    linear_combination A * h1 + h2

theorem stage_step_6418 (x xp yp : Int) (hx1 : -33554432 ≤ x) (hx2 : x ≤ 33554432)
    (h : StageInv 6418 33554432 40126465 2414375607243 xp yp) :
    StageInv 6418 33554432 40126465 2414375607243 x
      (WEBRTC_SPL_SCALEDIFF32 6418 (WebRtcSpl_SubSatW32 x yp) xp) := by
  unfold StageInv at h ⊢
  obtain ⟨_, _, hy1, hy2, hu1, hu2⟩ := h
  rw [SubSat_exact x yp (by omega) (by omega)]
  unfold WEBRTC_SPL_SCALEDIFF32
  obtain ⟨r, hr0, hr1, hv⟩ := scalediff_exact 6418 (x - yp) xp
  generalize xp + (x - yp) / 65536 * 6418 + (x - yp) % 65536 * 6418 / 65536 = v at hv ⊢
  have hb1 : -40126465 ≤ v := by omega
  have hb2 : v ≤ 40126465 := by omega
  rw [wrap32_of_isInt32 v ⟨by omega, by omega⟩]
  refine ⟨hx1, hx2, hb1, hb2, ?_, ?_⟩ <;> omega

theorem stage_step_36982 (x xp yp : Int) (hx1 : -40126465 ≤ x) (hx2 : x ≤ 40126465)
    (h : StageInv 36982 40126465 85413238 4113685023749 xp yp) :
    StageInv 36982 40126465 85413238 4113685023749 x
      (WEBRTC_SPL_SCALEDIFF32 36982 (WebRtcSpl_SubSatW32 x yp) xp) := by
  unfold StageInv at h ⊢
  obtain ⟨_, _, hy1, hy2, hu1, hu2⟩ := h
  rw [SubSat_exact x yp (by omega) (by omega)]
  unfold WEBRTC_SPL_SCALEDIFF32
  obtain ⟨r, hr0, hr1, hv⟩ := scalediff_exact 36982 (x - yp) xp
  generalize xp + (x - yp) / 65536 * 36982 + (x - yp) % 65536 * 36982 / 65536 = v at hv ⊢
  have hb1 : -85413238 ≤ v := by omega
  have hb2 : v ≤ 85413238 := by omega
  rw [wrap32_of_isInt32 v ⟨by omega, by omega⟩]
  refine ⟨hx1, hx2, hb1, hb2, ?_, ?_⟩ <;> omega

theorem stage_step_57261 (x xp yp : Int) (hx1 : -85413238 ≤ x) (hx2 : x ≤ 85413238)
    (h : StageInv 57261 85413238 234670064 10488489840173 xp yp) :
    StageInv 57261 85413238 234670064 10488489840173 x
      (WEBRTC_SPL_SCALEDIFF32 57261 (WebRtcSpl_SubSatW32 x yp) xp) := by
  unfold StageInv at h ⊢
  obtain ⟨_, _, hy1, hy2, hu1, hu2⟩ := h
  rw [SubSat_exact x yp (by omega) (by omega)]
  unfold WEBRTC_SPL_SCALEDIFF32
  obtain ⟨r, hr0, hr1, hv⟩ := scalediff_exact 57261 (x - yp) xp
  generalize xp + (x - yp) / 65536 * 57261 + (x - yp) % 65536 * 57261 / 65536 = v at hv ⊢
  have hb1 : -234670064 ≤ v := by omega
  have hb2 : v ≤ 234670064 := by omega
  rw [wrap32_of_isInt32 v ⟨by omega, by omega⟩]
  refine ⟨hx1, hx2, hb1, hb2, ?_, ?_⟩ <;> omega

theorem stage_step_21333 (x xp yp : Int) (hx1 : -33554432 ≤ x) (hx2 : x ≤ 33554432)
    (h : StageInv 21333 33554432 55399425 2914839985037 xp yp) :
    StageInv 21333 33554432 55399425 2914839985037 x
      (WEBRTC_SPL_SCALEDIFF32 21333 (WebRtcSpl_SubSatW32 x yp) xp) := by
  unfold StageInv at h ⊢
  obtain ⟨_, _, hy1, hy2, hu1, hu2⟩ := h
  rw [SubSat_exact x yp (by omega) (by omega)]
  unfold WEBRTC_SPL_SCALEDIFF32
  obtain ⟨r, hr0, hr1, hv⟩ := scalediff_exact 21333 (x - yp) xp
  generalize xp + (x - yp) / 65536 * 21333 + (x - yp) % 65536 * 21333 / 65536 = v at hv ⊢
  have hb1 : -55399425 ≤ v := by omega
  have hb2 : v ≤ 55399425 := by omega
  rw [wrap32_of_isInt32 v ⟨by omega, by omega⟩]
  refine ⟨hx1, hx2, hb1, hb2, ?_, ?_⟩ <;> omega

theorem stage_step_49062 (x xp yp : Int) (hx1 : -55399425 ≤ x) (hx2 : x ≤ 55399425)
    (h : StageInv 49062 55399425 138346407 6348663501323 xp yp) :
    StageInv 49062 55399425 138346407 6348663501323 x
      (WEBRTC_SPL_SCALEDIFF32 49062 (WebRtcSpl_SubSatW32 x yp) xp) := by
  unfold StageInv at h ⊢
  obtain ⟨_, _, hy1, hy2, hu1, hu2⟩ := h
  rw [SubSat_exact x yp (by omega) (by omega)]
  unfold WEBRTC_SPL_SCALEDIFF32
  obtain ⟨r, hr0, hr1, hv⟩ := scalediff_exact 49062 (x - yp) xp
  generalize xp + (x - yp) / 65536 * 49062 + (x - yp) % 65536 * 49062 / 65536 = v at hv ⊢
  have hb1 : -138346407 ≤ v := by omega
  have hb2 : v ≤ 138346407 := by omega
  rw [wrap32_of_isInt32 v ⟨by omega, by omega⟩]
  refine ⟨hx1, hx2, hb1, hb2, ?_, ?_⟩ <;> omega

theorem stage_step_63010 (x xp yp : Int) (hx1 : -138346407 ≤ x) (hx2 : x ≤ 138346407)
    (h : StageInv 63010 138346407 404374481 17783878868965 xp yp) :
    StageInv 63010 138346407 404374481 17783878868965 x
      (WEBRTC_SPL_SCALEDIFF32 63010 (WebRtcSpl_SubSatW32 x yp) xp) := by
  unfold StageInv at h ⊢
  obtain ⟨_, _, hy1, hy2, hu1, hu2⟩ := h
  rw [SubSat_exact x yp (by omega) (by omega)]
  unfold WEBRTC_SPL_SCALEDIFF32
  obtain ⟨r, hr0, hr1, hv⟩ := scalediff_exact 63010 (x - yp) xp
  generalize xp + (x - yp) / 65536 * 63010 + (x - yp) % 65536 * 63010 / 65536 = v at hv ⊢
  have hb1 : -404374481 ≤ v := by omega
  have hb2 : v ≤ 404374481 := by omega
  rw [wrap32_of_isInt32 v ⟨by omega, by omega⟩]
  refine ⟨hx1, hx2, hb1, hb2, ?_, ?_⟩ <;> omega

/-- A section whose single step keeps the bounds keeps them over a whole
sequence: every output is within `± B'` and the history left behind satisfies
the bounds again. -/
theorem allPassSection_inv (A B B' K : Int)
    (hstep : ∀ x xp yp, -B ≤ x → x ≤ B → StageInv A B B' K xp yp →
      StageInv A B B' K x (WEBRTC_SPL_SCALEDIFF32 A (WebRtcSpl_SubSatW32 x yp) xp)) :
    ∀ (xs : List Int) (xp yp : Int), StageInv A B B' K xp yp →
      (∀ x ∈ xs, -B ≤ x ∧ x ≤ B) →
      (∀ y ∈ allPassSection A xp yp xs, -B' ≤ y ∧ y ≤ B') ∧
      StageInv A B B' K (xs.getLastD xp) ((allPassSection A xp yp xs).getLastD yp)
  | [], xp, yp, h, _ => ⟨fun y hy => (by cases hy), h⟩
  | x :: xs, xp, yp, h, hx => by
    have hx0 := hx x (List.mem_cons_self _ _)
    have h1 := hstep x xp yp hx0.1 hx0.2 h
    have ih := allPassSection_inv A B B' K hstep xs x _ h1
      (fun v hv => hx v (List.mem_cons_of_mem _ hv))
    simp only [allPassSection]
    rw [List.getLastD_cons, List.getLastD_cons]
    refine ⟨?_, ih.2⟩
    intro y hy
    rcases List.mem_cons.mp hy with rfl | hy
    · exact ⟨h1.2.2.1, h1.2.2.2.1⟩
    · exact ih.1 y hy

theorem getLastD_eq_lastOf (xs : List Int) (d : Int) (h : xs ≠ []) :
    xs.getLastD d = lastOf xs := by
  unfold lastOf
  cases xs with
  | nil => exact absurd rfl h
  | cons x xs => rw [List.getLastD_cons, List.getLastD_cons]

/-- The cascade with coefficient set 1 keeps the bounds of its state block and
its outputs stay within `± 234670064`. -/
theorem cascade_inv1 (s X : List Int) (h : BlockInv1 s)
    (hX : ∀ x ∈ X, -33554432 ≤ x ∧ x ≤ 33554432) (hne : X ≠ []) :
    (∀ y ∈ cascadeStage3 WebRtcSpl_kAllPassFilter1 s X, -234670064 ≤ y ∧ y ≤ 234670064) ∧
    BlockInv1 (cascadeState WebRtcSpl_kAllPassFilter1 s X) := by
  obtain ⟨_, h1, h2, h3⟩ := h
  have a1 : (∀ y ∈ cascadeStage1 WebRtcSpl_kAllPassFilter1 s X, -40126465 ≤ y ∧ y ≤ 40126465) ∧
      StageInv 6418 33554432 40126465 2414375607243 (X.getLastD (s.getD 0 0))
        ((cascadeStage1 WebRtcSpl_kAllPassFilter1 s X).getLastD (s.getD 1 0)) :=
    allPassSection_inv 6418 33554432 40126465 2414375607243 stage_step_6418 X _ _ h1 hX
  have a2 : (∀ y ∈ cascadeStage2 WebRtcSpl_kAllPassFilter1 s X, -85413238 ≤ y ∧ y ≤ 85413238) ∧
      StageInv 36982 40126465 85413238 4113685023749
        ((cascadeStage1 WebRtcSpl_kAllPassFilter1 s X).getLastD (s.getD 2 0))
        ((cascadeStage2 WebRtcSpl_kAllPassFilter1 s X).getLastD (s.getD 3 0)) :=
    allPassSection_inv 36982 40126465 85413238 4113685023749 stage_step_36982 _ _ _ h2 a1.1
  have a3 : (∀ y ∈ cascadeStage3 WebRtcSpl_kAllPassFilter1 s X, -234670064 ≤ y ∧ y ≤ 234670064) ∧
      StageInv 57261 85413238 234670064 10488489840173
        ((cascadeStage2 WebRtcSpl_kAllPassFilter1 s X).getLastD (s.getD 4 0))
        ((cascadeStage3 WebRtcSpl_kAllPassFilter1 s X).getLastD (s.getD 5 0)) :=
    allPassSection_inv 57261 85413238 234670064 10488489840173 stage_step_57261 _ _ _ h3 a2.1
  have n1 : cascadeStage1 WebRtcSpl_kAllPassFilter1 s X ≠ [] := cascadeStage1_ne_nil _ _ _ hne
  have n2 : cascadeStage2 WebRtcSpl_kAllPassFilter1 s X ≠ [] := cascadeStage2_ne_nil _ _ _ hne
  have n3 : cascadeStage3 WebRtcSpl_kAllPassFilter1 s X ≠ [] := cascadeStage3_ne_nil _ _ _ hne
  refine ⟨a3.1, rfl, ?_, ?_, ?_⟩
  · have e := a1.2
    rw [getLastD_eq_lastOf _ _ hne, getLastD_eq_lastOf _ _ n1] at e
    exact e
  · have e := a2.2
    rw [getLastD_eq_lastOf _ _ n1, getLastD_eq_lastOf _ _ n2] at e
    exact e
  · have e := a3.2
    rw [getLastD_eq_lastOf _ _ n2, getLastD_eq_lastOf _ _ n3] at e
    exact e

/-- The cascade with coefficient set 2 keeps the bounds of its state block and
its outputs stay within `± 404374481`. -/
theorem cascade_inv2 (s X : List Int) (h : BlockInv2 s)
    (hX : ∀ x ∈ X, -33554432 ≤ x ∧ x ≤ 33554432) (hne : X ≠ []) :
    (∀ y ∈ cascadeStage3 WebRtcSpl_kAllPassFilter2 s X, -404374481 ≤ y ∧ y ≤ 404374481) ∧
    BlockInv2 (cascadeState WebRtcSpl_kAllPassFilter2 s X) := by
  obtain ⟨_, h1, h2, h3⟩ := h
  have a1 : (∀ y ∈ cascadeStage1 WebRtcSpl_kAllPassFilter2 s X, -55399425 ≤ y ∧ y ≤ 55399425) ∧
      StageInv 21333 33554432 55399425 2914839985037 (X.getLastD (s.getD 0 0))
        ((cascadeStage1 WebRtcSpl_kAllPassFilter2 s X).getLastD (s.getD 1 0)) :=
    allPassSection_inv 21333 33554432 55399425 2914839985037 stage_step_21333 X _ _ h1 hX
  have a2 : (∀ y ∈ cascadeStage2 WebRtcSpl_kAllPassFilter2 s X, -138346407 ≤ y ∧ y ≤ 138346407) ∧
      StageInv 49062 55399425 138346407 6348663501323
        ((cascadeStage1 WebRtcSpl_kAllPassFilter2 s X).getLastD (s.getD 2 0))
        ((cascadeStage2 WebRtcSpl_kAllPassFilter2 s X).getLastD (s.getD 3 0)) :=
    allPassSection_inv 49062 55399425 138346407 6348663501323 stage_step_49062 _ _ _ h2 a1.1
  have a3 : (∀ y ∈ cascadeStage3 WebRtcSpl_kAllPassFilter2 s X, -404374481 ≤ y ∧ y ≤ 404374481) ∧
      StageInv 63010 138346407 404374481 17783878868965
        ((cascadeStage2 WebRtcSpl_kAllPassFilter2 s X).getLastD (s.getD 4 0))
        ((cascadeStage3 WebRtcSpl_kAllPassFilter2 s X).getLastD (s.getD 5 0)) :=
    allPassSection_inv 63010 138346407 404374481 17783878868965 stage_step_63010 _ _ _ h3 a2.1
  have n1 : cascadeStage1 WebRtcSpl_kAllPassFilter2 s X ≠ [] := cascadeStage1_ne_nil _ _ _ hne
  have n2 : cascadeStage2 WebRtcSpl_kAllPassFilter2 s X ≠ [] := cascadeStage2_ne_nil _ _ _ hne
  have n3 : cascadeStage3 WebRtcSpl_kAllPassFilter2 s X ≠ [] := cascadeStage3_ne_nil _ _ _ hne
  refine ⟨a3.1, rfl, ?_, ?_, ?_⟩
  · have e := a1.2
    rw [getLastD_eq_lastOf _ _ hne, getLastD_eq_lastOf _ _ n1] at e
    exact e
  · have e := a2.2
    rw [getLastD_eq_lastOf _ _ n1, getLastD_eq_lastOf _ _ n2] at e
    exact e
  · have e := a3.2
    rw [getLastD_eq_lastOf _ _ n2, getLastD_eq_lastOf _ _ n3] at e
    exact e

/-- The Q10 streams of an `int16_t` frame stay within `± 2^25`. -/
theorem analysisHalfIn_bounds (x : List Int) (M : Nat) (hx : 2 * M ≤ x.length)
    (hx16 : ∀ v ∈ x, isInt16 v) :
    (∀ v ∈ analysisHalfIn1 x M, -33554432 ≤ v ∧ v ≤ 33554432) ∧
    (∀ v ∈ analysisHalfIn2 x M, -33554432 ≤ v ∧ v ≤ 33554432) := by
  rw [analysisHalfIn1_eq x M hx hx16, analysisHalfIn2_eq x M hx hx16]
  constructor
  · intro v hv
    obtain ⟨i, hi, rfl⟩ := List.mem_map.mp hv
    have := hx16 _ (getD_mem_of_lt x (2 * i + 1) (by have := List.mem_range.mp hi; omega))
    unfold isInt16 at this
    omega
  · intro v hv
    obtain ⟨i, hi, rfl⟩ := List.mem_map.mp hv
    have := hx16 _ (getD_mem_of_lt x (2 * i) (by have := List.mem_range.mp hi; omega))
    unfold isInt16 at this
    omega

theorem analysisHalfIn_ne_nil (x : List Int) (M : Nat) (hM1 : 1 ≤ M) :
    analysisHalfIn1 x M ≠ [] ∧ analysisHalfIn2 x M ≠ [] := by
  constructor
  · intro h
    have := congrArg List.length h
    simp [analysisHalfIn1] at this
    omega
  · intro h
    have := congrArg List.length h
    simp [analysisHalfIn2] at this
    omega

/-- Every reachable pair of analysis states satisfies the bounds. -/
theorem AnalysisReachable.inv {st1 st2 : List Int} (h : AnalysisReachable st1 st2) :
    BlockInv1 st1 ∧ BlockInv2 st2 := by
  induction h with
  | fresh =>
    unfold BlockInv1 BlockInv2 StageInv
    decide
  | frame st1 st2 x low high M r _ hM1 hM hx hx16 hl hh hr ih =>
    rw [WebRtcSpl_AnalysisQMF_eq x low high st1 st2 M hM1 hM (by omega) hl hh ih.1.1 ih.2.1]
      at hr
    cases hr
    have hb := analysisHalfIn_bounds x M (by omega) hx16
    have hn := analysisHalfIn_ne_nil x M hM1
    exact ⟨(cascade_inv1 st1 _ ih.1 hb.1 hn.1).2, (cascade_inv2 st2 _ ih.2 hb.2 hn.2).2⟩

theorem SatW32ToW16_eq_clamp (v : Int) :
    WebRtcSpl_SatW32ToW16 v = max (-32768) (min 32767 v) := by
  unfold WebRtcSpl_SatW32ToW16
  split_ifs <;> omega

/-- C13 (saturation, never wraparound). Let `(st1, st2)` be analysis states
reachable from the zero states by any finite sequence of calls of
`WebRtcSpl_AnalysisQMF` on frames of `2 * M` `int16_t` samples (`1 ≤ M ≤ 320`),
and let `x` be one more such frame. Then the call returns, and with `f1`, `f2`
the outputs of the two all-pass cascades on `1024 * x[2i+1]` (set 1, `st1`)
and `1024 * x[2i]` (set 2, `st2`), for every `i < M`: `|f1[i]| ≤ 234670064`,
`|f2[i]| ≤ 404374481`, so `f1[i] ± f2[i]` and `f1[i] ± f2[i] + 1024` lie in
the `int32_t` range (the 32-bit additions do not wrap), and
`low_band[i]`, `high_band[i]` are the clamps to `[-32768, 32767]` of the exact
integers `floor((f1[i] + f2[i] + 1024) / 2^11)` and
`floor((f1[i] - f2[i] + 1024) / 2^11)`. The states left by the call are
reachable again. -/
theorem C13_saturation_not_wraparound (st1 st2 : List Int) (hr : AnalysisReachable st1 st2)
    (x low high : List Int) (M : Nat) (hM1 : 1 ≤ M) (hM : M ≤ 320) (hx : x.length = 2 * M)
    (hx16 : ∀ v ∈ x, isInt16 v) (hl : M ≤ low.length) (hh : M ≤ high.length) :
    ∃ c1 c2 r,
      WebRtcSpl_AllPassQMF ((List.range M).map (fun i => 1024 * x.getD (2 * i + 1) 0)) M
          (localArray M) [6418, 36982, 57261] st1 = Except.ok c1 ∧
      WebRtcSpl_AllPassQMF ((List.range M).map (fun i => 1024 * x.getD (2 * i) 0)) M
          (localArray M) [21333, 49062, 63010] st2 = Except.ok c2 ∧
      WebRtcSpl_AnalysisQMF x (2 * M) low high st1 st2 = Except.ok r ∧
      AnalysisReachable r.filter_state1 r.filter_state2 ∧
      ∀ i, i < M →
        (-234670064 ≤ c1.out_data.getD i 0 ∧ c1.out_data.getD i 0 ≤ 234670064) ∧
        (-404374481 ≤ c2.out_data.getD i 0 ∧ c2.out_data.getD i 0 ≤ 404374481) ∧
        isInt32 (c1.out_data.getD i 0 + c2.out_data.getD i 0) ∧
        isInt32 (c1.out_data.getD i 0 + c2.out_data.getD i 0 + 1024) ∧
        isInt32 (c1.out_data.getD i 0 - c2.out_data.getD i 0) ∧
        isInt32 (c1.out_data.getD i 0 - c2.out_data.getD i 0 + 1024) ∧
        r.low_band[i]? = some (max (-32768) (min 32767
          ((c1.out_data.getD i 0 + c2.out_data.getD i 0 + 1024) / 2 ^ 11))) ∧
        r.high_band[i]? = some (max (-32768) (min 32767
          ((c1.out_data.getD i 0 - c2.out_data.getD i 0 + 1024) / 2 ^ 11))) := by
  have hinv := hr.inv
  have hs1 : st1.length = 6 := hinv.1.1
  have hs2 : st2.length = 6 := hinv.2.1
  have hX1 : (analysisHalfIn1 x M).length = M := by simp [analysisHalfIn1]
  have hX2 : (analysisHalfIn2 x M).length = M := by simp [analysisHalfIn2]
  have hF1 : (cascadeStage3 WebRtcSpl_kAllPassFilter1 st1 (analysisHalfIn1 x M)).length = M := by
    rw [cascadeStage3_length, hX1]
  have hF2 : (cascadeStage3 WebRtcSpl_kAllPassFilter2 st2 (analysisHalfIn2 x M)).length = M := by
    rw [cascadeStage3_length, hX2]
  have hb := analysisHalfIn_bounds x M (by omega) hx16
  have hn := analysisHalfIn_ne_nil x M hM1
  have hc1 := (cascade_inv1 st1 _ hinv.1 hb.1 hn.1).1
  have hc2 := (cascade_inv2 st2 _ hinv.2 hb.2 hn.2).1
  have hcall := WebRtcSpl_AnalysisQMF_eq x low high st1 st2 M hM1 hM (by omega) hl hh hs1 hs2
  refine ⟨{ in_data := cascadeStage2 WebRtcSpl_kAllPassFilter1 st1 (analysisHalfIn1 x M),
             out_data := cascadeStage3 WebRtcSpl_kAllPassFilter1 st1 (analysisHalfIn1 x M)
               ++ (localArray M).drop M,
             filter_state := cascadeState WebRtcSpl_kAllPassFilter1 st1 (analysisHalfIn1 x M) },
           { in_data := cascadeStage2 WebRtcSpl_kAllPassFilter2 st2 (analysisHalfIn2 x M),
             out_data := cascadeStage3 WebRtcSpl_kAllPassFilter2 st2 (analysisHalfIn2 x M)
               ++ (localArray M).drop M,
             filter_state := cascadeState WebRtcSpl_kAllPassFilter2 st2 (analysisHalfIn2 x M) },
           _, ?_, ?_, hcall, ?_, ?_⟩
  · rw [← analysisHalfIn1_eq x M (by omega) hx16]
    exact WebRtcSpl_AllPassQMF_exact _ _ WebRtcSpl_kAllPassFilter1 st1 M hM1 hX1
      (by rw [localArray_length]) rfl hs1 (by omega)
  · rw [← analysisHalfIn2_eq x M (by omega) hx16]
    exact WebRtcSpl_AllPassQMF_exact _ _ WebRtcSpl_kAllPassFilter2 st2 M hM1 hX2
      (by rw [localArray_length]) rfl hs2 (by omega)
  · exact AnalysisReachable.frame st1 st2 x low high M _ hr hM1 hM hx hx16 hl hh hcall
  · intro i hi
    have hlow := getElem?_map_range_append
      (fun i => lowSample
        ((cascadeStage3 WebRtcSpl_kAllPassFilter1 st1 (analysisHalfIn1 x M)).getD i 0)
        ((cascadeStage3 WebRtcSpl_kAllPassFilter2 st2 (analysisHalfIn2 x M)).getD i 0))
      (low.drop M) M i hi
    have hhigh := getElem?_map_range_append
      (fun i => highSample
        ((cascadeStage3 WebRtcSpl_kAllPassFilter1 st1 (analysisHalfIn1 x M)).getD i 0)
        ((cascadeStage3 WebRtcSpl_kAllPassFilter2 st2 (analysisHalfIn2 x M)).getD i 0))
      (high.drop M) M i hi
    have hf1 := hc1 _ (getD_mem_of_lt
      (cascadeStage3 WebRtcSpl_kAllPassFilter1 st1 (analysisHalfIn1 x M)) i
      (by rw [hF1]; exact hi))
    have hf2 := hc2 _ (getD_mem_of_lt
      (cascadeStage3 WebRtcSpl_kAllPassFilter2 st2 (analysisHalfIn2 x M)) i
      (by rw [hF2]; exact hi))
    simp only [] at hlow hhigh ⊢
    rw [getD_append_left _ _ i (by rw [hF1]; exact hi),
      getD_append_left _ _ i (by rw [hF2]; exact hi)]
    generalize (cascadeStage3 WebRtcSpl_kAllPassFilter1 st1 (analysisHalfIn1 x M)).getD i 0 = f1
      at hlow hhigh hf1 ⊢
    generalize (cascadeStage3 WebRtcSpl_kAllPassFilter2 st2 (analysisHalfIn2 x M)).getD i 0 = f2
      at hlow hhigh hf2 ⊢
    have i1 : isInt32 (f1 + f2) := ⟨by omega, by omega⟩
    have i2 : isInt32 (f1 + f2 + 1024) := ⟨by omega, by omega⟩
    have i3 : isInt32 (f1 - f2) := ⟨by omega, by omega⟩
    have i4 : isInt32 (f1 - f2 + 1024) := ⟨by omega, by omega⟩
    refine ⟨hf1, hf2, i1, i2, i3, i4, ?_, ?_⟩
    · rw [hlow, lowSample, add32_add32, wrap32_of_isInt32 _ i2, SatW32ToW16_eq_clamp]
      rfl
    · rw [hhigh, highSample, add32_sub32, wrap32_of_isInt32 _ i4, SatW32ToW16_eq_clamp]
      rfl

/-- C13 at the full-scale alternating frame `[32767, -32768, 32767, -32768]`
on a fresh channel. -/
theorem C13_saturation_not_wraparound_witness :
    ∃ c1 c2 r,
      WebRtcSpl_AllPassQMF
          ((List.range 2).map
            (fun i => 1024 * [32767, -32768, 32767, -32768].getD (2 * i + 1) 0)) 2
          (localArray 2) [6418, 36982, 57261] [0, 0, 0, 0, 0, 0] = Except.ok c1 ∧
      WebRtcSpl_AllPassQMF
          ((List.range 2).map
            (fun i => 1024 * [32767, -32768, 32767, -32768].getD (2 * i) 0)) 2
          (localArray 2) [21333, 49062, 63010] [0, 0, 0, 0, 0, 0] = Except.ok c2 ∧
      WebRtcSpl_AnalysisQMF [32767, -32768, 32767, -32768] (2 * 2) [0, 0] [0, 0]
          [0, 0, 0, 0, 0, 0] [0, 0, 0, 0, 0, 0] = Except.ok r ∧
      AnalysisReachable r.filter_state1 r.filter_state2 ∧
      ∀ i, i < 2 →
        (-234670064 ≤ c1.out_data.getD i 0 ∧ c1.out_data.getD i 0 ≤ 234670064) ∧
        (-404374481 ≤ c2.out_data.getD i 0 ∧ c2.out_data.getD i 0 ≤ 404374481) ∧
        isInt32 (c1.out_data.getD i 0 + c2.out_data.getD i 0) ∧
        isInt32 (c1.out_data.getD i 0 + c2.out_data.getD i 0 + 1024) ∧
        isInt32 (c1.out_data.getD i 0 - c2.out_data.getD i 0) ∧
        isInt32 (c1.out_data.getD i 0 - c2.out_data.getD i 0 + 1024) ∧
        r.low_band[i]? = some (max (-32768) (min 32767
          ((c1.out_data.getD i 0 + c2.out_data.getD i 0 + 1024) / 2 ^ 11))) ∧
        r.high_band[i]? = some (max (-32768) (min 32767
          ((c1.out_data.getD i 0 - c2.out_data.getD i 0 + 1024) / 2 ^ 11))) :=
  C13_saturation_not_wraparound [0, 0, 0, 0, 0, 0] [0, 0, 0, 0, 0, 0] AnalysisReachable.fresh
    [32767, -32768, 32767, -32768] [0, 0] [0, 0] 2 (by decide) (by decide) rfl (by decide)
    (by decide) (by decide)

/-! ## Writing a WAV file -/

theorem fwriteBytes_fwriteBytes (a b : List Nat) (f : File) :
    fwriteBytes a (fwriteBytes b f) = fwriteBytes (b ++ a) f := by
  unfold fwriteBytes
  simp only [List.length_append, List.length_take, List.length_replicate, List.length_drop]
  have hpre : (List.take f.pos f.bytes ++ List.replicate (f.pos - f.bytes.length) 0).length
      = f.pos := by
    simp only [List.length_append, List.length_take, List.length_replicate]
    omega
  congr 1
  · generalize hP : List.take f.pos f.bytes ++ List.replicate (f.pos - f.bytes.length) 0 = P
      at hpre
    have e1 : List.take (f.pos + b.length) (P ++ b ++ List.drop (f.pos + b.length) f.bytes)
        = P ++ b := by
      rw [List.take_append_of_le_length (by simp [hpre])]
      rw [List.take_of_length_le (by simp [hpre])]
    have e2 : List.drop (f.pos + b.length + a.length)
        (P ++ b ++ List.drop (f.pos + b.length) f.bytes)
        = List.drop (f.pos + (b.length + a.length)) f.bytes := by
      have hl : (P ++ b).length = f.pos + b.length := by simp [hpre]
      rw [show f.pos + b.length + a.length = (P ++ b).length + a.length by rw [hl],
        List.drop_append, List.drop_drop]
      congr 1
      omega
    have e3 : f.pos + b.length - (min f.pos f.bytes.length + (f.pos - f.bytes.length)
        + b.length + (f.bytes.length - (f.pos + b.length))) = 0 := by omega
    rw [e1, e2, e3]
    simp
  · omega

theorem fwriteBytes_at_end (bs B : List Nat) :
    fwriteBytes bs { bytes := B, pos := B.length } = { bytes := B ++ bs, pos := B.length + bs.length } := by
  unfold fwriteBytes
  simp

theorem fwriteBytes_at_start (bs old rest : List Nat) (h : old.length = bs.length) :
    fwriteBytes bs { bytes := old ++ rest, pos := 0 } = { bytes := bs ++ rest, pos := bs.length } := by
  unfold fwriteBytes
  simp [← h]

theorem writeInt32_eq (v : Int) (f : File) :
    WavWriter.writeInt32 v f = fwriteBytes (bytesLE32 v) f := by
  unfold WavWriter.writeInt32 fputc
  rw [fwriteBytes_fwriteBytes, fwriteBytes_fwriteBytes, fwriteBytes_fwriteBytes]
  congr 1
  unfold bytesLE32 sar
  simp only [List.cons_append, List.nil_append]
  have e0 : (v / 2 ^ 0 % 256 % 256) = v % 256 := by omega
  have e1 : (v / 2 ^ 8 % 256 % 256) = v / 256 % 256 := by omega
  have e2 : (v / 2 ^ 16 % 256 % 256) = v / 65536 % 256 := by omega
  have e3 : (v / 2 ^ 24 % 256 % 256) = v / 16777216 % 256 := by omega
  rw [e0, e1, e2, e3]

theorem writeInt16_eq (v : Int) (f : File) :
    WavWriter.writeInt16 v f = fwriteBytes (shortBytes v) f := by
  unfold WavWriter.writeInt16 fputc
  rw [fwriteBytes_fwriteBytes]
  congr 1
  unfold shortBytes sar
  simp only [List.cons_append, List.nil_append]
  have e0 : (v / 2 ^ 0 % 256 % 256) = v % 256 := by omega
  have e1 : (v / 2 ^ 8 % 256 % 256) = v / 256 % 256 := by omega
  rw [e0, e1]

theorem writeString_eq (a b c d : Nat) (ha : a < 256) (hb : b < 256) (hc : c < 256)
    (hd : d < 256) (f : File) :
    WavWriter.writeString [a, b, c, d] f = fwriteBytes [a, b, c, d] f := by
  unfold WavWriter.writeString fputc
  rw [fwriteBytes_fwriteBytes, fwriteBytes_fwriteBytes, fwriteBytes_fwriteBytes]
  congr 1
  simp only [List.cons_append, List.nil_append, List.getD_cons_zero, List.getD_cons_succ]
  have e : ∀ n : Nat, n < 256 → (((n : Int)) % 256).toNat = n := by
    intro n hn
    omega
  rw [e a ha, e b hb, e c hc, e d hd]

/-- `writeHeader` writes the 44 header bytes at the position. -/
theorem writeHeader_eq (w : WavWriter) (len : Int) (f : File) :
    w.writeHeader len f
      = fwriteBytes (wavHeader w.m_nFormatTag w.m_nChannels w.m_nSampleRate
          w.m_nBitsPerSamples len) f := by
  unfold WavWriter.writeHeader
  simp only [writeInt32_eq, writeInt16_eq,
    writeString_eq 82 73 70 70 (by decide) (by decide) (by decide) (by decide),
    writeString_eq 87 65 86 69 (by decide) (by decide) (by decide) (by decide),
    writeString_eq 102 109 116 32 (by decide) (by decide) (by decide) (by decide),
    writeString_eq 100 97 116 97 (by decide) (by decide) (by decide) (by decide),
    fwriteBytes_fwriteBytes]
  rfl

theorem wavHeader_length (tag ch rate bits len : Int) :
    (wavHeader tag ch rate bits len).length = 44 := rfl

theorem WavWriter.Open_eq (w : WavWriter) (r c bits tag : Int) :
    w.Open r c bits tag
      = (true, (WavWriter.mk (some (File.mk (wavHeader tag c r bits 0) (44))) (0) r bits c tag)) := by
  unfold WavWriter.Open
  simp only [writeHeader_eq]
  have h := fwriteBytes_at_end (wavHeader tag c r bits 0) []
  simp only [List.length_nil, List.nil_append, Nat.zero_add, wavHeader_length] at h
  rw [h]

theorem flatMap_shortBytes_length (d : List Int) :
    (d.flatMap shortBytes).length = 2 * d.length := by
  induction d with
  | nil => rfl
  | cons x xs ih =>
    rw [List.flatMap_cons, List.length_append, ih, List.length_cons]
    simp only [shortBytes, List.length_cons, List.length_nil]
    omega

/-- A `Write(short*)` call at the end of the file appends the bytes of the
samples and adds twice their number to the data length. -/
theorem WavWriter.Write_eq (B : List Nat) (L r c : Int) (d : List Int)
    (hL : 0 ≤ L) (hd : L + 2 * (d.length : Int) ≤ 2147483647) :
    WavWriter.Write (WavWriter.mk (some (File.mk (B) (B.length))) (L) r 16 c FormatTag_PCM) d d.length
      = Except.ok { m_pFile := some { bytes := B ++ d.flatMap shortBytes,
                                      pos := (B ++ d.flatMap shortBytes).length },
                    m_nDataLen := L + 2 * (d.length : Int), m_nSampleRate := r,
                    m_nBitsPerSamples := 16, m_nChannels := c,
                    m_nFormatTag := FormatTag_PCM } := by
  unfold WavWriter.Write
  have d1 : dcheckThat (decide ((some { bytes := B, pos := B.length } : Option File) ≠ none))
      = Except.ok () := by
    rw [decide_eq_true (by simp)]
    rfl
  have d2 : dcheckThat (decide ((16 : Int) = 16)) = Except.ok () := rfl
  have d3 : dcheckThat (decide (FormatTag_PCM = FormatTag_PCM)) = Except.ok () := rfl
  simp only [d1, d2, d3, ok_bind]
  rw [if_neg (by omega)]
  have e1 : wrap32 (L + wrap32 ((d.length : Int) * 2)) = L + 2 * (d.length : Int) := by
    unfold wrap32
    omega
  rw [e1, Int.toNat_natCast, List.take_of_length_le (Nat.le_refl _), fwriteBytes_at_end]
  simp only [List.length_append]
  rfl

theorem WavWriter.writeAll_eq (r c : Int) :
    ∀ (chunks : List (List Int)) (B : List Nat) (L : Int), 0 ≤ L →
      L + 2 * (((chunks.map List.length).sum : Nat) : Int) ≤ 2147483647 →
      WavWriter.writeAll (WavWriter.mk (some (File.mk (B) (B.length))) (L) r 16 c FormatTag_PCM) chunks
        = Except.ok
            { m_pFile := some
                { bytes := B ++ chunks.flatMap (fun d => d.flatMap shortBytes),
                  pos := (B ++ chunks.flatMap (fun d => d.flatMap shortBytes)).length },
              m_nDataLen := L + 2 * (((chunks.map List.length).sum : Nat) : Int),
              m_nSampleRate := r, m_nBitsPerSamples := 16, m_nChannels := c,
              m_nFormatTag := FormatTag_PCM }
  | [], B, L, _, _ => by
    simp [WavWriter.writeAll]
  | d :: rest, B, L, hL, hd => by
    have hs : (((d :: rest).map List.length).sum : Nat)
        = d.length + (rest.map List.length).sum := by simp
    rw [hs, Nat.cast_add] at hd ⊢
    unfold WavWriter.writeAll
    rw [WavWriter.Write_eq B L r c d hL (by omega), ok_bind,
      WavWriter.writeAll_eq r c rest _ _ (by omega) (by omega)]
    simp only [List.flatMap_cons, List.append_assoc]
    congr 2
    omega

theorem WavWriter.Close_eq (H data : List Nat) (p : Nat) (L r c bits tag : Int)
    (hH : H.length = 44) :
    WavWriter.Close (WavWriter.mk (some (File.mk (H ++ data) (p))) (L) r bits c tag)
      = ((WavWriter.mk none (L) r bits c tag),
         some (wavHeader tag c r bits L ++ data)) := by
  unfold WavWriter.Close
  simp only [writeHeader_eq]
  rw [fwriteBytes_at_start _ H data (by rw [hH, wavHeader_length])]

/-- The bytes of the file that `Open`, a sequence of `Write(short*)` calls and
`Close` leave: the header for the data length `2 * n` followed by the samples,
`n` being the number of samples written, `2 * n < 2^31`. -/
theorem WavWriter.session_eq (r c : Int) (chunks : List (List Int))
    (hn : 2 * (((chunks.map List.length).sum : Nat) : Int) ≤ 2147483647) :
    ∃ w, (WavWriter.new.Open r c 16 FormatTag_PCM).2.writeAll chunks = Except.ok w ∧
      w.Close.2 = some (wavHeader FormatTag_PCM c r 16
          (2 * (((chunks.map List.length).sum : Nat) : Int))
        ++ chunks.flatMap (fun d => d.flatMap shortBytes)) := by
  rw [WavWriter.Open_eq]
  have h := WavWriter.writeAll_eq r c chunks (wavHeader FormatTag_PCM c r 16 0) 0
    (Int.le_refl 0) (by omega)
  rw [wavHeader_length] at h
  refine ⟨_, h, ?_⟩
  rw [WavWriter.Close_eq _ _ _ _ _ _ _ _ (wavHeader_length _ _ _ _ _)]
  simp

/-! ## Reading a WAV header -/

/-- A read that stays inside the first part `H` of the file returns the bytes
of `H` at the position. -/
theorem freadBytes_header (H data : List Nat) (p k : Nat) (h : p + k ≤ H.length) :
    freadBytes k (File.mk (H ++ data) p)
      = ((H.drop p).take k, File.mk (H ++ data) (p + k)) := by
  unfold freadBytes
  refine Prod.ext ?_ ?_
  · apply List.ext_getElem
    · simp only [List.length_map, List.length_range, List.length_take, List.length_drop]
      omega
    · intro i h1 h2
      simp only [List.length_map, List.length_range] at h1
      simp only [List.getElem_map, List.getElem_range, List.getElem_take, List.getElem_drop]
      rw [List.getD_eq_getElem?_getD, List.getElem?_append_left (by omega),
        List.getElem?_eq_getElem (by omega)]
      rfl
  · simp only [List.length_append]
    congr 1
    omega

theorem readString_header (H data : List Nat) (p b0 b1 b2 b3 : Nat) (h : p + 4 ≤ H.length)
    (hb : (H.drop p).take 4 = [b0, b1, b2, b3]) :
    WavReader.readString (File.mk (H ++ data) p)
      = ((b0 : Int) * 16777216 + (b1 : Int) * 65536 + (b2 : Int) * 256 + (b3 : Int),
         File.mk (H ++ data) (p + 4)) := by
  unfold WavReader.readString
  rw [freadBytes_header H data p 4 h, hb]
  rfl

theorem readInt32_header (H data : List Nat) (p : Nat) (v : Int) (h : p + 4 ≤ H.length)
    (hb : (H.drop p).take 4 = bytesLE32 v) :
    WavReader.readInt32 (File.mk (H ++ data) p) = (wrap32 v, File.mk (H ++ data) (p + 4)) := by
  unfold WavReader.readInt32
  rw [freadBytes_header H data p 4 h, hb]
  refine Prod.ext ?_ rfl
  simp only [bytesLE32, List.getD_cons_zero, List.getD_cons_succ]
  unfold wrap32
  omega

theorem readInt16_header (H data : List Nat) (p : Nat) (v : Int) (h : p + 2 ≤ H.length)
    (hb : (H.drop p).take 2 = shortBytes v) :
    WavReader.readInt16 (File.mk (H ++ data) p) = (wrap16 v, File.mk (H ++ data) (p + 2)) := by
  unfold WavReader.readInt16
  rw [freadBytes_header H data p 2 h, hb]
  refine Prod.ext ?_ rfl
  simp only [shortBytes, List.getD_cons_zero, List.getD_cons_succ]
  unfold wrap16
  omega

theorem findData_hit (n : Nat) (f f2 : File) (hn : n ≠ 0)
    (h : WavReader.readString f = (((MakeFourCc 100 97 116 97 : Nat) : Int), f2)) :
    WavReader.findData n f = Except.ok f2 := by
  cases n with
  | zero => exact absurd rfl hn
  | succ k =>
    unfold WavReader.findData
    simp only [h]
    rw [if_pos True.intro]

/-- The 44 header bytes, one by one. -/
theorem wavHeader_fields (tag ch rate bits len : Int) :
    ∃ riff avg align : Int,
      riff = wrap32 (4 + 8 + 16 + 8 + len) ∧
      wavHeader tag ch rate bits len =
        [82, 73, 70, 70, (riff % 256).toNat, (riff / 256 % 256).toNat,
         (riff / 65536 % 256).toNat, (riff / 16777216 % 256).toNat, 87, 65, 86, 69, 102, 109,
         116, 32, 16, 0, 0, 0, (tag % 256).toNat, (tag / 256 % 256).toNat,
         (ch % 256).toNat, (ch / 256 % 256).toNat, (rate % 256).toNat,
         (rate / 256 % 256).toNat, (rate / 65536 % 256).toNat, (rate / 16777216 % 256).toNat,
         (avg % 256).toNat, (avg / 256 % 256).toNat, (avg / 65536 % 256).toNat,
         (avg / 16777216 % 256).toNat, (align % 256).toNat, (align / 256 % 256).toNat,
         (bits % 256).toNat, (bits / 256 % 256).toNat, 100, 97, 116, 97, (len % 256).toNat,
         (len / 256 % 256).toNat, (len / 65536 % 256).toNat, (len / 16777216 % 256).toNat] :=
  ⟨_, _, _, rfl, rfl⟩

theorem WavReader.Open_session (c r len : Int) (data : List Nat)
    (hc : 0 ≤ c ∧ c < 32768) (hr : 0 ≤ r ∧ r < 2147483648)
    (hlen : 0 ≤ len ∧ len < 2147483648) (hsize : 44 + data.length < 2147483648) :
    ∃ rd, WavReader.new.Open (wavHeader 1 c r 16 len ++ data) = Except.ok (true, rd) ∧
      rd.m_pFile = some (File.mk (wavHeader 1 c r 16 len ++ data) 44) ∧
      rd.m_nStart = 44 ∧ rd.m_nFormatTag = 1 ∧ rd.m_nChannels = c ∧
      rd.m_nSampleRate = r ∧ rd.m_nBitsPerSample = 16 ∧ rd.m_nLength = len / 2 := by
  obtain ⟨riff, avg, align, _, hH⟩ := wavHeader_fields 1 c r 16 len
  generalize wavHeader 1 c r 16 len = H at hH
  have hHl : H.length = 44 := by rw [hH]; rfl
  have hT : wrap32 (((H ++ data).length : Nat) : Int) = 44 + (data.length : Int) := by
    rw [List.length_append, hHl]
    unfold wrap32
    omega
  have e0 := readString_header H data 0 82 73 70 70 (by omega) (by rw [hH]; rfl)
  have e4 := readInt32_header H data 4 riff (by omega) (by rw [hH]; rfl)
  have e8 := readString_header H data 8 87 65 86 69 (by omega) (by rw [hH]; rfl)
  have e16 := readInt32_header H data 16 16 (by omega) (by rw [hH]; rfl)
  have e20 := readInt16_header H data 20 1 (by omega) (by rw [hH]; rfl)
  have e22 := readInt16_header H data 22 c (by omega) (by rw [hH]; rfl)
  have e24 := readInt32_header H data 24 r (by omega) (by rw [hH]; rfl)
  have e28 := readInt32_header H data 28 avg (by omega) (by rw [hH]; rfl)
  have e32 := readInt16_header H data 32 align (by omega) (by rw [hH]; rfl)
  have e34 := readInt16_header H data 34 16 (by omega) (by rw [hH]; rfl)
  have e36 := readString_header H data 36 100 97 116 97 (by omega) (by rw [hH]; rfl)
  have e40 := readInt32_header H data 40 len (by omega) (by rw [hH]; rfl)
  have hfd : WavReader.findData (44 + (data.length : Int)).toNat (File.mk (H ++ data) 36)
      = Except.ok (File.mk (H ++ data) 40) :=
    findData_hit _ _ _ (by omega) e36
  have d1 : dcheckThat (decide ((0 : Int) ≠ 44 + (data.length : Int))) = Except.ok () := by
    rw [decide_eq_true (by omega)]
    rfl
  clear hH
  simp only [WavReader.Open, WavReader.new, hT, d1, ok_bind, e0, e4, e8, e16, e20, e22, e24,
    e28, e32, e34, hfd, e40]
  have c1 : ((MakeFourCc 82 73 70 70 : Nat) : Int)
      = ((82 : Nat) : Int) * 16777216 + ((73 : Nat) : Int) * 65536 + ((70 : Nat) : Int) * 256
        + ((70 : Nat) : Int) := by decide
  have c2 : ((MakeFourCc 87 65 86 69 : Nat) : Int)
      = ((87 : Nat) : Int) * 16777216 + ((65 : Nat) : Int) * 65536 + ((86 : Nat) : Int) * 256
        + ((69 : Nat) : Int) := by decide
  have c3 : wrap16 16 % 65536 / 8 = 2 := by decide
  rw [if_neg (not_not.mpr c1), if_neg (not_not.mpr c2), c3, if_neg (by decide)]
  have hl : wrap32 len = len := wrap32_of_isInt32 len ⟨by omega, by omega⟩
  refine ⟨_, rfl, rfl, ?_, ?_, ?_, ?_, ?_, ?_⟩
  · show (((40 + 4 : Nat) : Int)) % 4294967296 = 44
    decide
  · show wrap16 1 % 65536 = 1
    decide
  · show wrap16 c % 65536 = c
    unfold wrap16
    omega
  · show wrap32 r % 4294967296 = r
    unfold wrap32
    omega
  · show wrap16 16 % 65536 = 16
    decide
  · show (wrap32 len).tdiv 2 % 4294967296 = len / 2
    rw [hl, Int.tdiv_eq_ediv hlen.1 (by decide)]
    omega

/-- On a file of `2^31` bytes or more `int nTotal` is negative, the search for
the `data` tag is skipped and the length is read from the tag itself. -/
theorem WavReader.Open_large (c r len : Int) (data : List Nat)
    (hsize : 2147483648 ≤ 44 + data.length ∧ 44 + data.length < 4294967296) :
    ∃ rd, WavReader.new.Open (wavHeader 1 c r 16 len ++ data) = Except.ok (true, rd) ∧
      rd.m_pFile = some (File.mk (wavHeader 1 c r 16 len ++ data) 40) ∧
      rd.m_nStart = 40 ∧ rd.m_nLength = 817508530 := by
  obtain ⟨riff, avg, align, _, hH⟩ := wavHeader_fields 1 c r 16 len
  generalize wavHeader 1 c r 16 len = H at hH
  have hHl : H.length = 44 := by rw [hH]; rfl
  have hT : wrap32 (((H ++ data).length : Nat) : Int)
      = 44 + (data.length : Int) - 4294967296 := by
    rw [List.length_append, hHl]
    unfold wrap32
    omega
  have e0 := readString_header H data 0 82 73 70 70 (by omega) (by rw [hH]; rfl)
  have e4 := readInt32_header H data 4 riff (by omega) (by rw [hH]; rfl)
  have e8 := readString_header H data 8 87 65 86 69 (by omega) (by rw [hH]; rfl)
  have e16 := readInt32_header H data 16 16 (by omega) (by rw [hH]; rfl)
  have e20 := readInt16_header H data 20 1 (by omega) (by rw [hH]; rfl)
  have e22 := readInt16_header H data 22 c (by omega) (by rw [hH]; rfl)
  have e24 := readInt32_header H data 24 r (by omega) (by rw [hH]; rfl)
  have e28 := readInt32_header H data 28 avg (by omega) (by rw [hH]; rfl)
  have e32 := readInt16_header H data 32 align (by omega) (by rw [hH]; rfl)
  have e34 := readInt16_header H data 34 16 (by omega) (by rw [hH]; rfl)
  have e36 := readInt32_header H data 36 1635017060 (by omega) (by rw [hH]; rfl)
  have hz : (44 + (data.length : Int) - 4294967296).toNat = 0 := by omega
  have hfd : WavReader.findData 0 (File.mk (H ++ data) 36)
      = Except.ok (File.mk (H ++ data) 36) := rfl
  have d1 : dcheckThat (decide ((0 : Int) ≠ 44 + (data.length : Int) - 4294967296))
      = Except.ok () := by
    rw [decide_eq_true (by omega)]
    rfl
  clear hH
  simp only [WavReader.Open, WavReader.new, hT, d1, ok_bind, e0, e4, e8, e16, e20, e22, e24,
    e28, e32, e34, hz, hfd, e36]
  have c1 : ((MakeFourCc 82 73 70 70 : Nat) : Int)
      = ((82 : Nat) : Int) * 16777216 + ((73 : Nat) : Int) * 65536 + ((70 : Nat) : Int) * 256
        + ((70 : Nat) : Int) := by decide
  have c2 : ((MakeFourCc 87 65 86 69 : Nat) : Int)
      = ((87 : Nat) : Int) * 16777216 + ((65 : Nat) : Int) * 65536 + ((86 : Nat) : Int) * 256
        + ((69 : Nat) : Int) := by decide
  have c3 : wrap16 16 % 65536 / 8 = 2 := by decide
  rw [if_neg (not_not.mpr c1), if_neg (not_not.mpr c2), c3, if_neg (by decide)]
  refine ⟨_, rfl, rfl, ?_, ?_⟩
  · show (((36 + 4 : Nat) : Int)) % 4294967296 = 40
    decide
  · show (wrap32 1635017060).tdiv 2 % 4294967296 = 817508530
    decide

theorem flatMap_flatMap_shortBytes_length (chunks : List (List Int)) :
    (chunks.flatMap (fun d => d.flatMap shortBytes)).length
      = 2 * (chunks.map List.length).sum := by
  induction chunks with
  | nil => rfl
  | cons d rest ih =>
    rw [List.flatMap_cons, List.length_append, ih, flatMap_shortBytes_length,
      List.map_cons, List.sum_cons]
    omega

theorem wavHeader_size_fields (tag ch rate bits len : Int) (data : List Nat)
    (hlen : 0 ≤ len ∧ len + 36 < 2147483648) :
    ((fieldLE32 (wavHeader tag ch rate bits len ++ data) 4 : Nat) : Int) = 36 + len ∧
    ((fieldLE32 (wavHeader tag ch rate bits len ++ data) 40 : Nat) : Int) = len := by
  obtain ⟨riff, avg, align, hr, hH⟩ := wavHeader_fields tag ch rate bits len
  rw [hH]
  have hr2 : riff = 36 + len := by
    rw [hr]
    unfold wrap32
    omega
  unfold fieldLE32
  simp only [List.cons_append, List.getD_cons_zero, List.getD_cons_succ]
  constructor <;> omega

/-- C20, amended (WAV header round trip). For every sample rate `r` in
`[0, 2^31)`, channel count `c` in `[0, 2^15)` and sequence of `Write(short*)`
calls that write `n` samples in total with `44 + 2 * n < 2^31` (the file size
fits the `int` that `WavReader::Open` keeps it in): `WavWriter` (`Open` with
`r`, `c`, 16 bits, `FormatTag_PCM`; the `Write` calls; `Close`) leaves a file
of `44 + 2 * n` bytes that starts with the 44-byte header whose RIFF size
field is `36 + 2 * n` and whose data size field is `2 * n`, and
`WavReader::Open` on it returns `true` and reports `FormatTag = 1`,
`Channels = c`, `SampleRate = r`, `BitsPerSample = 16`, `Length = n`, with
the read position and `m_nStart` at byte 44. -/
theorem C20_wav_header_round_trip (r c : Int) (chunks : List (List Int)) (n : Nat)
    (hr : 0 ≤ r ∧ r < 2147483648) (hc : 0 ≤ c ∧ c < 32768)
    (hn : n = (chunks.map List.length).sum) (hsize : 44 + 2 * n < 2147483648) :
    ∃ w bytes rd,
      (WavWriter.new.Open r c 16 FormatTag_PCM).1 = true ∧
      (WavWriter.new.Open r c 16 FormatTag_PCM).2.writeAll chunks = Except.ok w ∧
      w.Close.2 = some bytes ∧
      bytes.length = 44 + 2 * n ∧
      bytes.take 44 = wavHeader FormatTag_PCM c r 16 (2 * (n : Int)) ∧
      fieldLE32 bytes 4 = 36 + 2 * n ∧ fieldLE32 bytes 40 = 2 * n ∧
      WavReader.new.Open bytes = Except.ok (true, rd) ∧
      rd.m_nFormatTag = 1 ∧ rd.m_nChannels = c ∧ rd.m_nSampleRate = r ∧
      rd.m_nBitsPerSample = 16 ∧ rd.m_nLength = n ∧
      rd.m_pFile = some (File.mk bytes 44) ∧ rd.m_nStart = 44 := by
  subst hn
  obtain ⟨w, hw, hclose⟩ := WavWriter.session_eq r c chunks (by omega)
  have hdl := flatMap_flatMap_shortBytes_length chunks
  obtain ⟨rd, hopen, hfile, hstart, htag, hch, hrate, hbits, hlength⟩ :=
    WavReader.Open_session c r (2 * (((chunks.map List.length).sum : Nat) : Int))
      (chunks.flatMap (fun d => d.flatMap shortBytes)) hc hr (by omega) (by omega)
  have hf := wavHeader_size_fields FormatTag_PCM c r 16
    (2 * (((chunks.map List.length).sum : Nat) : Int))
    (chunks.flatMap (fun d => d.flatMap shortBytes)) (by omega)
  refine ⟨w, _, rd, rfl, hw, hclose, ?_, ?_, ?_, ?_, hopen, htag, hch, hrate, hbits, ?_,
    hfile, hstart⟩
  · rw [List.length_append, wavHeader_length, hdl]
  · rw [List.take_left' (wavHeader_length _ _ _ _ _)]
  · have := hf.1
    omega
  · have := hf.2
    omega
  · rw [hlength]
    omega

/-- C20 (amended) at 8000 Hz, one channel and two `Write` calls of two and one
samples. -/
theorem C20_wav_header_round_trip_witness :
    ∃ w bytes rd,
      (WavWriter.new.Open 8000 1 16 FormatTag_PCM).1 = true ∧
      (WavWriter.new.Open 8000 1 16 FormatTag_PCM).2.writeAll [[1, -2], [3]] = Except.ok w ∧
      w.Close.2 = some bytes ∧
      bytes.length = 44 + 2 * 3 ∧
      bytes.take 44 = wavHeader FormatTag_PCM 1 8000 16 (2 * ((3 : Nat) : Int)) ∧
      fieldLE32 bytes 4 = 36 + 2 * 3 ∧ fieldLE32 bytes 40 = 2 * 3 ∧
      WavReader.new.Open bytes = Except.ok (true, rd) ∧
      rd.m_nFormatTag = 1 ∧ rd.m_nChannels = 1 ∧ rd.m_nSampleRate = 8000 ∧
      rd.m_nBitsPerSample = 16 ∧ rd.m_nLength = (3 : Nat) ∧
      rd.m_pFile = some (File.mk bytes 44) ∧ rd.m_nStart = 44 :=
  C20_wav_header_round_trip 8000 1 [[1, -2], [3]] 3 (by decide) (by decide) (by decide)
    (by decide)

/-- C20 as stated fails. At 8000 Hz, one channel and one `Write` call of
`n = 2^30 - 1` samples (`2 * n < 2^31`) the file has `2^31 + 42` bytes, the
`int nTotal` of `WavReader::Open` is negative, the loop that looks for the
`data` tag is skipped, and the reader reports `Length = 817508530`, not `n`,
with `m_nStart` and the read position at byte 40, not 44. -/
theorem C20_wav_header_round_trip_counterexample :
    2 * (1073741823 : Int) < 2147483648 ∧
    ∃ w bytes rd,
      (WavWriter.new.Open 8000 1 16 FormatTag_PCM).2.writeAll
          [List.replicate 1073741823 0] = Except.ok w ∧
      w.Close.2 = some bytes ∧
      WavReader.new.Open bytes = Except.ok (true, rd) ∧
      rd.m_nLength = 817508530 ∧ rd.m_nLength ≠ 1073741823 ∧
      rd.m_nStart = 40 ∧ rd.m_pFile = some (File.mk bytes 40) := by
  refine ⟨by decide, ?_⟩
  have key : ∀ d : List Int, d.length = 1073741823 →
      ∃ w bytes rd,
        (WavWriter.new.Open 8000 1 16 FormatTag_PCM).2.writeAll [d] = Except.ok w ∧
        w.Close.2 = some bytes ∧
        WavReader.new.Open bytes = Except.ok (true, rd) ∧
        rd.m_nLength = 817508530 ∧ rd.m_nLength ≠ 1073741823 ∧
        rd.m_nStart = 40 ∧ rd.m_pFile = some (File.mk bytes 40) := by
    intro d hd
    have hs : ([d].map List.length).sum = 1073741823 := by
      rw [List.map_cons, List.map_nil, List.sum_cons, List.sum_nil, hd, Nat.add_zero]
    obtain ⟨w, hw, hclose⟩ := WavWriter.session_eq 8000 1 [d] (by rw [hs]; decide)
    have hdl := flatMap_flatMap_shortBytes_length [d]
    rw [hs] at hdl
    obtain ⟨rd, hopen, hfile, hstart, hlength⟩ :=
      WavReader.Open_large 1 8000 (2 * ((([d].map List.length).sum : Nat) : Int))
        ([d].flatMap (fun d => d.flatMap shortBytes)) (by omega)
    exact ⟨w, _, rd, hw, hclose, hopen, hlength, by rw [hlength]; decide, hstart, hfile⟩
  exact key _ (List.length_replicate _ _)

end webrtc
